import Mathlib

/-!
# FlashAttention (Hopper) host planner: a shallow embedding

The definitions below follow `hopper/flash_api.cpp` and
`hopper/flash_fwd_launch_template.h`.

Conventions of the embedding.

* A C `int` is a Lean `Int`.  The head dimension is checked to be at most 256
  before it is rounded, so its arithmetic stays far below 2^31 and is taken
  exactly.  Expressions whose operands no check bounds (the key length of a
  paged cache, the padded totals of the ragged backward pass) are wrapped at 32
  bits with `int32`.  The row counts of the GQA heuristic are taken exactly; the
  theorem on its threshold assumes that they fit an `int`.  `/` and `%` of C
  truncate toward zero: they are `Int.tdiv` and `Int.tmod`.
* `float` and `double` are IEEE 754 binary32 and binary64 with rounding to
  nearest, ties to even; their values are rationals, an infinity or NaN.
* `size_t seqlen - 1` stored into an `int` (in `set_params_fprop`) is
  `seqlen - 1` on `Int`; for `seqlen = 0` the source computes `SIZE_MAX`, whose
  conversion to `int` is `-1`, the same value.
* `TORCH_CHECK(cond, msg)` throws; a function that can throw returns
  `Except String _` and the error carries the message of the check.
-/

namespace FlashAttn

/-! ## Window / mask policy -/

/-- The window normalisation at the top of `mha_fwd` (flash_api.cpp, 374-380):
a bound that reaches the matching sequence length minus one becomes `-1`, then
the causal flag overrides both bounds with `(-1, 0)`. The same three statements
open `mha_varlen_fwd`, `mha_bwd`, `mha_varlen_bwd` and `mha_fwd_kvcache`. -/
def mha_fwd_window (is_causal : Bool) (window_size_left window_size_right : Int)
    (seqlen_q seqlen_k : Int) : Int × Int :=
  let window_size_left := if window_size_left ≥ seqlen_k - 1 then -1 else window_size_left
  let window_size_right := if window_size_right ≥ seqlen_q - 1 then -1 else window_size_right
  if is_causal then (-1, 0) else (window_size_left, window_size_right)

/-- The mask fields of `Flash_fwd_params` that `set_params_fprop` writes. -/
structure MaskParams where
  is_causal : Bool
  is_local : Bool
  window_size_left : Int
  window_size_right : Int
  deriving DecidableEq, Repr

/-- The mask part of `set_params_fprop` (flash_api.cpp, 151-160): the
classification is taken from the incoming bounds, then a half-specified window
is clamped; the second test reads the already updated left bound. -/
def set_params_fprop (seqlen_q seqlen_k : Int) (window_size_left window_size_right : Int) :
    MaskParams :=
  let is_causal : Bool := decide (window_size_left < 0) && decide (window_size_right = 0)
  let is_local : Bool :=
    (decide (window_size_left ≥ 0) || decide (window_size_right ≥ 0)) && !is_causal
  let window_size_left :=
    if window_size_left < 0 ∧ window_size_right ≥ 0 then seqlen_k - 1 else window_size_left
  let window_size_right :=
    if window_size_left ≥ 0 ∧ window_size_right < 0 then seqlen_q - 1 else window_size_right
  { is_causal := is_causal, is_local := is_local,
    window_size_left := window_size_left, window_size_right := window_size_right }

/-- The mask fields of the plan built by `mha_fwd`: the host normalisation
followed by `set_params_fprop` on the normalised bounds. -/
def mha_fwd_mask (is_causal : Bool) (window_size_left window_size_right : Int)
    (seqlen_q seqlen_k : Int) : MaskParams :=
  let w := mha_fwd_window is_causal window_size_left window_size_right seqlen_q seqlen_k
  set_params_fprop seqlen_q seqlen_k w.1 w.2

/-- The Window Policy as a function to the stored pair of bounds. -/
def window_policy (is_causal : Bool) (window_size_left window_size_right : Int)
    (seqlen_q seqlen_k : Int) : Int × Int :=
  let p := mha_fwd_mask is_causal window_size_left window_size_right seqlen_q seqlen_k
  (p.window_size_left, p.window_size_right)

/-! ## Shape / padding resolver -/

/-- The element types the entry points tell apart (`at::ScalarType`); every
other type is `Other`. -/
inductive ScalarType where
  | Half
  | BFloat16
  | Float8_e4m3fn
  | Float
  | Int32
  | Other
  deriving DecidableEq, Repr

/-- The lambda `round_multiple` of the entry points (flash_api.cpp, 414):
`(x + m - 1) / m * m` with C division. -/
def round_multiple (x m : Int) : Int := (x + m - 1).tdiv m * m

/-- The value a C `int` holds when the exact result of an expression is `x`: the
result modulo 2^32, taken in [-2^31, 2^31). The expressions of the source whose
operands no check bounds are wrapped with it. -/
def int32 (x : Int) : Int := (x + 2147483648) % 4294967296 - 2147483648

/-- The lambda `round_multiple` on the 32-bit `int` of the source, each of its
operations wrapped: `(x + m - 1) / m * m`. -/
def round_multiple_int (x m : Int) : Int :=
  int32 ((int32 (int32 (x + m) - 1)).tdiv m * m)

/-- The padding alignment of the last dimension (flash_api.cpp, 386):
`q_type == torch::kFloat8_e4m3fn ? 16 : 8`. -/
def alignment (q_type : ScalarType) : Int :=
  if q_type = ScalarType.Float8_e4m3fn then 16 else 8

/-- The value `head_size` of `mha_fwd` (flash_api.cpp, 415). -/
def head_size (q_type : ScalarType) (head_size_og : Int) : Int :=
  round_multiple head_size_og (alignment q_type)

/-- The value `head_size_rounded` (flash_api.cpp, 416; the same expression is at
627, 831, 1034 and 1331). -/
def head_size_rounded (head_size : Int) : Int :=
  if head_size ≤ 64 then 64
  else if head_size ≤ 128 then round_multiple head_size 32
  else round_multiple head_size 64

/-! ## Tensors and checks -/

/-- What the host code reads of an `at::Tensor`: element type, device, sizes and
strides. -/
structure Tensor where
  dtype : ScalarType
  is_cuda : Bool
  sizes : List Int
  strides : List Int
  deriving DecidableEq, Repr

/-- Indexing of a size or stride list; a negative index counts from the end.
An index outside the list reads 0. -/
def at_index (xs : List Int) (i : Int) : Int :=
  let j := if i < 0 then (xs.length : Int) + i else i
  if 0 ≤ j ∧ j < xs.length then xs.getD j.toNat 0 else 0

/-- The call `x.size(i)`. -/
def Tensor.size (t : Tensor) (i : Int) : Int := at_index t.sizes i

/-- The call `x.stride(i)`. -/
def Tensor.stride (t : Tensor) (i : Int) : Int := at_index t.strides i

/-- The call `x.numel()`. -/
def Tensor.numel (t : Tensor) : Int := t.sizes.prod

/-- Row-major contiguity over reversed sizes and strides: every dimension of
size other than 1 has the stride given by the product of the later sizes. -/
def contiguous_from (expected : Int) : List Int → List Int → Bool
  | s :: ss, st :: sts =>
      if s = 1 then contiguous_from expected ss sts
      else decide (st = expected) && contiguous_from (expected * s) ss sts
  | _, _ => true

/-- The call `x.is_contiguous()`: a tensor without elements is contiguous. -/
def Tensor.is_contiguous (t : Tensor) : Bool :=
  decide (t.numel = 0) || contiguous_from 1 t.sizes.reverse t.strides.reverse

/-- The macro `TORCH_CHECK(cond, msg)`: throws `msg` unless `cond` holds. -/
def TORCH_CHECK (cond : Bool) (msg : String) : Except String Unit :=
  if cond then Except.ok () else Except.error msg

/-- The macro `CHECK_DEVICE(x)` (flash_api.cpp, 53). -/
def CHECK_DEVICE (x : Tensor) (name : String) : Except String Unit :=
  TORCH_CHECK x.is_cuda (name ++ " must be on CUDA")

/-- The macro `CHECK_CONTIGUOUS(x)` (flash_api.cpp, 55). -/
def CHECK_CONTIGUOUS (x : Tensor) (name : String) : Except String Unit :=
  TORCH_CHECK x.is_contiguous (name ++ " must be contiguous")

/-- The sizes an entry point has read once its head-dimension and head-count
checks have passed. `seqlen_q`, `seqlen_k` are the fixed lengths, `total_q`,
`total_k` the ragged totals; a length the entry point does not read is 0. In the
backward entry points `head_size` is the last dimension of `q` and
`head_size_og` that of `dout`; in the forward ones `head_size` is the padded
head dimension they go on to compute from `head_size_og`. -/
structure ShapeInfo where
  batch_size : Int
  seqlen_q : Int
  seqlen_k : Int
  total_q : Int
  total_k : Int
  num_heads : Int
  num_heads_k : Int
  head_size_og : Int
  head_size : Int
  deriving DecidableEq, Repr

/-- The message of the head-dimension check of the forward entry points. -/
def msg_head_dim_fwd : String :=
  "FlashAttention forward only supports head dimension at most 256"

/-- The message of the head-dimension check of the backward entry points. -/
def msg_head_dim_bwd : String :=
  "FlashAttention backward only supports head dimension at most 256"

/-- The message of the head-count check of every entry point. -/
def msg_heads_divide : String :=
  "Number of heads in key/value must divide number of heads in query"

/-- The checks of `mha_fwd` from its first statement to the head-count check
(flash_api.cpp, 344-372). -/
def mha_fwd_shape_checks (is_sm90 : Bool) (q k v : Tensor) : Except String ShapeInfo := do
  TORCH_CHECK is_sm90 "FlashAttention only supports Hopper GPUs or newer."
  let q_type := q.dtype
  TORCH_CHECK (q_type == ScalarType.Half || q_type == ScalarType.BFloat16
      || q_type == ScalarType.Float8_e4m3fn)
    "FlashAttention only support fp16, bf16, and fp8_e4m3 data type"
  TORCH_CHECK (k.dtype == q_type) "query and key must have the same dtype"
  TORCH_CHECK (v.dtype == q_type) "query and value must have the same dtype"
  CHECK_DEVICE q "q"
  CHECK_DEVICE k "k"
  CHECK_DEVICE v "v"
  TORCH_CHECK (q.stride (-1) == 1) "Input tensor must have contiguous last dimension"
  TORCH_CHECK (k.stride (-1) == 1) "Input tensor must have contiguous last dimension"
  TORCH_CHECK (v.stride (-1) == 1 || v.stride (-3) == 1)
    "Input tensor V must have contiguous last dimension or contiguous seqlen dimension"
  if v.stride (-1) != 1 then
    TORCH_CHECK (q_type == ScalarType.Float8_e4m3fn)
      "Only fp8_e4m3 data type supports input tensor V having contiguous seqlen dimension"
  let batch_size := q.size 0
  let seqlen_q := q.size 1
  let num_heads := q.size 2
  let head_size_og := q.size 3
  let seqlen_k := k.size 1
  let num_heads_k := k.size 2
  TORCH_CHECK (decide (head_size_og ≤ 256)) msg_head_dim_fwd
  TORCH_CHECK (num_heads.tmod num_heads_k == 0) msg_heads_divide
  pure { batch_size := batch_size, seqlen_q := seqlen_q, seqlen_k := seqlen_k,
         total_q := 0, total_k := 0, num_heads := num_heads, num_heads_k := num_heads_k,
         head_size_og := head_size_og, head_size := head_size q_type head_size_og }

/-- The checks of `mha_varlen_fwd` from its first statement to the head-count
check (flash_api.cpp, 543-571). -/
def mha_varlen_fwd_shape_checks (is_sm90 : Bool) (q k v cu_seqlens_q cu_seqlens_k : Tensor) :
    Except String ShapeInfo := do
  TORCH_CHECK is_sm90 "FlashAttention only supports Hopper GPUs or newer."
  let q_type := q.dtype
  TORCH_CHECK (q_type == ScalarType.Half || q_type == ScalarType.BFloat16
      || q_type == ScalarType.Float8_e4m3fn)
    "FlashAttention only support fp16, bf16, and fp8_e4m3 data type"
  TORCH_CHECK (k.dtype == q_type) "query and key must have the same dtype"
  TORCH_CHECK (v.dtype == q_type) "query and value must have the same dtype"
  CHECK_DEVICE q "q"
  CHECK_DEVICE k "k"
  CHECK_DEVICE v "v"
  CHECK_DEVICE cu_seqlens_q "cu_seqlens_q"
  CHECK_DEVICE cu_seqlens_k "cu_seqlens_k"
  TORCH_CHECK (q.stride (-1) == 1) "Input tensor must have contiguous last dimension"
  TORCH_CHECK (k.stride (-1) == 1) "Input tensor must have contiguous last dimension"
  TORCH_CHECK (v.stride (-1) == 1) "Input tensor must have contiguous last dimension"
  TORCH_CHECK (cu_seqlens_q.stride (-1) == 1) "cu_seqlens_q must have contiguous last dimension"
  TORCH_CHECK (cu_seqlens_k.stride (-1) == 1) "cu_seqlens_q must have contiguous last dimension"
  let batch_size := cu_seqlens_q.numel - 1
  let num_heads := q.size 1
  let head_size_og := q.size 2
  let num_heads_k := k.size 1
  let total_q := q.size 0
  let total_k := k.size 0
  TORCH_CHECK (decide (head_size_og ≤ 256)) msg_head_dim_fwd
  TORCH_CHECK (num_heads.tmod num_heads_k == 0) msg_heads_divide
  pure { batch_size := batch_size, seqlen_q := 0, seqlen_k := 0,
         total_q := total_q, total_k := total_k, num_heads := num_heads,
         num_heads_k := num_heads_k, head_size_og := head_size_og,
         head_size := head_size q_type head_size_og }

/-- The checks of `mha_bwd` from its first statement to the head-count check
(flash_api.cpp, 790-828). `disable_backward` is the build flag
`FLASHATTENTION_DISABLE_BACKWARD`. -/
def mha_bwd_shape_checks (disable_backward is_sm9x : Bool)
    (dout q k v out softmax_lse : Tensor) : Except String ShapeInfo := do
  if disable_backward then
    TORCH_CHECK false "This flash attention build does not support backward."
  TORCH_CHECK is_sm9x "FlashAttentionHopper only supports Hopper GPUs or newer."
  let q_type := q.dtype
  TORCH_CHECK (q_type == ScalarType.Half || q_type == ScalarType.BFloat16)
    "FlashAttention only support fp16 and bf16 data type"
  TORCH_CHECK (k.dtype == q_type) "query and key must have the same dtype"
  TORCH_CHECK (v.dtype == q_type) "query and value must have the same dtype"
  TORCH_CHECK (out.dtype == q_type) "query and out must have the same dtype"
  TORCH_CHECK (dout.dtype == q_type) "query and dout must have the same dtype"
  CHECK_DEVICE q "q"
  CHECK_DEVICE k "k"
  CHECK_DEVICE v "v"
  CHECK_DEVICE out "out"
  CHECK_DEVICE dout "dout"
  CHECK_DEVICE softmax_lse "softmax_lse"
  TORCH_CHECK (q.stride (-1) == 1) "Input tensor must have contiguous last dimension"
  TORCH_CHECK (k.stride (-1) == 1) "Input tensor must have contiguous last dimension"
  TORCH_CHECK (v.stride (-1) == 1) "Input tensor must have contiguous last dimension"
  TORCH_CHECK (out.stride (-1) == 1) "out tensor must have contiguous last dimension"
  TORCH_CHECK (dout.stride (-1) == 1) "dout tensor must have contiguous last dimension"
  let batch_size := q.size 0
  let seqlen_q := q.size 1
  let num_heads := q.size 2
  let head_size_og := dout.size 3
  let head_size := q.size 3
  let seqlen_k := k.size 1
  let num_heads_k := k.size 2
  TORCH_CHECK (decide (batch_size > 0)) "batch size must be positive"
  TORCH_CHECK (head_size.tmod 8 == 0) "head_size should be a multiple of 8"
  TORCH_CHECK (decide (head_size ≤ 256)) msg_head_dim_bwd
  TORCH_CHECK (num_heads.tmod num_heads_k == 0) msg_heads_divide
  pure { batch_size := batch_size, seqlen_q := seqlen_q, seqlen_k := seqlen_k,
         total_q := 0, total_k := 0, num_heads := num_heads, num_heads_k := num_heads_k,
         head_size_og := head_size_og, head_size := head_size }

/-- The checks of `mha_varlen_bwd` from its first statement to the head-count
check (flash_api.cpp, 989-1031). -/
def mha_varlen_bwd_shape_checks (disable_backward is_sm9x : Bool)
    (dout q k v out softmax_lse cu_seqlens_q cu_seqlens_k : Tensor) :
    Except String ShapeInfo := do
  if disable_backward then
    TORCH_CHECK false "This flash attention build does not support backward."
  TORCH_CHECK is_sm9x "FlashAttentionHopper only supports Hopper GPUs or newer."
  let q_type := q.dtype
  TORCH_CHECK (q_type == ScalarType.Half || q_type == ScalarType.BFloat16)
    "FlashAttention only support fp16 and bf16 data type"
  TORCH_CHECK (k.dtype == q_type) "query and key must have the same dtype"
  TORCH_CHECK (v.dtype == q_type) "query and value must have the same dtype"
  TORCH_CHECK (out.dtype == q_type) "query and out must have the same dtype"
  TORCH_CHECK (dout.dtype == q_type) "query and dout must have the same dtype"
  TORCH_CHECK (cu_seqlens_q.dtype == ScalarType.Int32) "cu_seqlens_q must have dtype int32"
  TORCH_CHECK (cu_seqlens_k.dtype == ScalarType.Int32) "cu_seqlens_k must have dtype int32"
  CHECK_DEVICE q "q"
  CHECK_DEVICE k "k"
  CHECK_DEVICE v "v"
  CHECK_DEVICE out "out"
  CHECK_DEVICE dout "dout"
  CHECK_DEVICE softmax_lse "softmax_lse"
  CHECK_DEVICE cu_seqlens_q "cu_seqlens_q"
  CHECK_DEVICE cu_seqlens_k "cu_seqlens_k"
  TORCH_CHECK (q.stride (-1) == 1) "Input tensor must have contiguous last dimension"
  TORCH_CHECK (k.stride (-1) == 1) "Input tensor must have contiguous last dimension"
  TORCH_CHECK (v.stride (-1) == 1) "Input tensor must have contiguous last dimension"
  TORCH_CHECK (out.stride (-1) == 1) "out tensor must have contiguous last dimension"
  TORCH_CHECK (dout.stride (-1) == 1) "dout tensor must have contiguous last dimension"
  CHECK_CONTIGUOUS cu_seqlens_q "cu_seqlens_q"
  CHECK_CONTIGUOUS cu_seqlens_k "cu_seqlens_k"
  let total_q := q.size 0
  let batch_size := cu_seqlens_q.numel - 1
  let num_heads := q.size 1
  let head_size_og := dout.size 2
  let head_size := q.size 2
  let total_k := k.size 0
  let num_heads_k := k.size 1
  TORCH_CHECK (decide (batch_size > 0)) "batch size must be positive"
  TORCH_CHECK (head_size.tmod 8 == 0) "head_size should be a multiple of 8"
  TORCH_CHECK (decide (head_size ≤ 256)) msg_head_dim_bwd
  TORCH_CHECK (num_heads.tmod num_heads_k == 0) msg_heads_divide
  pure { batch_size := batch_size, seqlen_q := 0, seqlen_k := 0,
         total_q := total_q, total_k := total_k, num_heads := num_heads,
         num_heads_k := num_heads_k, head_size_og := head_size_og, head_size := head_size }

/-- The checks of `mha_fwd_kvcache` from its first statement to the head-count
check (flash_api.cpp, 1215-1263). An absent optional argument is `none`;
`cache_batch_idx_given` is `cache_batch_idx_.has_value()`. -/
def mha_fwd_kvcache_shape_checks (is_sm90 : Bool) (q kcache vcache : Tensor)
    (page_table_ cu_seqlens_q_ : Option Tensor) (max_seqlen_q_ : Option Int)
    (cache_batch_idx_given : Bool) : Except String ShapeInfo := do
  TORCH_CHECK is_sm90 "FlashAttention only supports Hopper GPUs or newer."
  let q_type := q.dtype
  TORCH_CHECK (q_type == ScalarType.Half || q_type == ScalarType.BFloat16
      || q_type == ScalarType.Float8_e4m3fn)
    "FlashAttention only support fp16, bf16, and fp8_e4m3 data type"
  TORCH_CHECK (kcache.dtype == q_type) "query and key must have the same dtype"
  TORCH_CHECK (vcache.dtype == q_type) "query and value must have the same dtype"
  CHECK_DEVICE q "q"
  CHECK_DEVICE kcache "kcache"
  CHECK_DEVICE vcache "vcache"
  TORCH_CHECK (q.stride (-1) == 1) "Input tensor must have contiguous last dimension"
  TORCH_CHECK (kcache.stride (-1) == 1) "Input tensor must have contiguous last dimension"
  TORCH_CHECK (vcache.stride (-1) == 1) "Input tensor must have contiguous last dimension"
  let paged_KV := page_table_.isSome
  match page_table_ with
  | some page_table =>
      CHECK_DEVICE page_table "page_table"
      TORCH_CHECK (page_table.dtype == ScalarType.Int32) "page_table must have dtype torch.int32"
      TORCH_CHECK (page_table.stride (-1) == 1) "page_table must have contiguous last dimension"
  | none => pure ()
  let is_varlen_q := cu_seqlens_q_.isSome
  match cu_seqlens_q_ with
  | some cu_seqlens_q =>
      CHECK_DEVICE cu_seqlens_q "cu_seqlens_q"
      TORCH_CHECK (cu_seqlens_q.dtype == ScalarType.Int32)
        "cu_seqlens_q must have dtype torch.int32"
      TORCH_CHECK (cu_seqlens_q.stride (-1) == 1)
        "cu_seqlens_q must have contiguous last dimension"
      TORCH_CHECK max_seqlen_q_.isSome
        "max_seqlen_q must be provided if cu_seqlens_q is provided"
  | none => pure ()
  let batch_size :=
    match cu_seqlens_q_ with
    | none => q.size 0
    | some cu_seqlens_q => cu_seqlens_q.size 0 - 1
  let seqlen_q := if !is_varlen_q then q.size 1 else max_seqlen_q_.getD 0
  let total_q := if !is_varlen_q then batch_size * q.size 1 else q.size 0
  let num_heads := q.size (-2)
  let head_size_og := q.size (-1)
  let num_heads_k := kcache.size 2
  let batch_size_k :=
    match page_table_ with
    | none => kcache.size 0
    | some page_table => page_table.size 0
  if !cache_batch_idx_given then
    TORCH_CHECK (batch_size == batch_size_k) "batch_size must be equal to batch_size_k"
  TORCH_CHECK (decide (head_size_og ≤ 256)) msg_head_dim_fwd
  TORCH_CHECK (num_heads.tmod num_heads_k == 0) msg_heads_divide
  let max_num_pages_per_seq :=
    match page_table_ with
    | none => 0
    | some page_table => page_table.size 1
  let page_size := if !paged_KV then 1 else kcache.size 1
  let seqlen_k :=
    if !paged_KV then kcache.size 1 else int32 (max_num_pages_per_seq * page_size)
  pure { batch_size := batch_size, seqlen_q := seqlen_q, seqlen_k := seqlen_k,
         total_q := total_q, total_k := 0, num_heads := num_heads,
         num_heads_k := num_heads_k, head_size_og := head_size_og,
         head_size := head_size q_type head_size_og }

/-! ## GQA packing heuristic and variant dispatch -/

/-- Modelled from the spec: `cute::round_up` of the CuTe library, which the
heuristic calls and whose source is not part of this code base; "rounded up to
`kBlockM`" is the least multiple of the block size that is not smaller,
computed as `(a + b - 1) / b * b`. -/
def round_up (a b : Int) : Int := (a + b - 1).tdiv b * b

/-- Rounding of a rational to the nearest integer, a tie going to the even
one. -/
def round_half_even (q : ℚ) : Int :=
  if q - ⌊q⌋ < 1 / 2 then ⌊q⌋
  else if 1 / 2 < q - ⌊q⌋ then ⌊q⌋ + 1
  else if ⌊q⌋ % 2 = 0 then ⌊q⌋ else ⌊q⌋ + 1

/-- Rounding to a binary floating-point format with `p` significant bits, to
nearest with ties to even (the default rounding of IEEE 754): `q` is scaled by
the unit in the last place of its binade, rounded to an integer and scaled back.
The exponent range is not limited; the values rounded here come from C `int`s and
their quotients, which lie between 2^-31 and 2^31, inside the normal range of
both `float` and `double`. -/
def round_to_precision (p : Nat) (q : ℚ) : ℚ :=
  if q = 0 then 0
  else (round_half_even (q / ((2 : ℚ) ^ Int.log 2 |q| / 2 ^ (p - 1))) : ℚ)
    * ((2 : ℚ) ^ Int.log 2 |q| / 2 ^ (p - 1))

/-- The value of a `float` or `double` expression: a rational, an infinity or
NaN. -/
inductive FloatValue where
  | finite (q : ℚ)
  | infinite (negative : Bool)
  | nan
  deriving DecidableEq, Repr

/-- The conversion `float(n)` of an `int`: binary32, 24 significant bits. -/
def float_of_int (n : Int) : ℚ := round_to_precision 24 (n : ℚ)

/-- The quotient `x / y` of two finite `float` values, in binary32: a zero
divisor gives NaN for a zero dividend and an infinity otherwise. -/
def float_div (x y : ℚ) : FloatValue :=
  if y = 0 then
    if x = 0 then FloatValue.nan else FloatValue.infinite (decide (x < 0))
  else FloatValue.finite (round_to_precision 24 (x / y))

/-- The product `c * x` of a finite `double` and a `float` promoted to `double`,
in binary64 (53 significant bits). -/
def double_mul (c : ℚ) (x : FloatValue) : FloatValue :=
  match x with
  | FloatValue.finite q => FloatValue.finite (round_to_precision 53 (c * q))
  | FloatValue.infinite negative =>
      if c = 0 then FloatValue.nan else FloatValue.infinite (xor negative (decide (c < 0)))
  | FloatValue.nan => FloatValue.nan

/-- The comparison `x < y` of floating-point values: false when either is NaN. -/
def FloatValue.lt : FloatValue → FloatValue → Bool
  | FloatValue.finite a, FloatValue.finite b => decide (a < b)
  | FloatValue.finite _, FloatValue.infinite negative => !negative
  | FloatValue.infinite negative, FloatValue.finite _ => negative
  | FloatValue.infinite negative, FloatValue.infinite negative2 => negative && !negative2
  | _, _ => false

/-- The lambda `should_pack_gqa` of `run_mha_fwd_dispatch`
(flash_fwd_launch_template.h, 153-158): the two efficiencies are `float`
quotients of converted `int`s, `0.95` is a `double` literal, and the comparison
is made in `double` between the promoted unpacked efficiency and the `double`
product. -/
def should_pack_gqa (seqlen_q qhead_per_khead blockM : Int) : Bool :=
  let nopack_gqa_efficiency :=
    float_div (float_of_int seqlen_q) (float_of_int (round_up seqlen_q blockM))
  let pack_gqa_efficiency :=
    float_div (float_of_int (seqlen_q * qhead_per_khead))
      (float_of_int (round_up (seqlen_q * qhead_per_khead) blockM))
  FloatValue.lt nopack_gqa_efficiency
    (double_mul (round_to_precision 53 (95 / 100)) pack_gqa_efficiency)

/-- The fields of `Flash_fwd_params` that `run_mha_fwd_dispatch` reads. A
pointer field is `true` when the pointer is not null. -/
structure Flash_fwd_params where
  h : Int
  h_k : Int
  seqlen_q : Int
  pack_gqa : Int
  cu_seqlens_q : Bool
  cu_seqlens_k : Bool
  seqused_q : Bool
  seqused_k : Bool
  leftpad_k : Bool
  page_table : Bool
  knew_ptr : Bool
  deriving DecidableEq, Repr

/-- The value of `params.pack_gqa` set by the forward entry points
(flash_api.cpp, 465): `pack_gqa_.has_value() ? int(pack_gqa_.value()) : -1`. -/
def pack_gqa_of (pack_gqa_ : Option Bool) : Int :=
  match pack_gqa_ with
  | some b => if b then 1 else 0
  | none => -1

/-- The boolean template arguments with which `run_flash_fwd` is instantiated,
and its tile height. -/
structure FwdVariant where
  kBlockM : Int
  ClusterM : Int
  Is_causal : Bool
  Is_local : Bool
  Has_softcap : Bool
  Varlen : Bool
  PagedKV : Bool
  AppendKV : Bool
  PackGQA : Bool
  Split : Bool
  V_colmajor : Bool
  deriving DecidableEq, Repr

/-- The local `pack_gqa` of `run_mha_fwd_dispatch`
(flash_fwd_launch_template.h, 162-166). -/
def pack_gqa_decision (kBlockM : Int) (Is_causal Varlen : Bool) (params : Flash_fwd_params) :
    Bool :=
  if params.pack_gqa ≥ 0 then decide (params.pack_gqa ≠ 0)
  else decide (params.h ≠ params.h_k) &&
    (Varlen || Is_causal || should_pack_gqa params.seqlen_q (params.h.tdiv params.h_k) kBlockM)

/-- The function `run_mha_fwd_dispatch` (flash_fwd_launch_template.h, 150-182),
as the instantiation of `run_flash_fwd` it launches. `Is_local`, `V_colmajor`
are template arguments of the dispatcher that the call does not forward. -/
def run_mha_fwd_dispatch (kBlockM : Int) (Is_causal Is_local Split V_colmajor : Bool)
    (params : Flash_fwd_params) : FwdVariant :=
  let _ := Is_local
  let _ := V_colmajor
  let Varlen := params.cu_seqlens_q || params.cu_seqlens_k || params.seqused_q
    || params.seqused_k || params.leftpad_k
  let pack_gqa := pack_gqa_decision kBlockM Is_causal Varlen params
  let PagedKV := params.page_table
  let AppendKV := params.knew_ptr
  let PackGQA := pack_gqa
  { kBlockM := kBlockM, ClusterM := 1, Is_causal := Is_causal, Is_local := false,
    Has_softcap := false, Varlen := Varlen, PagedKV := PagedKV,
    AppendKV := AppendKV && Varlen, PackGQA := PackGQA, Split := Split,
    V_colmajor := false }

/-- The utilisation of `n` query rows under tile height `kBlockM`, in the words
of the specification: the rows divided by the rows rounded up to the tile
height, as an exact rational. -/
def utilisation (n kBlockM : Int) : ℚ := (n : ℚ) / (round_up n kBlockM : ℚ)

/-! ## Tile scheduler selection -/

/-- The tile schedulers `run_flash_fwd` chooses from
(flash_fwd_launch_template.h, 38-44). -/
inductive Scheduler where
  | SingleTileScheduler
  | VarlenDynamicPersistentTileScheduler
  | StaticPersistentTileScheduler
  | DynamicPersistentTileScheduler
  deriving DecidableEq, Repr

/-- The type alias `SchedulerPersistent` of `run_flash_fwd`
(flash_fwd_launch_template.h, 38-43). -/
def SchedulerPersistent (v : FwdVariant) : Scheduler :=
  if v.Varlen then Scheduler.VarlenDynamicPersistentTileScheduler
  else if !v.Is_causal && !v.Is_local then Scheduler.StaticPersistentTileScheduler
  else Scheduler.DynamicPersistentTileScheduler

/-- The type alias `Scheduler` of `run_flash_fwd`
(flash_fwd_launch_template.h, 44-46). -/
def run_flash_fwd_Scheduler (v : FwdVariant) : Scheduler :=
  if v.Split || v.PagedKV || v.AppendKV then Scheduler.SingleTileScheduler
  else SchedulerPersistent v

/-- A `static_assert(cond, msg)` of a template: an instantiation for which the
condition is false is an error with the message. -/
def static_assert (cond : Bool) (msg : String) : Except String Unit :=
  if cond then Except.ok () else Except.error msg

/-- The kernel launch of `run_flash_fwd`: the instantiated variant and the
scheduler the kernel is built with. -/
structure FwdLaunch where
  variant : FwdVariant
  scheduler : Scheduler
  deriving DecidableEq, Repr

/-- The function `run_flash_fwd` (flash_fwd_launch_template.h, 25-148) as far as
the variant decides it: its three `static_assert`s and the scheduler of the
kernel it launches. -/
def run_flash_fwd (v : FwdVariant) : Except String FwdLaunch := do
  static_assert (!(v.Is_causal && v.Is_local))
    "Causal and Local cannot be enabled at the same time"
  static_assert (!(v.AppendKV && v.V_colmajor))
    "AppendKV and V_colmajor cannot be enabled at the same time"
  static_assert (!(v.AppendKV && !v.Varlen)) "AppendKV requires Varlen"
  pure { variant := v, scheduler := run_flash_fwd_Scheduler v }

/-- The function `run_mha_fwd_dispatch` with the call of `run_flash_fwd` it ends
in (flash_fwd_launch_template.h, 150-182). -/
def run_mha_fwd_dispatch_launch (kBlockM : Int) (Is_causal Is_local Split V_colmajor : Bool)
    (params : Flash_fwd_params) : Except String FwdLaunch :=
  run_flash_fwd (run_mha_fwd_dispatch kBlockM Is_causal Is_local Split V_colmajor params)

/-! ## Forward entry points -/

/-- The strides of a freshly allocated row-major tensor of the given sizes. -/
def contiguous_strides : List Int → List Int
  | [] => []
  | _ :: ss => (ss.map (fun s => max s 1)).prod :: contiguous_strides ss

/-- The call `torch::empty(sizes, opts.dtype(dtype))` with `opts` taken from the
tensor `like` (its device). -/
def torch_empty (like : Tensor) (sizes : List Int) (dtype : ScalarType) : Tensor :=
  { dtype := dtype, is_cuda := like.is_cuda, sizes := sizes,
    strides := contiguous_strides sizes }

/-- The call `torch::empty_like(x, opts.dtype(dtype))`: the sizes of `x`; the
strides are taken row-major. -/
def empty_like (x : Tensor) (dtype : ScalarType) : Tensor :=
  torch_empty x x.sizes dtype

/-- The list with its last entry replaced. -/
def set_last : List Int → Int → List Int
  | [], _ => []
  | [_], n => [n]
  | x :: y :: ys, n => x :: set_last (y :: ys) n

/-- The lambda `pad` of the entry points (flash_api.cpp, 388-390): a tensor whose
last dimension is no multiple of the alignment is copied into a fresh tensor
with the last dimension extended to the next multiple. -/
def pad (x : Tensor) (alignment : Int) : Tensor :=
  if (x.size (-1)).tmod alignment == 0 then x
  else torch_empty x
    (set_last x.sizes (x.size (-1) + (alignment - (x.size (-1)).tmod alignment))) x.dtype

/-- The call `out.index({"...", Slice(None, n)})`: the last dimension is cut to
its first `n` entries. -/
def slice_last (x : Tensor) (n : Int) : Tensor :=
  { x with sizes := set_last x.sizes (min n (x.size (-1))) }

/-- The macro `CHECK_SHAPE(x, ...)` (flash_api.cpp, 54); `text` is the
stringified argument list. -/
def CHECK_SHAPE (x : Tensor) (name : String) (shape : List Int) (text : String) :
    Except String Unit :=
  TORCH_CHECK (x.sizes == shape) (name ++ " must have shape (" ++ text ++ ")")

/-- A conditional statement `if (c) { ... }` around checks. -/
def if_then (c : Bool) (x : Except String Unit) : Except String Unit :=
  if c then x else pure ()

/-- The element type of the output (flash_api.cpp, 401):
`q_type == Float8_e4m3fn ? BFloat16 : q_type`. -/
def out_type_of (q_type : ScalarType) : ScalarType :=
  if q_type = ScalarType.Float8_e4m3fn then ScalarType.BFloat16 else q_type

/-- The block that resolves the output tensor (flash_api.cpp, 402-412; the same
block is at 613-623 and 1313-1327): a supplied output is checked and used unless
the head dimension needs padding, otherwise a tensor like the padded query is
allocated. -/
def resolve_out (out_ : Option Tensor) (q_padded : Tensor) (out_type : ScalarType)
    (shape : List Int) (text : String) (head_size_og alignment : Int) :
    Except String Tensor :=
  match out_ with
  | some out => do
      TORCH_CHECK (out.dtype == out_type)
        "For FP16/BF16 input, output must have the same dtype as inputs. For FP8 input, output must have dtype BF16"
      CHECK_DEVICE out "out"
      TORCH_CHECK (out.stride (-1) == 1) "Output tensor must have contiguous last dimension"
      CHECK_SHAPE out "out" shape text
      pure (if head_size_og.tmod alignment != 0 then empty_like q_padded out_type else out)
  | none => pure (empty_like q_padded out_type)

/-- The build-dependent check at the end of `set_params_fprop`
(flash_api.cpp, 162-165); `disable_local` is `FLASHATTENTION_DISABLE_LOCAL`. The
dropout checks of `set_params_fprop` always pass in the forward entry points,
which call it with `p_dropout = 0`. -/
def set_params_fprop_checks (disable_local : Bool) (mask : MaskParams) :
    Except String Unit :=
  if_then disable_local
    (TORCH_CHECK (mask.is_causal ||
        (decide (mask.window_size_left < 0) && decide (mask.window_size_right < 0)))
      "This flash attention build does not support local attention.")

/-- The message of the split-count check of the forward entry points. -/
def msg_num_splits_fwd : String := "num_splits > 256 not supported"

/-- The message of the split-count check of `mha_combine`. -/
def msg_num_splits_combine : String :=
  "FlashAttention combine only supports num_splits at most 256"

/-- The split-count block of the forward entry points (flash_api.cpp, 449-450,
661-662, 1367-1368): `if (num_splits > 1) { TORCH_CHECK(num_splits <= 256) }`. -/
def check_num_splits (num_splits : Int) : Except String Unit :=
  if_then (decide (num_splits > 1))
    (TORCH_CHECK (decide (num_splits ≤ 256)) msg_num_splits_fwd)

/-- One of the three descale blocks of the fp8 path (flash_api.cpp, 471-477). -/
def check_descale (x_ : Option Tensor) (name : String) : Except String Unit :=
  match x_ with
  | some x => do
      CHECK_DEVICE x name
      CHECK_SHAPE x name [1] "1"
  | none => pure ()

/-- The fp8 descale checks (flash_api.cpp, 470-495). -/
def check_descales (q_type : ScalarType) (q_descale_ k_descale_ v_descale_ : Option Tensor) :
    Except String Unit :=
  if_then (q_type == ScalarType.Float8_e4m3fn) (do
    check_descale q_descale_ "q_descale"
    check_descale k_descale_ "k_descale"
    check_descale v_descale_ "v_descale")

/-- What a buffer holds when an entry point returns. -/
inductive Fill where
  | Uninitialized
  | Kernel
  | Zero
  | PosInf
  deriving DecidableEq, Repr

/-- What a forward entry point has done when it returns: the first returned
tensor `out`, the unsliced `out_padded`, the log-sum-exp tensor, the plan handed
to `run_mha_fwd`, whether `run_mha_fwd` and `run_mha_fwd_combine` were called,
and what the output and log-sum-exp buffers hold. -/
structure FwdOutcome where
  out : Tensor
  out_padded : Tensor
  softmax_lse : Tensor
  q_padded : Tensor
  mask : MaskParams
  params : Flash_fwd_params
  d : Int
  d_rounded : Int
  num_splits : Int
  kernel_launched : Bool
  combine_launched : Bool
  out_fill : Fill
  lse_fill : Fill
  deriving DecidableEq, Repr

/-- The arguments of `mha_fwd` that decide its control flow, with the device
property `is_sm90` and the build flag `disable_local`. -/
structure FwdArgs where
  is_sm90 : Bool
  disable_local : Bool
  q : Tensor
  k : Tensor
  v : Tensor
  out_ : Option Tensor
  is_causal : Bool
  q_descale_ : Option Tensor
  k_descale_ : Option Tensor
  v_descale_ : Option Tensor
  window_size_left : Int
  window_size_right : Int
  sink_token_length : Int
  num_splits : Int
  pack_gqa_ : Option Bool
  deriving DecidableEq, Repr

/-- The function `mha_fwd` (flash_api.cpp, 326-518). -/
def mha_fwd (a : FwdArgs) : Except String FwdOutcome := do
  let s ← mha_fwd_shape_checks a.is_sm90 a.q a.k a.v
  let q_type := a.q.dtype
  let w := mha_fwd_window a.is_causal a.window_size_left a.window_size_right
    s.seqlen_q s.seqlen_k
  CHECK_SHAPE a.q "q" [s.batch_size, s.seqlen_q, s.num_heads, s.head_size_og]
    "batch_size, seqlen_q, num_heads, head_size_og"
  CHECK_SHAPE a.k "k" [s.batch_size, s.seqlen_k, s.num_heads_k, s.head_size_og]
    "batch_size, seqlen_k, num_heads_k, head_size_og"
  CHECK_SHAPE a.v "v" [s.batch_size, s.seqlen_k, s.num_heads_k, s.head_size_og]
    "batch_size, seqlen_k, num_heads_k, head_size_og"
  let alignment := alignment q_type
  let q_padded := pad a.q alignment
  let v_padded := pad a.v alignment
  if_then (v_padded.stride (-1) != 1)
    (TORCH_CHECK ((v_padded.stride (-1)).tmod 16 == 0 && (v_padded.stride (-2)).tmod 16 == 0
        && (v_padded.stride (-4)).tmod 16 == 0)
      "If input tensor V has contiguous seqlen dimension, the others dimension must have stride divisible by 16")
  let out ← resolve_out a.out_ q_padded (out_type_of q_type)
    [s.batch_size, s.seqlen_q, s.num_heads, s.head_size_og]
    "batch_size, seqlen_q, num_heads, head_size_og" s.head_size_og alignment
  let head_size := round_multiple s.head_size_og alignment
  let softmax_lse := torch_empty a.q [s.batch_size, s.num_heads, s.seqlen_q] ScalarType.Float
  let mask := set_params_fprop s.seqlen_q s.seqlen_k w.1 w.2
  set_params_fprop_checks a.disable_local mask
  check_num_splits a.num_splits
  check_descales q_type a.q_descale_ a.k_descale_ a.v_descale_
  let launch := decide (s.seqlen_k > 0) && decide (s.batch_size > 0)
  let zero_fill := !launch && decide (s.batch_size > 0)
  pure { out := if s.head_size_og.tmod alignment != 0 then slice_last out s.head_size_og
                else out,
         out_padded := out,
         softmax_lse := softmax_lse,
         q_padded := q_padded,
         mask := mask,
         params := { h := s.num_heads, h_k := s.num_heads_k, seqlen_q := s.seqlen_q,
                     pack_gqa := pack_gqa_of a.pack_gqa_, cu_seqlens_q := false,
                     cu_seqlens_k := false, seqused_q := false, seqused_k := false,
                     leftpad_k := false, page_table := false, knew_ptr := false },
         d := head_size,
         d_rounded := head_size_rounded head_size,
         num_splits := a.num_splits,
         kernel_launched := launch,
         combine_launched := launch && decide (a.num_splits > 1),
         out_fill := if launch then Fill.Kernel
                     else if zero_fill then Fill.Zero else Fill.Uninitialized,
         lse_fill := if launch then Fill.Kernel
                     else if zero_fill then Fill.PosInf else Fill.Uninitialized }

/-- The arguments of `mha_varlen_fwd` that decide its control flow, with the
device property `is_sm90` and the build flag `disable_local`. -/
structure VarlenFwdArgs where
  is_sm90 : Bool
  disable_local : Bool
  q : Tensor
  k : Tensor
  v : Tensor
  out_ : Option Tensor
  cu_seqlens_q : Tensor
  cu_seqlens_k : Tensor
  seqused_q_ : Option Tensor
  seqused_k_ : Option Tensor
  max_seqlen_q : Int
  max_seqlen_k : Int
  is_causal : Bool
  q_descale_ : Option Tensor
  k_descale_ : Option Tensor
  v_descale_ : Option Tensor
  window_size_left : Int
  window_size_right : Int
  num_splits : Int
  pack_gqa_ : Option Bool
  deriving DecidableEq, Repr

/-- One of the two `seqused` blocks of `mha_varlen_fwd` (flash_api.cpp,
585-598). -/
def varlen_check_seqused (x_ : Option Tensor) (name : String) (batch_size : Int) :
    Except String Unit :=
  match x_ with
  | some x => do
      TORCH_CHECK (x.dtype == ScalarType.Int32) (name ++ " must have dtype int32")
      TORCH_CHECK x.is_cuda (name ++ " must be on CUDA device")
      TORCH_CHECK x.is_contiguous (name ++ " must be contiguous")
      CHECK_SHAPE x name [batch_size] "batch_size"
  | none => pure ()

/-- The function `mha_varlen_fwd` (flash_api.cpp, 520-736). -/
def mha_varlen_fwd (a : VarlenFwdArgs) : Except String FwdOutcome := do
  let s ← mha_varlen_fwd_shape_checks a.is_sm90 a.q a.k a.v a.cu_seqlens_q a.cu_seqlens_k
  let q_type := a.q.dtype
  let w := mha_fwd_window a.is_causal a.window_size_left a.window_size_right
    a.max_seqlen_q a.max_seqlen_k
  CHECK_SHAPE a.q "q" [s.total_q, s.num_heads, s.head_size_og]
    "total_q, num_heads, head_size_og"
  CHECK_SHAPE a.k "k" [s.total_k, s.num_heads_k, s.head_size_og]
    "total_k, num_heads_k, head_size_og"
  CHECK_SHAPE a.v "v" [s.total_k, s.num_heads_k, s.head_size_og]
    "total_k, num_heads_k, head_size_og"
  CHECK_SHAPE a.cu_seqlens_q "cu_seqlens_q" [s.batch_size + 1] "batch_size + 1"
  CHECK_SHAPE a.cu_seqlens_k "cu_seqlens_k" [s.batch_size + 1] "batch_size + 1"
  varlen_check_seqused a.seqused_q_ "seqused_q" s.batch_size
  varlen_check_seqused a.seqused_k_ "seqused_k" s.batch_size
  let alignment := alignment q_type
  let q_padded := pad a.q alignment
  let out ← resolve_out a.out_ q_padded (out_type_of q_type)
    [s.total_q, s.num_heads, s.head_size_og]
    "total_q, num_heads, head_size_og" s.head_size_og alignment
  let head_size := round_multiple s.head_size_og alignment
  let softmax_lse := torch_empty a.q [s.num_heads, s.total_q] ScalarType.Float
  let mask := set_params_fprop a.max_seqlen_q a.max_seqlen_k w.1 w.2
  set_params_fprop_checks a.disable_local mask
  check_num_splits a.num_splits
  check_descales q_type a.q_descale_ a.k_descale_ a.v_descale_
  let launch := decide (a.max_seqlen_k > 0) && decide (s.batch_size > 0)
  let zero_fill := !launch && decide (s.batch_size > 0)
  pure { out := if s.head_size_og.tmod 8 != 0 then slice_last out s.head_size_og else out,
         out_padded := out,
         softmax_lse := softmax_lse,
         q_padded := q_padded,
         mask := mask,
         params := { h := s.num_heads, h_k := s.num_heads_k, seqlen_q := a.max_seqlen_q,
                     pack_gqa := pack_gqa_of a.pack_gqa_, cu_seqlens_q := true,
                     cu_seqlens_k := true, seqused_q := a.seqused_q_.isSome,
                     seqused_k := a.seqused_k_.isSome,
                     leftpad_k := false, page_table := false, knew_ptr := false },
         d := head_size,
         d_rounded := head_size_rounded head_size,
         num_splits := a.num_splits,
         kernel_launched := launch,
         combine_launched := launch && decide (a.num_splits > 1),
         out_fill := if launch then Fill.Kernel
                     else if zero_fill then Fill.Zero else Fill.Uninitialized,
         lse_fill := if launch then Fill.Kernel
                     else if zero_fill then Fill.PosInf else Fill.Uninitialized }

/-- The arguments of `mha_fwd_kvcache` that decide its control flow, with the
device property `is_sm90` and the build flag `disable_local`. An absent optional
argument is `none`. -/
structure KvcacheArgs where
  is_sm90 : Bool
  disable_local : Bool
  q : Tensor
  kcache : Tensor
  vcache : Tensor
  k_ : Option Tensor
  v_ : Option Tensor
  out_ : Option Tensor
  seqused_k_ : Option Tensor
  cache_batch_idx_ : Option Tensor
  leftpad_k_ : Option Tensor
  page_table_ : Option Tensor
  cu_seqlens_q_ : Option Tensor
  max_seqlen_q_ : Option Int
  is_causal : Bool
  q_descale_ : Option Tensor
  k_descale_ : Option Tensor
  v_descale_ : Option Tensor
  window_size_left : Int
  window_size_right : Int
  sink_token_length : Int
  num_splits : Int
  pack_gqa_ : Option Bool
  deriving DecidableEq, Repr

/-- The shape checks of the query in `mha_fwd_kvcache` (flash_api.cpp,
1278-1283). -/
def kvcache_check_q_shape (q : Tensor) (cu_seqlens_q_ : Option Tensor)
    (batch_size seqlen_q total_q num_heads head_size_og : Int) : Except String Unit :=
  match cu_seqlens_q_ with
  | none =>
      CHECK_SHAPE q "q" [batch_size, seqlen_q, num_heads, head_size_og]
        "batch_size, seqlen_q, num_heads, head_size_og"
  | some cu_seqlens_q => do
      CHECK_SHAPE q "q" [total_q, num_heads, head_size_og] "total_q, num_heads, head_size_og"
      CHECK_SHAPE cu_seqlens_q "cu_seqlens_q" [batch_size + 1] "batch_size + 1"

/-- The shape checks of the cache in `mha_fwd_kvcache` (flash_api.cpp,
1284-1291). -/
def kvcache_check_cache_shape (kcache vcache : Tensor) (page_table_ : Option Tensor)
    (batch_size_k seqlen_k num_pages page_size max_num_pages_per_seq num_heads_k
      head_size_og : Int) : Except String Unit :=
  match page_table_ with
  | none => do
      CHECK_SHAPE kcache "kcache" [batch_size_k, seqlen_k, num_heads_k, head_size_og]
        "batch_size_k, seqlen_k, num_heads_k, head_size_og"
      CHECK_SHAPE vcache "vcache" [batch_size_k, seqlen_k, num_heads_k, head_size_og]
        "batch_size_k, seqlen_k, num_heads_k, head_size_og"
  | some page_table => do
      CHECK_SHAPE kcache "kcache" [num_pages, page_size, num_heads_k, head_size_og]
        "num_pages, page_size, num_heads_k, head_size_og"
      CHECK_SHAPE vcache "vcache" [num_pages, page_size, num_heads_k, head_size_og]
        "num_pages, page_size, num_heads_k, head_size_og"
      CHECK_SHAPE page_table "page_table" [batch_size_k, max_num_pages_per_seq]
        "batch_size_k, max_num_pages_per_seq"

/-- The `seqused_k` and `leftpad_k` blocks of `mha_fwd_kvcache` (flash_api.cpp,
1293-1299 and 1429-1436), which differ in the tensor's name only. -/
def kvcache_check_int_vector (x_ : Option Tensor) (name : String) (batch_size : Int) :
    Except String Unit :=
  match x_ with
  | some x => do
      TORCH_CHECK (x.dtype == ScalarType.Int32) (name ++ " must have dtype int32")
      CHECK_DEVICE x name
      CHECK_CONTIGUOUS x name
      CHECK_SHAPE x name [batch_size] "batch_size"
  | none => pure ()

/-- The block of `mha_fwd_kvcache` for new keys and values to append
(flash_api.cpp, 1396-1427). -/
def kvcache_check_knew (k_ v_ seqused_k_ : Option Tensor) (q_type : ScalarType)
    (batch_size seqlen_q seqlen_k num_heads_k head_size_og : Int) : Except String Unit :=
  match k_ with
  | some k => do
      TORCH_CHECK v_.isSome "If key is supplied, value must also be passed in"
      TORCH_CHECK seqused_k_.isSome "If key is supplied, seqlens_k must also be passed in"
      TORCH_CHECK (decide (seqlen_q ≤ seqlen_k))
        "If key is supplied, it must have seqlen <= the seqlen of the KV cache"
      let v := v_.getD k
      TORCH_CHECK (k.dtype == q_type) "Key must have the same dtype as query"
      TORCH_CHECK (v.dtype == q_type) "Value must have the same dtype as query"
      CHECK_DEVICE k "k"
      CHECK_DEVICE v "v"
      TORCH_CHECK (k.stride (-1) == 1) "Key tensor must have contiguous last dimension"
      TORCH_CHECK (v.stride (-1) == 1) "Value tensor must have contiguous last dimension"
      let seqlen_knew := k.size 1
      CHECK_SHAPE k "k" [batch_size, seqlen_knew, num_heads_k, head_size_og]
        "batch_size, seqlen_knew, num_heads_k, head_size_og"
      CHECK_SHAPE v "v" [batch_size, seqlen_knew, num_heads_k, head_size_og]
        "batch_size, seqlen_knew, num_heads_k, head_size_og"
  | none => pure ()

/-- The `cache_batch_idx` block of `mha_fwd_kvcache` (flash_api.cpp, 1438-1444). -/
def kvcache_check_cache_batch_idx (x_ : Option Tensor) : Except String Unit :=
  match x_ with
  | some x => do
      CHECK_DEVICE x "cache_batch_idx"
      CHECK_CONTIGUOUS x "cache_batch_idx"
      TORCH_CHECK (x.dtype == ScalarType.Int32) "cache_batch_idx must have dtype int32"
  | none => pure ()

/-- The function `mha_fwd_kvcache` (flash_api.cpp, 1187-1512). Its first
returned tensor is `out`, its second the log-sum-exp tensor. A pointer of the
plan is taken to be non-null exactly when its tensor is supplied. -/
def mha_fwd_kvcache (a : KvcacheArgs) : Except String FwdOutcome := do
  let s ← mha_fwd_kvcache_shape_checks a.is_sm90 a.q a.kcache a.vcache a.page_table_
    a.cu_seqlens_q_ a.max_seqlen_q_ a.cache_batch_idx_.isSome
  let q_type := a.q.dtype
  let paged_KV := a.page_table_.isSome
  let is_varlen_q := a.cu_seqlens_q_.isSome
  let batch_size_k :=
    match a.page_table_ with
    | none => a.kcache.size 0
    | some page_table => page_table.size 0
  let max_num_pages_per_seq :=
    match a.page_table_ with
    | none => 0
    | some page_table => page_table.size 1
  let num_pages := if !paged_KV then 0 else a.kcache.size 0
  let page_size := if !paged_KV then 1 else a.kcache.size 1
  let w := mha_fwd_window a.is_causal a.window_size_left a.window_size_right
    s.seqlen_q s.seqlen_k
  kvcache_check_q_shape a.q a.cu_seqlens_q_ s.batch_size s.seqlen_q s.total_q s.num_heads
    s.head_size_og
  kvcache_check_cache_shape a.kcache a.vcache a.page_table_ batch_size_k s.seqlen_k
    num_pages page_size max_num_pages_per_seq s.num_heads_k s.head_size_og
  kvcache_check_int_vector a.seqused_k_ "seqused_k" s.batch_size
  let alignment := alignment q_type
  let q_padded := pad a.q alignment
  let out ← resolve_out a.out_ q_padded (out_type_of q_type)
    (if !is_varlen_q then [s.batch_size, s.seqlen_q, s.num_heads, s.head_size_og]
      else [s.total_q, s.num_heads, s.head_size_og])
    (if !is_varlen_q then "batch_size, seqlen_q, num_heads, head_size_og"
      else "total_q, num_heads, head_size_og") s.head_size_og alignment
  let head_size := round_multiple s.head_size_og alignment
  let softmax_lse := torch_empty a.q [s.batch_size, s.num_heads, s.seqlen_q] ScalarType.Float
  let mask := set_params_fprop s.seqlen_q s.seqlen_k w.1 w.2
  set_params_fprop_checks a.disable_local mask
  TORCH_CHECK (decide (a.num_splits ≥ 1))
    "num_splits must be at least 1, there's no heuristic to automatically pick num_splits yet"
  check_num_splits a.num_splits
  kvcache_check_knew a.k_ a.v_ a.seqused_k_ q_type s.batch_size s.seqlen_q s.seqlen_k
    s.num_heads_k s.head_size_og
  kvcache_check_int_vector a.leftpad_k_ "leftpad_k" s.batch_size
  kvcache_check_cache_batch_idx a.cache_batch_idx_
  check_descales q_type a.q_descale_ a.k_descale_ a.v_descale_
  let launch := decide (s.seqlen_q > 0) && decide (s.total_q > 0) && decide (s.seqlen_k > 0)
    && decide (s.batch_size > 0)
  let zero_fill := !launch && (decide (s.seqlen_q > 0) && decide (s.total_q > 0)
    && decide (s.batch_size > 0))
  pure { out := if s.head_size_og.tmod alignment != 0 then slice_last out s.head_size_og
                else out,
         out_padded := out,
         softmax_lse := softmax_lse,
         q_padded := q_padded,
         mask := mask,
         params := { h := s.num_heads, h_k := s.num_heads_k, seqlen_q := s.seqlen_q,
                     pack_gqa := pack_gqa_of a.pack_gqa_, cu_seqlens_q := is_varlen_q,
                     cu_seqlens_k := false, seqused_q := false,
                     seqused_k := a.seqused_k_.isSome,
                     leftpad_k := a.leftpad_k_.isSome, page_table := paged_KV,
                     knew_ptr := a.k_.isSome },
         d := head_size,
         d_rounded := head_size_rounded head_size,
         num_splits := a.num_splits,
         kernel_launched := launch,
         combine_launched := launch && decide (a.num_splits > 1),
         out_fill := if launch then Fill.Kernel
                     else if zero_fill then Fill.Zero else Fill.Uninitialized,
         lse_fill := if launch then Fill.Kernel
                     else if zero_fill then Fill.PosInf else Fill.Uninitialized }

/-- The sizes `mha_combine` reads from `out_partial`. -/
structure CombineDims where
  num_splits : Int
  batch_size : Int
  seqlen : Int
  num_heads : Int
  head_size_og : Int
  deriving DecidableEq, Repr

/-- The checks of `mha_combine` from its first statement to the shape checks of
its two inputs (flash_api.cpp, 1521-1545). -/
def mha_combine_shape_checks (is_sm80 : Bool) ( out_partial lse_partial : Tensor) :
    Except String CombineDims := do
  TORCH_CHECK is_sm80 "Attention combine function only supports Ampere GPUs or newer."
  TORCH_CHECK ( out_partial.dtype == ScalarType.Float)
    "Attention combine function only support fp32 data type"
  TORCH_CHECK ( lse_partial.dtype == ScalarType.Float)
    "Attention combine function only support fp32 data type"
  CHECK_DEVICE out_partial "out_partial"
  CHECK_DEVICE lse_partial "lse_partial"
  TORCH_CHECK ( out_partial.stride (-1) == 1) "Input tensor must have contiguous last dimension"
  TORCH_CHECK ( lse_partial.stride (-2) == 1)
    "LSE tensor must be contiguous in the seqlen dimension"
  let num_splits := out_partial.size 0
  let batch_size := out_partial.size 1
  let seqlen := out_partial.size 2
  let num_heads := out_partial.size 3
  let head_size_og := out_partial.size 4
  TORCH_CHECK (decide (head_size_og ≤ 256))
    "FlashAttention combine only supports head dimension at most 256"
  TORCH_CHECK (decide (num_splits ≤ 256)) msg_num_splits_combine
  CHECK_SHAPE out_partial "out_partial" [num_splits, batch_size, seqlen, num_heads, head_size_og]
    "num_splits, batch_size, seqlen, num_heads, head_size_og"
  CHECK_SHAPE lse_partial "lse_partial" [num_splits, batch_size, seqlen, num_heads]
    "num_splits, batch_size, seqlen, num_heads"
  pure { num_splits := num_splits, batch_size := batch_size, seqlen := seqlen,
         num_heads := num_heads, head_size_og := head_size_og }

/-- The local `batch_size` of `mha_fwd` (flash_api.cpp, 365). -/
def FwdArgs.batch_size (a : FwdArgs) : Int := a.q.size 0

/-- The local `seqlen_q` of `mha_fwd` (flash_api.cpp, 366). -/
def FwdArgs.seqlen_q (a : FwdArgs) : Int := a.q.size 1

/-- The local `num_heads` of `mha_fwd` (flash_api.cpp, 367). -/
def FwdArgs.num_heads (a : FwdArgs) : Int := a.q.size 2

/-- The local `head_size_og` of `mha_fwd` (flash_api.cpp, 368). -/
def FwdArgs.head_size_og (a : FwdArgs) : Int := a.q.size 3

/-- The local `seqlen_k` of `mha_fwd` (flash_api.cpp, 369). -/
def FwdArgs.seqlen_k (a : FwdArgs) : Int := a.k.size 1

/-- The local `batch_size` of `mha_varlen_fwd` (flash_api.cpp, 564). -/
def VarlenFwdArgs.batch_size (a : VarlenFwdArgs) : Int := a.cu_seqlens_q.numel - 1

/-- The local `num_heads` of `mha_varlen_fwd` (flash_api.cpp, 565). -/
def VarlenFwdArgs.num_heads (a : VarlenFwdArgs) : Int := a.q.size 1

/-- The local `head_size_og` of `mha_varlen_fwd` (flash_api.cpp, 566). -/
def VarlenFwdArgs.head_size_og (a : VarlenFwdArgs) : Int := a.q.size 2

/-- The local `total_q` of `mha_varlen_fwd` (flash_api.cpp, 568). -/
def VarlenFwdArgs.total_q (a : VarlenFwdArgs) : Int := a.q.size 0

/-- The local `batch_size` of `mha_fwd_kvcache` (flash_api.cpp, 1252). -/
def KvcacheArgs.batch_size (a : KvcacheArgs) : Int :=
  match a.cu_seqlens_q_ with
  | none => a.q.size 0
  | some cu_seqlens_q => cu_seqlens_q.size 0 - 1

/-- The local `seqlen_q` of `mha_fwd_kvcache` (flash_api.cpp, 1253). -/
def KvcacheArgs.seqlen_q (a : KvcacheArgs) : Int :=
  if !a.cu_seqlens_q_.isSome then a.q.size 1 else a.max_seqlen_q_.getD 0

/-- The local `total_q` of `mha_fwd_kvcache` (flash_api.cpp, 1254). -/
def KvcacheArgs.total_q (a : KvcacheArgs) : Int :=
  if !a.cu_seqlens_q_.isSome then a.batch_size * a.q.size 1 else a.q.size 0

/-- The local `num_heads` of `mha_fwd_kvcache` (flash_api.cpp, 1255). -/
def KvcacheArgs.num_heads (a : KvcacheArgs) : Int := a.q.size (-2)

/-- The local `head_size_og` of `mha_fwd_kvcache` (flash_api.cpp, 1256). -/
def KvcacheArgs.head_size_og (a : KvcacheArgs) : Int := a.q.size (-1)

/-- The local `seqlen_k` of `mha_fwd_kvcache` (flash_api.cpp, 1269); with a page
table it is the product of two `int`, which wraps at 32 bits. -/
def KvcacheArgs.seqlen_k (a : KvcacheArgs) : Int :=
  match a.page_table_ with
  | none => a.kcache.size 1
  | some page_table => int32 (page_table.size 1 * a.kcache.size 1)

/-- The LSE strides `run_flash_fwd` hands to the epilogue
(flash_fwd_launch_template.h, 49-53 and 103), as (row, head, batch, split)
strides; `is_varlen_q` is `params.cu_seqlens_q != nullptr`, `b` is `params.b`. -/
def run_flash_fwd_stride_LSE (is_varlen_q Split : Bool)
    (params_seqlen_q params_total_q h b : Int) : Int × Int × Int × Int :=
  let seqlen_q := if !is_varlen_q then params_seqlen_q else params_total_q
  let batch_q := if !is_varlen_q then b else 1
  (1, seqlen_q, if !is_varlen_q then h * seqlen_q else 0,
    if !Split then 0 else h * seqlen_q * batch_q)

/-! ## Kernel instantiation -/

/-- The element types the kernel templates are instantiated with. -/
inductive Element where
  | float
  | bfloat16_t
  | half_t
  | float_e4m3_t
  deriving DecidableEq, Repr

/-- The tensor element type in which an `Element` is stored. -/
def Element.scalar_type : Element → ScalarType
  | Element.float => ScalarType.Float
  | Element.bfloat16_t => ScalarType.BFloat16
  | Element.half_t => ScalarType.Half
  | Element.float_e4m3_t => ScalarType.Float8_e4m3fn

/-- The element-type flags of `Flash_fwd_params`. -/
structure DtypeFlags where
  is_fp32 : Bool
  is_bf16 : Bool
  is_e4m3 : Bool
  deriving DecidableEq, Repr

/-- The element-type flags after `set_params_fprop` (flash_api.cpp, 85-88):
`params = {}` clears every flag, then `is_bf16` and `is_e4m3` are read off the
element type of `q`. -/
def set_params_fprop_dtype (q_type : ScalarType) : DtypeFlags :=
  { is_fp32 := false,
    is_bf16 := q_type == ScalarType.BFloat16,
    is_e4m3 := q_type == ScalarType.Float8_e4m3fn }

/-- A template instantiation `f<T, kHeadDim>` of a kernel launcher. -/
structure KernelInstance where
  element : Element
  kHeadDim : Int
  deriving DecidableEq, Repr

/-- The function `run_mha_fwd` (flash_api.cpp, 251-294), as the instantiation of
`run_mha_fwd_` it calls. -/
def run_mha_fwd (params : DtypeFlags) (d : Int) : KernelInstance :=
  if !params.is_e4m3 then
    if params.is_bf16 then
      if d ≤ 64 then { element := Element.bfloat16_t, kHeadDim := 64 }
      else if d ≤ 96 then { element := Element.bfloat16_t, kHeadDim := 96 }
      else if d ≤ 128 then { element := Element.bfloat16_t, kHeadDim := 128 }
      else if d ≤ 192 then { element := Element.bfloat16_t, kHeadDim := 192 }
      else { element := Element.bfloat16_t, kHeadDim := 256 }
    else
      if d ≤ 64 then { element := Element.half_t, kHeadDim := 64 }
      else if d ≤ 96 then { element := Element.half_t, kHeadDim := 96 }
      else if d ≤ 128 then { element := Element.half_t, kHeadDim := 128 }
      else if d ≤ 192 then { element := Element.half_t, kHeadDim := 192 }
      else { element := Element.half_t, kHeadDim := 256 }
  else
    if d ≤ 64 then { element := Element.float_e4m3_t, kHeadDim := 64 }
    else if d ≤ 96 then { element := Element.float_e4m3_t, kHeadDim := 96 }
    else if d ≤ 128 then { element := Element.float_e4m3_t, kHeadDim := 128 }
    else if d ≤ 192 then { element := Element.float_e4m3_t, kHeadDim := 192 }
    else { element := Element.float_e4m3_t, kHeadDim := 256 }

/-- The function `run_mha_fwd_combine` (flash_api.cpp, 296-324), as the
instantiation of `run_mha_fwd_combine_` it calls. -/
def run_mha_fwd_combine (params : DtypeFlags) (d : Int) : KernelInstance :=
  if params.is_fp32 then
    if d ≤ 64 then { element := Element.float, kHeadDim := 64 }
    else if d ≤ 128 then { element := Element.float, kHeadDim := 128 }
    else { element := Element.float, kHeadDim := 256 }
  else if params.is_bf16 then
    if d ≤ 64 then { element := Element.bfloat16_t, kHeadDim := 64 }
    else if d ≤ 128 then { element := Element.bfloat16_t, kHeadDim := 128 }
    else { element := Element.bfloat16_t, kHeadDim := 256 }
  else
    if d ≤ 64 then { element := Element.half_t, kHeadDim := 64 }
    else if d ≤ 128 then { element := Element.half_t, kHeadDim := 128 }
    else { element := Element.half_t, kHeadDim := 256 }

/-- The function `run_mha_bwd` (flash_api.cpp, 739-770), as the instantiation of
`run_mha_bwd_` it calls. -/
def run_mha_bwd (is_bf16 : Bool) (d : Int) : KernelInstance :=
  if !is_bf16 then
    if d ≤ 64 then { element := Element.half_t, kHeadDim := 64 }
    else if d ≤ 96 then { element := Element.half_t, kHeadDim := 96 }
    else if d ≤ 128 then { element := Element.half_t, kHeadDim := 128 }
    else if d ≤ 192 then { element := Element.half_t, kHeadDim := 192 }
    else { element := Element.half_t, kHeadDim := 256 }
  else
    if d ≤ 64 then { element := Element.bfloat16_t, kHeadDim := 64 }
    else if d ≤ 96 then { element := Element.bfloat16_t, kHeadDim := 96 }
    else if d ≤ 128 then { element := Element.bfloat16_t, kHeadDim := 128 }
    else if d ≤ 192 then { element := Element.bfloat16_t, kHeadDim := 192 }
    else { element := Element.bfloat16_t, kHeadDim := 256 }

/-- The kernels the launch block of a forward entry point calls: the
instantiation of `run_mha_fwd_` and that of `run_mha_fwd_combine_`, `none` for a
kernel that is not called. -/
structure FwdKernels where
  fwd : Option KernelInstance
  combine : Option KernelInstance
  deriving DecidableEq, Repr

/-- The element-type flags of the plan when the launch block is reached: those of
`set_params_fprop`, with `params.is_fp32 = false` of the split block
(flash_api.cpp, 449-453, 661-665, 1367-1378). -/
def fwd_dtype_flags (q_type : ScalarType) (num_splits : Int) : DtypeFlags :=
  let params := set_params_fprop_dtype q_type
  if num_splits > 1 then { params with is_fp32 := false } else params

/-- The launch block of the forward entry points (flash_api.cpp, 497-503, 710-722
and 1484-1497): under the launch condition `run_mha_fwd` is called, and for more
than one split `params.is_bf16 = true` is stored and `run_mha_fwd_combine` is
called. -/
def fwd_launch_block (launch : Bool) (params : DtypeFlags) (d num_splits : Int) : FwdKernels :=
  if launch then
    { fwd := some (run_mha_fwd params d),
      combine :=
        if num_splits > 1 then
          let params := { params with is_bf16 := true }
          some (run_mha_fwd_combine params d)
        else none }
  else { fwd := none, combine := none }

/-- The kernels `mha_fwd` calls (flash_api.cpp, 497-503). -/
def mha_fwd_kernels (a : FwdArgs) : Except String FwdKernels := do
  let r ← mha_fwd a
  pure (fwd_launch_block r.kernel_launched (fwd_dtype_flags a.q.dtype a.num_splits) r.d
    a.num_splits)

/-- The kernels `mha_varlen_fwd` calls (flash_api.cpp, 710-722). -/
def mha_varlen_fwd_kernels (a : VarlenFwdArgs) : Except String FwdKernels := do
  let r ← mha_varlen_fwd a
  pure (fwd_launch_block r.kernel_launched (fwd_dtype_flags a.q.dtype a.num_splits) r.d
    a.num_splits)

/-- The kernels `mha_fwd_kvcache` calls (flash_api.cpp, 1484-1497). -/
def mha_fwd_kvcache_kernels (a : KvcacheArgs) : Except String FwdKernels := do
  let r ← mha_fwd_kvcache a
  pure (fwd_launch_block r.kernel_launched (fwd_dtype_flags a.q.dtype a.num_splits) r.d
    a.num_splits)

/-- Modelled from the spec: the macro `CAUSAL_LOCAL_SWITCH`, which
`run_mha_fwd_hdim_16b` uses and whose definition is not among the macros of
`static_switch.h`; "Causal and local masking are mutually exclusive variant
bits": the constants it binds are (true, false) for a causal plan, (false, true)
for a local one and (false, false) otherwise. -/
def CAUSAL_LOCAL_SWITCH (causal_cond local_cond : Bool) : Bool × Bool :=
  if causal_cond then (true, false)
  else if local_cond then (false, true)
  else (false, false)

/-- The function `run_mha_fwd_hdim_16b` (flash_fwd_launch_template.h, 184-192),
as the instantiation of `run_flash_fwd` its call of `run_mha_fwd_dispatch` ends
in. `tile_size_fwd` is declared in `tile_size.h`, which is not part of the code
at hand: the tile height it returns for the head dimension and element size of
the instantiation is the parameter `kBlock_M`, a function of
`Is_causal || Is_local`. -/
def run_mha_fwd_hdim_16b (kBlock_M : Bool → Int) (Split : Bool) (mask : MaskParams)
    (params : Flash_fwd_params) : FwdVariant :=
  let sw := CAUSAL_LOCAL_SWITCH mask.is_causal mask.is_local
  let Is_causal := sw.1
  let Is_local := sw.2
  run_mha_fwd_dispatch (kBlock_M (Is_causal || Is_local)) Is_causal Is_local Split false params

/-- Modelled from the spec: `cutlass::ceil_div` of the CUTLASS library, whose
source is not part of this code base; the number of tiles along a sequence is
the length divided by the tile height, rounded up: `(a + b - 1) / b`. -/
def ceil_div (a b : Int) : Int := (a + b - 1).tdiv b

/-- The value `num_blocks_m` of `run_flash_fwd` (flash_fwd_launch_template.h,
108-110); `cutlass::round_up` is the rounding of `round_up`. -/
def run_flash_fwd_num_blocks_m (v : FwdVariant) (params : Flash_fwd_params) : Int :=
  let qhead_per_khead := if !v.PackGQA then 1 else ceil_div params.h params.h_k
  let num_blocks_m := ceil_div (params.seqlen_q * qhead_per_khead) v.kBlockM
  round_up num_blocks_m v.ClusterM

/-! ## Tile counter, page table and appended keys -/

/-- The tile counter of `mha_fwd` (flash_api.cpp, 467-468): a one-element buffer,
zeroed for a causal or local plan and uninitialised otherwise; `none` is a null
pointer. -/
def mha_fwd_tile_count_semaphore (mask : MaskParams) : Option Fill :=
  some (if mask.is_causal || mask.is_local then Fill.Zero else Fill.Uninitialized)

/-- The tile counter of `mha_varlen_fwd` (flash_api.cpp, 680-681): always a
zeroed one-element buffer. -/
def mha_varlen_fwd_tile_count_semaphore : Option Fill := some Fill.Zero

/-- The tile counter of `mha_fwd_kvcache` (flash_api.cpp, 1448-1455): a zeroed
one-element buffer under the condition of the source, a null pointer (`none`)
otherwise. -/
def mha_fwd_kvcache_tile_count_semaphore (mask : MaskParams)
    (seqused_k_given leftpad_k_given : Bool) (num_splits : Int) (paged_KV : Bool) :
    Option Fill :=
  if (mask.is_causal || mask.is_local || seqused_k_given || leftpad_k_given)
      && decide (num_splits = 1) && !paged_KV then some Fill.Zero
  else none

/-- The local `batch_size_k` of `mha_fwd_kvcache` (flash_api.cpp, 1258). -/
def KvcacheArgs.batch_size_k (a : KvcacheArgs) : Int :=
  match a.page_table_ with
  | none => a.kcache.size 0
  | some page_table => page_table.size 0

/-- The local `max_num_pages_per_seq` of `mha_fwd_kvcache` (flash_api.cpp, 1265). -/
def KvcacheArgs.max_num_pages_per_seq (a : KvcacheArgs) : Int :=
  match a.page_table_ with
  | none => 0
  | some page_table => page_table.size 1

/-- The local `page_size` of `mha_fwd_kvcache` (flash_api.cpp, 1267). -/
def KvcacheArgs.page_size (a : KvcacheArgs) : Int :=
  if !a.page_table_.isSome then 1 else a.kcache.size 1

/-- The value of `params.seqlen_knew` in `mha_fwd_kvcache` (flash_api.cpp, 1407
and 1417): the second size of the new keys; without new keys the field keeps the
0 of `params = {}`. -/
def KvcacheArgs.seqlen_knew (a : KvcacheArgs) : Int :=
  match a.k_ with
  | some k => k.size 1
  | none => 0

/-- The fields of `Flash_fwd_params` that `run_flash_fwd` reads for the shape of
the page table. A pointer field is `true` when the pointer is not null. -/
structure PageParams where
  b : Int
  b_k : Int
  seqlen_k : Int
  page_size : Int
  page_table : Bool
  kv_batch_idx : Bool
  deriving DecidableEq, Repr

/-- The page fields of the plan of `mha_fwd`: `set_params_fprop` stores `b` and
`seqlen_k`, the other fields keep the zero of `params = {}`. -/
def mha_fwd_page_params (a : FwdArgs) : PageParams :=
  { b := a.batch_size, b_k := 0, seqlen_k := a.seqlen_k, page_size := 0,
    page_table := false, kv_batch_idx := false }

/-- The page fields of the plan of `mha_varlen_fwd` (flash_api.cpp, 637-656). -/
def mha_varlen_fwd_page_params (a : VarlenFwdArgs) : PageParams :=
  { b := a.batch_size, b_k := 0, seqlen_k := a.max_seqlen_k, page_size := 0,
    page_table := false, kv_batch_idx := false }

/-- The page fields of the plan of `mha_fwd_kvcache` (flash_api.cpp, 1341-1361,
1388-1393 and 1438-1444). -/
def mha_fwd_kvcache_page_params (a : KvcacheArgs) : PageParams :=
  { b := a.batch_size, b_k := a.batch_size_k, seqlen_k := a.seqlen_k,
    page_size := a.page_size, page_table := a.page_table_.isSome,
    kv_batch_idx := a.cache_batch_idx_.isSome }

/-- The division `a / b` of C on `int`: it has no value for `b = 0`. -/
def checked_div (a b : Int) : Option Int :=
  if b = 0 then none else some (a.tdiv b)

/-- The argument `shape_page_table` of `run_flash_fwd`
(flash_fwd_launch_template.h, 82), with `PagedKV` as the dispatcher binds it
(`params.page_table`, 167); `none` when the quotient that is evaluated has no
value. -/
def run_flash_fwd_shape_page_table (params : PageParams) : Option (Int × Int) :=
  let PagedKV := params.page_table
  let rows := if params.kv_batch_idx then params.b_k else params.b
  if !PagedKV then some (rows, 0)
  else (checked_div params.seqlen_k params.page_size).map (fun pages => (rows, pages))

/-! ## Backward pass: padded ragged buffers -/

/-- The value `kBlockM` of `mha_varlen_bwd` (flash_api.cpp, 1036; the same
expression is at 833); `softcap_is_zero` is `softcap == 0.0`. -/
def mha_varlen_bwd_kBlockM (head_size_rounded : Int) (softcap_is_zero : Bool) : Int :=
  if head_size_rounded ≤ 64 then (if softcap_is_zero then 128 else 96) else 64

/-- The value `kBlockN` of `mha_varlen_bwd` (flash_api.cpp, 1037). -/
def mha_varlen_bwd_kBlockN (head_size_rounded : Int) : Int :=
  if head_size_rounded ≤ 128 then 128 else (if head_size_rounded ≤ 192 then 96 else 80)

/-- The value `total_q_padded_rounded` of `mha_varlen_bwd` (flash_api.cpp, 1040),
in the 32-bit `int` arithmetic of the source. -/
def total_q_padded_rounded (total_q batch_size kBlockM : Int) : Int :=
  round_multiple_int (int32 (total_q + int32 (batch_size * kBlockM))) kBlockM

/-- The value `total_k_padded_rounded` of `mha_varlen_bwd` (flash_api.cpp, 1041),
in the 32-bit `int` arithmetic of the source. -/
def total_k_padded_rounded (total_k batch_size kBlockN : Int) : Int :=
  round_multiple_int (int32 (total_k + int32 (batch_size * kBlockN))) kBlockN

/-- The rows a ragged buffer needs when every row is padded to a multiple of the
block size: the sum over the rows of the row length rounded up. -/
def padded_rows (seqlens : List Int) (kBlock : Int) : Int :=
  (seqlens.map (fun l => round_multiple l kBlock)).sum

/-! ## Constraints of the entry points

The dtype, device, layout and shape constraints of an entry point, written out
as the conditions of its checks in the order of the source. None of them reads
whether the batch size is positive. -/

/-- A contiguous CUDA tensor of the given element type and sizes. -/
def sample_tensor (dtype : ScalarType) (sizes : List Int) : Tensor :=
  { dtype := dtype, is_cuda := true, sizes := sizes, strides := contiguous_strides sizes }

/-- A call of `mha_fwd` on fp16 tensors: batch 2, 128 queries and keys, 8 query
heads over 2 key/value heads, head dimension 64, causal, one split. -/
def sample_fwd_args : FwdArgs :=
  { is_sm90 := true, disable_local := false,
    q := sample_tensor ScalarType.Half [2, 128, 8, 64],
    k := sample_tensor ScalarType.Half [2, 128, 2, 64],
    v := sample_tensor ScalarType.Half [2, 128, 2, 64],
    out_ := none, is_causal := true, q_descale_ := none, k_descale_ := none,
    v_descale_ := none, window_size_left := -1, window_size_right := -1,
    sink_token_length := 0, num_splits := 1, pack_gqa_ := none }

/-- The sample call of `mha_fwd` with four splits. -/
def sample_fwd_args_split : FwdArgs := { sample_fwd_args with num_splits := 4 }

/-- The sample call of `mha_fwd` with keys and values of length zero. -/
def sample_fwd_args_no_keys : FwdArgs :=
  { sample_fwd_args with
    k := sample_tensor ScalarType.Half [2, 0, 2, 64],
    v := sample_tensor ScalarType.Half [2, 0, 2, 64] }

/-- The sample call of `mha_fwd` on fp8 tensors of head dimension 8. -/
def sample_fwd_args_fp8 : FwdArgs :=
  { sample_fwd_args with
    q := sample_tensor ScalarType.Float8_e4m3fn [2, 128, 8, 8],
    k := sample_tensor ScalarType.Float8_e4m3fn [2, 128, 2, 8],
    v := sample_tensor ScalarType.Float8_e4m3fn [2, 128, 2, 8] }

/-- A call of `mha_varlen_fwd` on fp8 tensors: two rows with 6 queries and keys
in total, 4 heads, head dimension 8, at most 4 queries and keys per row. -/
def sample_varlen_args_fp8 : VarlenFwdArgs :=
  { is_sm90 := true, disable_local := false,
    q := sample_tensor ScalarType.Float8_e4m3fn [6, 4, 8],
    k := sample_tensor ScalarType.Float8_e4m3fn [6, 4, 8],
    v := sample_tensor ScalarType.Float8_e4m3fn [6, 4, 8],
    out_ := none,
    cu_seqlens_q := sample_tensor ScalarType.Int32 [3],
    cu_seqlens_k := sample_tensor ScalarType.Int32 [3],
    seqused_q_ := none, seqused_k_ := none, max_seqlen_q := 4, max_seqlen_k := 4,
    is_causal := false, q_descale_ := none, k_descale_ := none, v_descale_ := none,
    window_size_left := -1, window_size_right := -1, num_splits := 1, pack_gqa_ := none }

/-- A call of `mha_fwd_kvcache` with a ragged query: two rows with 6 queries in
total, at most 4 per row, 4 heads, head dimension 64, and a cache of 16 keys per
row. -/
def sample_kvcache_args_ragged : KvcacheArgs :=
  { is_sm90 := true, disable_local := false,
    q := sample_tensor ScalarType.Half [6, 4, 64],
    kcache := sample_tensor ScalarType.Half [2, 16, 4, 64],
    vcache := sample_tensor ScalarType.Half [2, 16, 4, 64],
    k_ := none, v_ := none, out_ := none, seqused_k_ := none, cache_batch_idx_ := none,
    leftpad_k_ := none, page_table_ := none,
    cu_seqlens_q_ := some (sample_tensor ScalarType.Int32 [3]),
    max_seqlen_q_ := some 4, is_causal := false, q_descale_ := none, k_descale_ := none,
    v_descale_ := none, window_size_left := -1, window_size_right := -1,
    sink_token_length := 0, num_splits := 1, pack_gqa_ := none }

/-- A partial log-sum-exp tensor for `mha_combine`: 257 splits, batch 2, 128
queries, 8 heads, contiguous in the query dimension. -/
def sample_lse_partial : Tensor :=
  { dtype := ScalarType.Float, is_cuda := true, sizes := [257, 2, 128, 8],
    strides := [2048, 1024, 1, 128] }

/-- The sample call of `mha_fwd` with a sliding window of 16 keys on either side
in place of the causal mask. -/
def sample_fwd_args_local : FwdArgs :=
  { sample_fwd_args with is_causal := false, window_size_left := 16, window_size_right := 16 }

/-- The sample call of `mha_fwd` with queries of length zero. -/
def sample_fwd_args_no_queries : FwdArgs :=
  { sample_fwd_args with q := sample_tensor ScalarType.Half [2, 0, 8, 64] }

/-- A call of `mha_varlen_fwd` on fp16 tensors: two rows with 6 keys in total and
no queries (`max_seqlen_q = 0`), 4 heads, head dimension 64. -/
def sample_varlen_args_no_queries : VarlenFwdArgs :=
  { sample_varlen_args_fp8 with
    q := sample_tensor ScalarType.Half [0, 4, 64],
    k := sample_tensor ScalarType.Half [6, 4, 64],
    v := sample_tensor ScalarType.Half [6, 4, 64],
    max_seqlen_q := 0 }

/-- A call of `mha_fwd_kvcache` that appends 32 new keys per row to a cache of 16
keys per row: batch 2, one query per row, 4 heads, head dimension 64. -/
def sample_kvcache_args_append : KvcacheArgs :=
  { sample_kvcache_args_ragged with
    q := sample_tensor ScalarType.Half [2, 1, 4, 64],
    k_ := some (sample_tensor ScalarType.Half [2, 32, 4, 64]),
    v_ := some (sample_tensor ScalarType.Half [2, 32, 4, 64]),
    seqused_k_ := some (sample_tensor ScalarType.Int32 [2]),
    cu_seqlens_q_ := none, max_seqlen_q_ := none }

/-- A call of `mha_fwd_kvcache` on a paged cache: 8 pages of 16 keys, a page
table of 4 pages for each of 2 rows, one query per row. -/
def sample_kvcache_args_paged : KvcacheArgs :=
  { sample_kvcache_args_ragged with
    q := sample_tensor ScalarType.Half [2, 1, 4, 64],
    kcache := sample_tensor ScalarType.Half [8, 16, 4, 64],
    vcache := sample_tensor ScalarType.Half [8, 16, 4, 64],
    page_table_ := some (sample_tensor ScalarType.Int32 [2, 4]),
    cu_seqlens_q_ := none, max_seqlen_q_ := none }

/-- A call of `mha_fwd_kvcache` on a paged cache with 8 pages of 65536 keys and a
page table of 65537 pages for each of 2 rows, one query per row. -/
def sample_kvcache_args_paged_wide : KvcacheArgs :=
  { sample_kvcache_args_paged with
    kcache := sample_tensor ScalarType.Half [8, 65536, 4, 64],
    vcache := sample_tensor ScalarType.Half [8, 65536, 4, 64],
    page_table_ := some (sample_tensor ScalarType.Int32 [2, 65537]) }

/-! ## Auxiliary lemmas -/

theorem ite_int_cases (c : Prop) [Decidable c] (a b : Int) :
    (c ∧ (if c then a else b) = a) ∨ (¬ c ∧ (if c then a else b) = b) := by
  by_cases h : c
  · exact Or.inl ⟨h, if_pos h⟩
  · exact Or.inr ⟨h, if_neg h⟩

theorem mha_fwd_window_causal (l r sq sk : Int) :
    mha_fwd_window true l r sq sk = (-1, 0) := rfl

theorem mha_fwd_window_not_causal (l r sq sk : Int) :
    mha_fwd_window false l r sq sk =
      (if l ≥ sk - 1 then -1 else l, if r ≥ sq - 1 then -1 else r) := rfl

theorem set_params_fprop_left (sq sk l r : Int) :
    (set_params_fprop sq sk l r).window_size_left
      = if l < 0 ∧ r ≥ 0 then sk - 1 else l := rfl

theorem set_params_fprop_right (sq sk l r : Int) :
    (set_params_fprop sq sk l r).window_size_right
      = if (if l < 0 ∧ r ≥ 0 then sk - 1 else l) ≥ 0 ∧ r < 0 then sq - 1 else r := rfl

theorem window_policy_eq (is_causal : Bool) (l r sq sk : Int) :
    window_policy is_causal l r sq sk =
      if is_causal then (sk - 1, 0)
      else
        ((if (if l ≥ sk - 1 then -1 else l) < 0 ∧ (if r ≥ sq - 1 then -1 else r) ≥ 0 then sk - 1
          else (if l ≥ sk - 1 then -1 else l)),
         (if (if (if l ≥ sk - 1 then -1 else l) < 0 ∧ (if r ≥ sq - 1 then -1 else r) ≥ 0
              then sk - 1 else (if l ≥ sk - 1 then -1 else l)) ≥ 0
              ∧ (if r ≥ sq - 1 then -1 else r) < 0 then sq - 1
          else (if r ≥ sq - 1 then -1 else r))) := by
  cases is_causal
  · rfl
  · simp [window_policy, mha_fwd_mask, mha_fwd_window, set_params_fprop]

/-! ## Window / mask policy: claims -/

/-- C1: the Window Policy (host normalisation of `mha_fwd` followed by the clamp
of `set_params_fprop`) is idempotent: for all bounds and all non-negative
sequence lengths, applying it to its own result returns that result. -/
theorem window_policy_idempotent (is_causal : Bool) (left right seqlen_q seqlen_k : Int)
    (hq : 0 ≤ seqlen_q) (hk : 0 ≤ seqlen_k) :
    window_policy is_causal
        (window_policy is_causal left right seqlen_q seqlen_k).1
        (window_policy is_causal left right seqlen_q seqlen_k).2 seqlen_q seqlen_k
      = window_policy is_causal left right seqlen_q seqlen_k := by
  cases is_causal
  · rw [window_policy_eq false left right]
    simp only [Bool.false_eq_true, if_false]
    have h1 := ite_int_cases (left ≥ seqlen_k - 1) (-1) left
    generalize (if left ≥ seqlen_k - 1 then -1 else left) = l1 at *
    have h2 := ite_int_cases (right ≥ seqlen_q - 1) (-1) right
    generalize (if right ≥ seqlen_q - 1 then -1 else right) = r1 at *
    have h3 := ite_int_cases (l1 < 0 ∧ r1 ≥ 0) (seqlen_k - 1) l1
    generalize (if l1 < 0 ∧ r1 ≥ 0 then seqlen_k - 1 else l1) = l2 at *
    have h4 := ite_int_cases (l2 ≥ 0 ∧ r1 < 0) (seqlen_q - 1) r1
    generalize (if l2 ≥ 0 ∧ r1 < 0 then seqlen_q - 1 else r1) = r2 at *
    rw [window_policy_eq false l2 r2]
    simp only [Bool.false_eq_true, if_false]
    have h5 := ite_int_cases (l2 ≥ seqlen_k - 1) (-1) l2
    generalize (if l2 ≥ seqlen_k - 1 then -1 else l2) = l1' at *
    have h6 := ite_int_cases (r2 ≥ seqlen_q - 1) (-1) r2
    generalize (if r2 ≥ seqlen_q - 1 then -1 else r2) = r1' at *
    have h7 := ite_int_cases (l1' < 0 ∧ r1' ≥ 0) (seqlen_k - 1) l1'
    generalize (if l1' < 0 ∧ r1' ≥ 0 then seqlen_k - 1 else l1') = l2' at *
    have h8 := ite_int_cases (l2' ≥ 0 ∧ r1' < 0) (seqlen_q - 1) r1'
    generalize (if l2' ≥ 0 ∧ r1' < 0 then seqlen_q - 1 else r1') = r2' at *
    have hl : l2' = l2 := by omega
    have hr : r2' = r2 := by omega
    rw [hl, hr]
  · simp [window_policy_eq]

/-- C1 at a half-specified window: left unbounded, right 3, lengths 16 and 128;
the policy stores (127, 3) and maps that pair to itself. -/
theorem window_policy_idempotent_witness :
    (0 : Int) ≤ 16 ∧ (0 : Int) ≤ 128 ∧
    window_policy false (-1) 3 16 128 = (127, 3) ∧
    window_policy false (window_policy false (-1) 3 16 128).1
        (window_policy false (-1) 3 16 128).2 16 128
      = window_policy false (-1) 3 16 128 :=
  ⟨by decide, by decide, by decide,
    window_policy_idempotent false (-1) 3 16 128 (by decide) (by decide)⟩

/-- C2, as stated, fails: with the causal flag set and both sequence lengths 128
the plan stores the window (127, 0), not (-1, 0). -/
theorem causal_window_counterexample :
    window_policy true (-1) (-1) 128 128 = (127, 0) ∧
    window_policy true (-1) (-1) 128 128 ≠ (-1, 0) := by
  constructor <;> decide

/-- C2, amended: with the causal flag set, the host normalisation of `mha_fwd`
yields (-1, 0) for every input, the plan is classified causal and not local, and
the clamp of `set_params_fprop` stores the window (seqlen_k - 1, 0); the stored
window is (-1, 0) exactly when seqlen_k = 0. -/
theorem causal_window_stored (left right seqlen_q seqlen_k : Int) :
    mha_fwd_window true left right seqlen_q seqlen_k = (-1, 0) ∧
    (mha_fwd_mask true left right seqlen_q seqlen_k).is_causal = true ∧
    (mha_fwd_mask true left right seqlen_q seqlen_k).is_local = false ∧
    (mha_fwd_mask true left right seqlen_q seqlen_k).window_size_left = seqlen_k - 1 ∧
    (mha_fwd_mask true left right seqlen_q seqlen_k).window_size_right = 0 ∧
    window_policy true left right seqlen_q seqlen_k = (seqlen_k - 1, 0) ∧
    (window_policy true left right seqlen_q seqlen_k = (-1, 0) ↔ seqlen_k = 0) := by
  refine ⟨rfl, rfl, rfl, rfl, ?_, ?_, ?_⟩
  · simp [mha_fwd_mask, mha_fwd_window, set_params_fprop]
  · simp [window_policy_eq]
  · rw [window_policy_eq]
    simp only [if_true, Prod.mk.injEq, and_true]
    omega

/-- C6: mask classification in `set_params_fprop`. For all incoming bounds the
causal flag holds iff left < 0 and right = 0, the local flag holds iff some
bound is non-negative and the causal flag does not hold, the flags are never
both set, neither is set iff both bounds are negative (full attention), and
exactly one of causal, local, full holds. -/
theorem mask_classification (seqlen_q seqlen_k left right : Int) :
    ((set_params_fprop seqlen_q seqlen_k left right).is_causal = true
        ↔ left < 0 ∧ right = 0) ∧
    ((set_params_fprop seqlen_q seqlen_k left right).is_local = true
        ↔ (left ≥ 0 ∨ right ≥ 0) ∧
          ¬ (set_params_fprop seqlen_q seqlen_k left right).is_causal = true) ∧
    ¬ ((set_params_fprop seqlen_q seqlen_k left right).is_causal = true ∧
        (set_params_fprop seqlen_q seqlen_k left right).is_local = true) ∧
    (((set_params_fprop seqlen_q seqlen_k left right).is_causal = false ∧
        (set_params_fprop seqlen_q seqlen_k left right).is_local = false)
        ↔ left < 0 ∧ right < 0) ∧
    (((set_params_fprop seqlen_q seqlen_k left right).is_causal = true ∧
        (set_params_fprop seqlen_q seqlen_k left right).is_local = false ∧
        ¬ (left < 0 ∧ right < 0)) ∨
      ((set_params_fprop seqlen_q seqlen_k left right).is_causal = false ∧
        (set_params_fprop seqlen_q seqlen_k left right).is_local = true ∧
        ¬ (left < 0 ∧ right < 0)) ∨
      ((set_params_fprop seqlen_q seqlen_k left right).is_causal = false ∧
        (set_params_fprop seqlen_q seqlen_k left right).is_local = false ∧
        (left < 0 ∧ right < 0))) := by
  have hc : (set_params_fprop seqlen_q seqlen_k left right).is_causal
      = (decide (left < 0) && decide (right = 0)) := rfl
  have hl : (set_params_fprop seqlen_q seqlen_k left right).is_local
      = ((decide (left ≥ 0) || decide (right ≥ 0))
          && !(decide (left < 0) && decide (right = 0))) := rfl
  rw [hc, hl]
  rcases lt_or_le left 0 with h1 | h1 <;> rcases lt_trichotomy right 0 with h2 | h2 | h2 <;>
    simp [h1, h2, not_lt.mpr, not_le.mpr, le_of_lt, ne_of_lt, ne_of_gt]

/-- C7: for positive sequence lengths the stored window never has exactly one
negative side: both sides are negative or both are non-negative. A negative left
bound next to a non-negative right bound is stored as seqlen_k - 1, and a
negative right bound next to a non-negative left bound as seqlen_q - 1, the
other side being kept. -/
theorem window_never_half_specified (is_causal : Bool) (left right seqlen_q seqlen_k : Int)
    (hq : 1 ≤ seqlen_q) (hk : 1 ≤ seqlen_k) :
    (((mha_fwd_mask is_causal left right seqlen_q seqlen_k).window_size_left < 0 ∧
        (mha_fwd_mask is_causal left right seqlen_q seqlen_k).window_size_right < 0) ∨
      (0 ≤ (mha_fwd_mask is_causal left right seqlen_q seqlen_k).window_size_left ∧
        0 ≤ (mha_fwd_mask is_causal left right seqlen_q seqlen_k).window_size_right)) ∧
    ((mha_fwd_window is_causal left right seqlen_q seqlen_k).1 < 0 →
      0 ≤ (mha_fwd_window is_causal left right seqlen_q seqlen_k).2 →
        (mha_fwd_mask is_causal left right seqlen_q seqlen_k).window_size_left = seqlen_k - 1 ∧
        (mha_fwd_mask is_causal left right seqlen_q seqlen_k).window_size_right
          = (mha_fwd_window is_causal left right seqlen_q seqlen_k).2) ∧
    (0 ≤ (mha_fwd_window is_causal left right seqlen_q seqlen_k).1 →
      (mha_fwd_window is_causal left right seqlen_q seqlen_k).2 < 0 →
        (mha_fwd_mask is_causal left right seqlen_q seqlen_k).window_size_left
          = (mha_fwd_window is_causal left right seqlen_q seqlen_k).1 ∧
        (mha_fwd_mask is_causal left right seqlen_q seqlen_k).window_size_right
          = seqlen_q - 1) := by
  simp only [mha_fwd_mask, set_params_fprop_left, set_params_fprop_right]
  generalize (mha_fwd_window is_causal left right seqlen_q seqlen_k).1 = l1
  generalize (mha_fwd_window is_causal left right seqlen_q seqlen_k).2 = r1
  have h3 := ite_int_cases (l1 < 0 ∧ r1 ≥ 0) (seqlen_k - 1) l1
  generalize (if l1 < 0 ∧ r1 ≥ 0 then seqlen_k - 1 else l1) = l2 at *
  have h4 := ite_int_cases (l2 ≥ 0 ∧ r1 < 0) (seqlen_q - 1) r1
  generalize (if l2 ≥ 0 ∧ r1 < 0 then seqlen_q - 1 else r1) = r2 at *
  omega

/-- C7 at two half-specified windows with lengths 16 and 128: (-1, 3) is stored
as (127, 3) and (5, -1) as (5, 15). -/
theorem window_never_half_specified_witness :
    mha_fwd_mask false (-1) 3 16 128
      = { is_causal := false, is_local := true,
          window_size_left := 127, window_size_right := 3 } ∧
    mha_fwd_mask false 5 (-1) 16 128
      = { is_causal := false, is_local := true,
          window_size_left := 5, window_size_right := 15 } ∧
    ((mha_fwd_mask false 5 (-1) 16 128).window_size_left < 0 ∧
        (mha_fwd_mask false 5 (-1) 16 128).window_size_right < 0 ∨
      0 ≤ (mha_fwd_mask false 5 (-1) 16 128).window_size_left ∧
        0 ≤ (mha_fwd_mask false 5 (-1) 16 128).window_size_right) :=
  ⟨by decide, by decide,
    (window_never_half_specified false 5 (-1) 16 128 (by decide) (by decide)).1⟩

/-! ## Shape / padding resolver: claims -/

theorem round_multiple_eq_ediv (x m : Int) (hx : 0 ≤ x) (hm : 1 ≤ m) :
    round_multiple x m = (x + m - 1) / m * m := by
  unfold round_multiple
  rw [Int.tdiv_eq_ediv (by omega) (by omega)]

theorem alignment_cases (q_type : ScalarType) :
    alignment q_type = 8 ∨ alignment q_type = 16 := by
  unfold alignment
  split_ifs <;> simp

theorem head_size_eq_ediv (q_type : ScalarType) (x : Int) (hx : 0 ≤ x) :
    head_size q_type x = (x + alignment q_type - 1) / alignment q_type * alignment q_type := by
  unfold head_size
  exact round_multiple_eq_ediv _ _ hx (by rcases alignment_cases q_type with h | h <;> omega)

/-- C3: head-size rounding chain. For every raw head dimension in [0, 256] and
every element type (alignment 16 for fp8 e4m3, 8 otherwise),
head_size_rounded ≥ head_size ≥ head_size_raw, and head_size_rounded is a
multiple of 64 when head_size > 128, a multiple of 32 when 64 < head_size ≤ 128,
and exactly 64 when head_size ≤ 64. -/
theorem head_size_chain (q_type : ScalarType) (head_size_og : Int)
    (h0 : 0 ≤ head_size_og) (h256 : head_size_og ≤ 256) :
    head_size_rounded (head_size q_type head_size_og) ≥ head_size q_type head_size_og ∧
    head_size q_type head_size_og ≥ head_size_og ∧
    (head_size q_type head_size_og > 128 →
      64 ∣ head_size_rounded (head_size q_type head_size_og)) ∧
    (64 < head_size q_type head_size_og ∧ head_size q_type head_size_og ≤ 128 →
      32 ∣ head_size_rounded (head_size q_type head_size_og)) ∧
    (head_size q_type head_size_og ≤ 64 →
      head_size_rounded (head_size q_type head_size_og) = 64) := by
  have ha := alignment_cases q_type
  have hs := head_size_eq_ediv q_type head_size_og h0
  have hs0 : 0 ≤ head_size q_type head_size_og := by
    rw [hs]; rcases ha with ha | ha <;> rw [ha] <;> omega
  generalize head_size q_type head_size_og = hs' at *
  unfold head_size_rounded
  rw [round_multiple_eq_ediv hs' 32 hs0 (by decide),
    round_multiple_eq_ediv hs' 64 hs0 (by decide)]
  rcases ha with ha | ha <;> rw [ha] at hs <;> split_ifs <;> omega

/-- C3 at raw head dimension 100: fp16 pads to 104 and rounds to 128, fp8 pads
to 112 and rounds to 128; at 130, fp16 pads to 136 and rounds to 192. -/
theorem head_size_chain_witness :
    head_size ScalarType.Half 100 = 104 ∧
    head_size_rounded (head_size ScalarType.Half 100) = 128 ∧
    head_size ScalarType.Float8_e4m3fn 100 = 112 ∧
    head_size_rounded (head_size ScalarType.Half 130) = 192 ∧
    head_size_rounded (head_size ScalarType.Half 100) ≥ head_size ScalarType.Half 100 ∧
    head_size ScalarType.Half 100 ≥ 100 :=
  ⟨by decide, by decide, by decide, by decide,
    (head_size_chain ScalarType.Half 100 (by decide) (by decide)).1,
    (head_size_chain ScalarType.Half 100 (by decide) (by decide)).2.1⟩

/-- C4, as stated, fails: 8 is an aligned head dimension (it is its own padding
for fp16) and at most 64, and head_size_rounded is 64, not 8. -/
theorem head_size_rounded_counterexample :
    head_size ScalarType.Half 8 = 8 ∧
    head_size_rounded 8 = 64 ∧
    head_size_rounded 8 ≠ 8 := by
  refine ⟨?_, ?_, ?_⟩ <;> decide

/-- C4, amended: for every head_size ≤ 64, head_size_rounded is 64 (so it equals
head_size only at 64); for 64 < head_size ≤ 128 it is the least multiple of 32
that is ≥ head_size, and for head_size > 128 the least multiple of 64 that is
≥ head_size. -/
theorem head_size_rounded_spec (head_size : Int) :
    (head_size ≤ 64 → head_size_rounded head_size = 64) ∧
    (head_size ≤ 64 → (head_size_rounded head_size = head_size ↔ head_size = 64)) ∧
    (64 < head_size → head_size ≤ 128 →
      32 ∣ head_size_rounded head_size ∧ head_size ≤ head_size_rounded head_size ∧
      head_size_rounded head_size < head_size + 32) ∧
    (128 < head_size →
      64 ∣ head_size_rounded head_size ∧ head_size ≤ head_size_rounded head_size ∧
      head_size_rounded head_size < head_size + 64) := by
  unfold head_size_rounded
  refine ⟨?_, ?_, ?_, ?_⟩
  · intro h; rw [if_pos h]
  · intro h; rw [if_pos h]; omega
  · intro h1 h2
    rw [if_neg (by omega), if_pos h2, round_multiple_eq_ediv _ _ (by omega) (by decide)]
    omega
  · intro h1
    rw [if_neg (by omega), if_neg (by omega),
      round_multiple_eq_ediv _ _ (by omega) (by decide)]
    omega

/-- C4, amended, at 8, 72 and 136: the rounded head dimensions are 64, 96, 192. -/
theorem head_size_rounded_spec_witness :
    head_size_rounded 8 = 64 ∧ head_size_rounded 72 = 96 ∧ head_size_rounded 136 = 192 ∧
    (32 ∣ head_size_rounded 72 ∧ (72 : Int) ≤ head_size_rounded 72 ∧
      head_size_rounded 72 < 72 + 32) :=
  ⟨(head_size_rounded_spec 8).1 (by decide), by decide, by decide,
    (head_size_rounded_spec 72).2.2.1 (by decide) (by decide)⟩

/-- The rounding `(x + m - 1) / m * m` gives the least multiple of `m` that is
≥ `x`, for every `x ≥ 0` and `m ≥ 1`. -/
theorem round_multiple_least (x m : Int) (hx : 0 ≤ x) (hm : 1 ≤ m) :
    m ∣ round_multiple x m ∧ x ≤ round_multiple x m ∧ round_multiple x m - x < m ∧
    (∀ y, m ∣ y → x ≤ y → round_multiple x m ≤ y) ∧
    (round_multiple x m = x ↔ m ∣ x) := by
  rw [round_multiple_eq_ediv x m hx hm]
  have hmpos : 0 < m := by omega
  have h1 : (x + m - 1) / m * m ≤ x + m - 1 := Int.ediv_mul_le _ (by omega)
  have h2 : x + m - 1 < ((x + m - 1) / m + 1) * m := Int.lt_ediv_add_one_mul_self _ hmpos
  generalize (x + m - 1) / m = q at *
  have h3 : (q + 1) * m = q * m + m := by ring
  have hleast : ∀ y, m ∣ y → x ≤ y → q * m ≤ y := by
    rintro y ⟨k, rfl⟩ hxy
    by_contra hlt
    have hkq : k < q := by
      by_contra hkq
      have : q * m ≤ k * m := Int.mul_le_mul_of_nonneg_right (by omega) (by omega)
      have : m * k = k * m := by ring
      omega
    have : (k + 1) * m ≤ q * m := Int.mul_le_mul_of_nonneg_right (by omega) (by omega)
    have : (k + 1) * m = k * m + m := by ring
    have : m * k = k * m := by ring
    omega
  refine ⟨Dvd.intro_left q rfl, by omega, by omega, hleast, ?_⟩
  constructor
  · intro h; exact ⟨q, by rw [← h]; ring⟩
  · intro h
    have := hleast x h (le_refl x)
    omega

/-- C5: for every raw head dimension x ≥ 0 and every element type (alignment m =
16 for fp8 e4m3, 8 otherwise), head_size = round_multiple(x, m) is the least
multiple of m that is ≥ x; head_size - x < m, and head_size = x exactly when x
is a multiple of m. -/
theorem head_size_least_multiple (q_type : ScalarType) (x : Int) (hx : 0 ≤ x) :
    (alignment q_type = if q_type = ScalarType.Float8_e4m3fn then 16 else 8) ∧
    head_size q_type x = (x + alignment q_type - 1).tdiv (alignment q_type) * alignment q_type ∧
    alignment q_type ∣ head_size q_type x ∧
    x ≤ head_size q_type x ∧
    (∀ y, alignment q_type ∣ y → x ≤ y → head_size q_type x ≤ y) ∧
    head_size q_type x - x < alignment q_type ∧
    (head_size q_type x = x ↔ alignment q_type ∣ x) := by
  have hm : 1 ≤ alignment q_type := by rcases alignment_cases q_type with h | h <;> omega
  obtain ⟨h1, h2, h3, h4, h5⟩ := round_multiple_least x (alignment q_type) hx hm
  exact ⟨rfl, rfl, h1, h2, h4, h3, h5⟩

/-- C5 at x = 100: fp16 gives 104 (4 below the alignment 8 away), fp8 gives 112,
and 96 is kept by both. -/
theorem head_size_least_multiple_witness :
    (0 : Int) ≤ 100 ∧
    head_size ScalarType.Half 100 = 104 ∧ head_size ScalarType.Float8_e4m3fn 100 = 112 ∧
    head_size ScalarType.Half 96 = 96 ∧ head_size ScalarType.Float8_e4m3fn 96 = 96 ∧
    alignment ScalarType.Half ∣ head_size ScalarType.Half 100 ∧
    (100 : Int) ≤ head_size ScalarType.Half 100 :=
  ⟨by decide, by decide, by decide, by decide, by decide,
    (head_size_least_multiple ScalarType.Half 100 (by decide)).2.2.1,
    (head_size_least_multiple ScalarType.Half 100 (by decide)).2.2.2.1⟩

/-! ## Shape rejection: claims -/

theorem TORCH_CHECK_bind_fails {β : Type} (c : Bool) (m : String)
    (f : Unit → Except String β) :
    (∃ msg, (TORCH_CHECK c m >>= f) = Except.error msg) ↔
      (c = true → ∃ msg, f () = Except.error msg) := by
  cases c
  · simp [TORCH_CHECK, bind, Except.bind]
  · simp [TORCH_CHECK, bind, Except.bind]

theorem TORCH_CHECK_bind_eq_error {β : Type} (c : Bool) (m m0 : String)
    (f : Unit → Except String β) :
    (TORCH_CHECK c m >>= f) = Except.error m0 ↔
      (c = false ∧ m = m0) ∨ (c = true ∧ f () = Except.error m0) := by
  cases c
  · simp [TORCH_CHECK, bind, Except.bind]
  · simp [TORCH_CHECK, bind, Except.bind]

theorem TORCH_CHECK_map_eq_error {β : Type} (c : Bool) (m m0 : String) (f : Unit → β) :
    (f <$> TORCH_CHECK c m) = Except.error m0 ↔ (c = false ∧ m = m0) := by
  cases c
  · simp [TORCH_CHECK, Functor.map, Except.map]
  · simp [TORCH_CHECK, Functor.map, Except.map]

theorem pure_bind_except {α β : Type} (a : α) (f : α → Except String β) :
    ((pure a : Except String α) >>= f) = f a := rfl

theorem ite_bind_except {α β : Type} (c : Prop) [Decidable c] (x y : Except String α)
    (f : α → Except String β) :
    ((if c then x else y) >>= f) = if c then x >>= f else y >>= f := by
  split_ifs <;> rfl

theorem mha_fwd_rejects (is_sm90 : Bool) (q k v : Tensor)
    (h : 256 < q.size 3 ∨ (q.size 2).tmod (k.size 2) ≠ 0) :
    ∃ msg, mha_fwd_shape_checks is_sm90 q k v = Except.error msg := by
  simp only [mha_fwd_shape_checks, CHECK_DEVICE, TORCH_CHECK_bind_fails, ite_bind_except,
    pure_bind_except]
  intros
  split_ifs <;> simp only [TORCH_CHECK_bind_fails, decide_eq_true_eq, beq_iff_eq] <;>
    intros <;> rcases h with h | h <;> omega

theorem mha_fwd_two_checks_pass (is_sm90 : Bool) (q k v : Tensor)
    (h1 : q.size 3 ≤ 256) (h2 : (q.size 2).tmod (k.size 2) = 0) :
    mha_fwd_shape_checks is_sm90 q k v ≠ Except.error msg_head_dim_fwd ∧
    mha_fwd_shape_checks is_sm90 q k v ≠ Except.error msg_heads_divide := by
  constructor <;>
  · simp only [mha_fwd_shape_checks, CHECK_DEVICE, ne_eq, TORCH_CHECK_bind_eq_error,
      ite_bind_except, pure_bind_except]
    split_ifs <;>
      simp [TORCH_CHECK_bind_eq_error, TORCH_CHECK_map_eq_error, msg_head_dim_fwd,
        msg_heads_divide, h1, h2]

theorem mha_varlen_fwd_rejects (is_sm90 : Bool) (q k v cu_seqlens_q cu_seqlens_k : Tensor)
    (h : 256 < q.size 2 ∨ (q.size 1).tmod (k.size 1) ≠ 0) :
    ∃ msg, mha_varlen_fwd_shape_checks is_sm90 q k v cu_seqlens_q cu_seqlens_k
      = Except.error msg := by
  simp only [mha_varlen_fwd_shape_checks, CHECK_DEVICE, TORCH_CHECK_bind_fails,
    pure_bind_except, decide_eq_true_eq, beq_iff_eq]
  intros
  rcases h with h | h <;> omega

theorem mha_varlen_fwd_two_checks_pass (is_sm90 : Bool)
    (q k v cu_seqlens_q cu_seqlens_k : Tensor)
    (h1 : q.size 2 ≤ 256) (h2 : (q.size 1).tmod (k.size 1) = 0) :
    mha_varlen_fwd_shape_checks is_sm90 q k v cu_seqlens_q cu_seqlens_k
      ≠ Except.error msg_head_dim_fwd ∧
    mha_varlen_fwd_shape_checks is_sm90 q k v cu_seqlens_q cu_seqlens_k
      ≠ Except.error msg_heads_divide := by
  constructor <;>
  · simp [mha_varlen_fwd_shape_checks, CHECK_DEVICE, TORCH_CHECK_bind_eq_error,
      TORCH_CHECK_map_eq_error, msg_head_dim_fwd, msg_heads_divide, h1, h2]

theorem mha_bwd_rejects (disable_backward is_sm9x : Bool)
    (dout q k v out softmax_lse : Tensor)
    (h : 256 < q.size 3 ∨ (q.size 2).tmod (k.size 2) ≠ 0) :
    ∃ msg, mha_bwd_shape_checks disable_backward is_sm9x dout q k v out softmax_lse
      = Except.error msg := by
  simp only [mha_bwd_shape_checks, CHECK_DEVICE, TORCH_CHECK_bind_fails, ite_bind_except,
    pure_bind_except]
  split_ifs <;> simp only [TORCH_CHECK_bind_fails, decide_eq_true_eq, beq_iff_eq] <;>
    intros <;> first | contradiction | (rcases h with h | h <;> omega)

theorem mha_bwd_two_checks_pass (disable_backward is_sm9x : Bool)
    (dout q k v out softmax_lse : Tensor)
    (h1 : q.size 3 ≤ 256) (h2 : (q.size 2).tmod (k.size 2) = 0) :
    mha_bwd_shape_checks disable_backward is_sm9x dout q k v out softmax_lse
      ≠ Except.error msg_head_dim_bwd ∧
    mha_bwd_shape_checks disable_backward is_sm9x dout q k v out softmax_lse
      ≠ Except.error msg_heads_divide := by
  constructor <;>
  · simp only [mha_bwd_shape_checks, CHECK_DEVICE, ne_eq, ite_bind_except, pure_bind_except]
    split_ifs <;>
      simp [TORCH_CHECK_bind_eq_error, TORCH_CHECK_map_eq_error, msg_head_dim_bwd,
        msg_heads_divide, h1, h2]

theorem mha_varlen_bwd_rejects (disable_backward is_sm9x : Bool)
    (dout q k v out softmax_lse cu_seqlens_q cu_seqlens_k : Tensor)
    (h : 256 < q.size 2 ∨ (q.size 1).tmod (k.size 1) ≠ 0) :
    ∃ msg, mha_varlen_bwd_shape_checks disable_backward is_sm9x dout q k v out softmax_lse
      cu_seqlens_q cu_seqlens_k = Except.error msg := by
  simp only [mha_varlen_bwd_shape_checks, CHECK_DEVICE, CHECK_CONTIGUOUS,
    TORCH_CHECK_bind_fails, ite_bind_except, pure_bind_except]
  split_ifs <;> simp only [TORCH_CHECK_bind_fails, decide_eq_true_eq, beq_iff_eq] <;>
    intros <;> first | contradiction | (rcases h with h | h <;> omega)

theorem mha_varlen_bwd_two_checks_pass (disable_backward is_sm9x : Bool)
    (dout q k v out softmax_lse cu_seqlens_q cu_seqlens_k : Tensor)
    (h1 : q.size 2 ≤ 256) (h2 : (q.size 1).tmod (k.size 1) = 0) :
    mha_varlen_bwd_shape_checks disable_backward is_sm9x dout q k v out softmax_lse
      cu_seqlens_q cu_seqlens_k ≠ Except.error msg_head_dim_bwd ∧
    mha_varlen_bwd_shape_checks disable_backward is_sm9x dout q k v out softmax_lse
      cu_seqlens_q cu_seqlens_k ≠ Except.error msg_heads_divide := by
  constructor <;>
  · simp only [mha_varlen_bwd_shape_checks, CHECK_DEVICE, CHECK_CONTIGUOUS, ne_eq,
      ite_bind_except, pure_bind_except]
    split_ifs <;>
      simp [TORCH_CHECK_bind_eq_error, TORCH_CHECK_map_eq_error, msg_head_dim_bwd,
        msg_heads_divide, h1, h2]

theorem mha_fwd_kvcache_rejects (is_sm90 : Bool) (q kcache vcache : Tensor)
    (page_table_ cu_seqlens_q_ : Option Tensor) (max_seqlen_q_ : Option Int)
    (cache_batch_idx_given : Bool)
    (h : 256 < q.size (-1) ∨ (q.size (-2)).tmod (kcache.size 2) ≠ 0) :
    ∃ msg, mha_fwd_kvcache_shape_checks is_sm90 q kcache vcache page_table_ cu_seqlens_q_
      max_seqlen_q_ cache_batch_idx_given = Except.error msg := by
  cases page_table_ <;> cases cu_seqlens_q_ <;>
    simp only [mha_fwd_kvcache_shape_checks, CHECK_DEVICE, TORCH_CHECK_bind_fails,
      ite_bind_except, pure_bind_except, bind_assoc] <;>
    intros <;> split_ifs <;>
    simp only [TORCH_CHECK_bind_fails, decide_eq_true_eq, beq_iff_eq] <;>
    intros <;> rcases h with h | h <;> omega

theorem bind_ne_error {α β : Type} (x : Except String α) (f : α → Except String β)
    (m : String) (hx : x ≠ Except.error m) (hf : ∀ a, f a ≠ Except.error m) :
    (x >>= f) ≠ Except.error m := by
  cases x with
  | error e => simpa [bind, Except.bind] using hx
  | ok a => exact hf a

theorem TORCH_CHECK_ne_error (c : Bool) (m m0 : String) (h : c = true ∨ m ≠ m0) :
    TORCH_CHECK c m ≠ Except.error m0 := by
  cases c
  · rcases h with h | h
    · cases h
    · simpa [TORCH_CHECK] using h
  · simp [TORCH_CHECK]

theorem pure_ne_error {α : Type} (a : α) (m : String) :
    (pure a : Except String α) ≠ Except.error m := by
  intro h; cases h

theorem ite_ne_error {α : Type} (c : Prop) [Decidable c] (x y : Except String α)
    (m : String) (hx : x ≠ Except.error m) (hy : y ≠ Except.error m) :
    (if c then x else y) ≠ Except.error m := by
  split_ifs <;> assumption

theorem mha_fwd_kvcache_two_checks_pass (is_sm90 : Bool) (q kcache vcache : Tensor)
    (page_table_ cu_seqlens_q_ : Option Tensor) (max_seqlen_q_ : Option Int)
    (cache_batch_idx_given : Bool)
    (h1 : q.size (-1) ≤ 256) (h2 : (q.size (-2)).tmod (kcache.size 2) = 0) :
    mha_fwd_kvcache_shape_checks is_sm90 q kcache vcache page_table_ cu_seqlens_q_
      max_seqlen_q_ cache_batch_idx_given ≠ Except.error msg_head_dim_fwd ∧
    mha_fwd_kvcache_shape_checks is_sm90 q kcache vcache page_table_ cu_seqlens_q_
      max_seqlen_q_ cache_batch_idx_given ≠ Except.error msg_heads_divide := by
  constructor <;> cases page_table_ <;> cases cu_seqlens_q_ <;>
  · simp only [mha_fwd_kvcache_shape_checks, CHECK_DEVICE, bind_assoc]
    repeat' first
      | exact pure_ne_error _ _
      | exact TORCH_CHECK_ne_error _ _ _ (Or.inr (by decide))
      | exact TORCH_CHECK_ne_error _ _ _ (Or.inl (by simp [h1, h2]))
      | refine ite_ne_error _ _ _ _ ?_ ?_
      | refine bind_ne_error _ _ _ ?_ (fun _ => ?_)

/-- C8: shape rejection. Each of `mha_fwd`, `mha_varlen_fwd`, `mha_bwd`,
`mha_varlen_bwd` and `mha_fwd_kvcache` ends in an error whenever the head
dimension exceeds 256 or `num_heads % num_heads_k != 0` (with num_heads_k ≥ 1),
whatever the other arguments are; and when the head dimension is at most 256
and num_heads_k divides num_heads, the error of neither of the two checks is
raised. -/
theorem shape_rejection :
    (∀ (is_sm90 : Bool) (q k v : Tensor), 1 ≤ k.size 2 →
      ((256 < q.size 3 ∨ (q.size 2).tmod (k.size 2) ≠ 0) →
        ∃ msg, mha_fwd_shape_checks is_sm90 q k v = Except.error msg) ∧
      (q.size 3 ≤ 256 → k.size 2 ∣ q.size 2 →
        mha_fwd_shape_checks is_sm90 q k v ≠ Except.error msg_head_dim_fwd ∧
        mha_fwd_shape_checks is_sm90 q k v ≠ Except.error msg_heads_divide)) ∧
    (∀ (is_sm90 : Bool) (q k v cu_seqlens_q cu_seqlens_k : Tensor), 1 ≤ k.size 1 →
      ((256 < q.size 2 ∨ (q.size 1).tmod (k.size 1) ≠ 0) →
        ∃ msg, mha_varlen_fwd_shape_checks is_sm90 q k v cu_seqlens_q cu_seqlens_k
          = Except.error msg) ∧
      (q.size 2 ≤ 256 → k.size 1 ∣ q.size 1 →
        mha_varlen_fwd_shape_checks is_sm90 q k v cu_seqlens_q cu_seqlens_k
          ≠ Except.error msg_head_dim_fwd ∧
        mha_varlen_fwd_shape_checks is_sm90 q k v cu_seqlens_q cu_seqlens_k
          ≠ Except.error msg_heads_divide)) ∧
    (∀ (disable_backward is_sm9x : Bool) (dout q k v out softmax_lse : Tensor),
      1 ≤ k.size 2 →
      ((256 < q.size 3 ∨ (q.size 2).tmod (k.size 2) ≠ 0) →
        ∃ msg, mha_bwd_shape_checks disable_backward is_sm9x dout q k v out softmax_lse
          = Except.error msg) ∧
      (q.size 3 ≤ 256 → k.size 2 ∣ q.size 2 →
        mha_bwd_shape_checks disable_backward is_sm9x dout q k v out softmax_lse
          ≠ Except.error msg_head_dim_bwd ∧
        mha_bwd_shape_checks disable_backward is_sm9x dout q k v out softmax_lse
          ≠ Except.error msg_heads_divide)) ∧
    (∀ (disable_backward is_sm9x : Bool)
        (dout q k v out softmax_lse cu_seqlens_q cu_seqlens_k : Tensor),
      1 ≤ k.size 1 →
      ((256 < q.size 2 ∨ (q.size 1).tmod (k.size 1) ≠ 0) →
        ∃ msg, mha_varlen_bwd_shape_checks disable_backward is_sm9x dout q k v out
          softmax_lse cu_seqlens_q cu_seqlens_k = Except.error msg) ∧
      (q.size 2 ≤ 256 → k.size 1 ∣ q.size 1 →
        mha_varlen_bwd_shape_checks disable_backward is_sm9x dout q k v out
          softmax_lse cu_seqlens_q cu_seqlens_k ≠ Except.error msg_head_dim_bwd ∧
        mha_varlen_bwd_shape_checks disable_backward is_sm9x dout q k v out
          softmax_lse cu_seqlens_q cu_seqlens_k ≠ Except.error msg_heads_divide)) ∧
    (∀ (is_sm90 : Bool) (q kcache vcache : Tensor)
        (page_table_ cu_seqlens_q_ : Option Tensor) (max_seqlen_q_ : Option Int)
        (cache_batch_idx_given : Bool),
      1 ≤ kcache.size 2 →
      ((256 < q.size (-1) ∨ (q.size (-2)).tmod (kcache.size 2) ≠ 0) →
        ∃ msg, mha_fwd_kvcache_shape_checks is_sm90 q kcache vcache page_table_
          cu_seqlens_q_ max_seqlen_q_ cache_batch_idx_given = Except.error msg) ∧
      (q.size (-1) ≤ 256 → kcache.size 2 ∣ q.size (-2) →
        mha_fwd_kvcache_shape_checks is_sm90 q kcache vcache page_table_
          cu_seqlens_q_ max_seqlen_q_ cache_batch_idx_given
            ≠ Except.error msg_head_dim_fwd ∧
        mha_fwd_kvcache_shape_checks is_sm90 q kcache vcache page_table_
          cu_seqlens_q_ max_seqlen_q_ cache_batch_idx_given
            ≠ Except.error msg_heads_divide)) := by
  refine ⟨?_, ?_, ?_, ?_, ?_⟩
  · intro is_sm90 q k v _
    exact ⟨mha_fwd_rejects is_sm90 q k v, fun h1 h2 =>
      mha_fwd_two_checks_pass is_sm90 q k v h1 (Int.tmod_eq_zero_of_dvd h2)⟩
  · intro is_sm90 q k v cq ck _
    exact ⟨mha_varlen_fwd_rejects is_sm90 q k v cq ck, fun h1 h2 =>
      mha_varlen_fwd_two_checks_pass is_sm90 q k v cq ck h1 (Int.tmod_eq_zero_of_dvd h2)⟩
  · intro db is_sm9x dout q k v out lse _
    exact ⟨mha_bwd_rejects db is_sm9x dout q k v out lse, fun h1 h2 =>
      mha_bwd_two_checks_pass db is_sm9x dout q k v out lse h1 (Int.tmod_eq_zero_of_dvd h2)⟩
  · intro db is_sm9x dout q k v out lse cq ck _
    exact ⟨mha_varlen_bwd_rejects db is_sm9x dout q k v out lse cq ck, fun h1 h2 =>
      mha_varlen_bwd_two_checks_pass db is_sm9x dout q k v out lse cq ck h1
        (Int.tmod_eq_zero_of_dvd h2)⟩
  · intro is_sm90 q kc vc pt cq mq cb _
    exact ⟨mha_fwd_kvcache_rejects is_sm90 q kc vc pt cq mq cb, fun h1 h2 =>
      mha_fwd_kvcache_two_checks_pass is_sm90 q kc vc pt cq mq cb h1
        (Int.tmod_eq_zero_of_dvd h2)⟩

/-- C8 at concrete fp16 tensors for `mha_fwd`, keys and values of shape
(2, 128, 2, 64): a query of shape (2, 128, 8, 512) is rejected by the
head-dimension check, a query with 7 heads by the head-count check, and
a query of shape (2, 128, 8, 64) passes. -/
theorem shape_rejection_witness :
    mha_fwd_shape_checks true
        { dtype := ScalarType.Half, is_cuda := true, sizes := [2, 128, 8, 512],
          strides := [524288, 4096, 512, 1] }
        { dtype := ScalarType.Half, is_cuda := true, sizes := [2, 128, 2, 64],
          strides := [16384, 128, 64, 1] }
        { dtype := ScalarType.Half, is_cuda := true, sizes := [2, 128, 2, 64],
          strides := [16384, 128, 64, 1] }
      = Except.error msg_head_dim_fwd ∧
    mha_fwd_shape_checks true
        { dtype := ScalarType.Half, is_cuda := true, sizes := [2, 128, 7, 64],
          strides := [57344, 448, 64, 1] }
        { dtype := ScalarType.Half, is_cuda := true, sizes := [2, 128, 2, 64],
          strides := [16384, 128, 64, 1] }
        { dtype := ScalarType.Half, is_cuda := true, sizes := [2, 128, 2, 64],
          strides := [16384, 128, 64, 1] }
      = Except.error msg_heads_divide ∧
    mha_fwd_shape_checks true
        { dtype := ScalarType.Half, is_cuda := true, sizes := [2, 128, 8, 64],
          strides := [65536, 512, 64, 1] }
        { dtype := ScalarType.Half, is_cuda := true, sizes := [2, 128, 2, 64],
          strides := [16384, 128, 64, 1] }
        { dtype := ScalarType.Half, is_cuda := true, sizes := [2, 128, 2, 64],
          strides := [16384, 128, 64, 1] }
      = Except.ok { batch_size := 2, seqlen_q := 128, seqlen_k := 128, total_q := 0,
                    total_k := 0, num_heads := 8, num_heads_k := 2, head_size_og := 64,
                    head_size := 64 } ∧
    (∃ msg, mha_fwd_shape_checks true
        { dtype := ScalarType.Half, is_cuda := true, sizes := [2, 128, 8, 512],
          strides := [524288, 4096, 512, 1] }
        { dtype := ScalarType.Half, is_cuda := true, sizes := [2, 128, 2, 64],
          strides := [16384, 128, 64, 1] }
        { dtype := ScalarType.Half, is_cuda := true, sizes := [2, 128, 2, 64],
          strides := [16384, 128, 64, 1] }
      = Except.error msg) :=
  ⟨rfl, rfl, rfl,
    (shape_rejection.1 true
        { dtype := ScalarType.Half, is_cuda := true, sizes := [2, 128, 8, 512],
          strides := [524288, 4096, 512, 1] }
        { dtype := ScalarType.Half, is_cuda := true, sizes := [2, 128, 2, 64],
          strides := [16384, 128, 64, 1] }
        { dtype := ScalarType.Half, is_cuda := true, sizes := [2, 128, 2, 64],
          strides := [16384, 128, 64, 1] } (by decide)).1 (Or.inl (by decide))⟩

/-! ## GQA packing heuristic: claims -/

theorem round_up_nonneg (a b : Int) (ha : 0 ≤ a) (hb : 1 ≤ b) : 0 ≤ round_up a b := by
  unfold round_up
  rw [Int.tdiv_eq_ediv (by omega) (by omega)]
  exact Int.mul_nonneg (Int.ediv_nonneg (by omega) (by omega)) (by omega)

theorem round_up_pos (a b : Int) (ha : 1 ≤ a) (hb : 1 ≤ b) : a ≤ round_up a b := by
  unfold round_up
  rw [Int.tdiv_eq_ediv (by omega) (by omega)]
  have h2 : a + b - 1 < ((a + b - 1) / b + 1) * b :=
    Int.lt_ediv_add_one_mul_self _ (by omega)
  have h3 : ((a + b - 1) / b + 1) * b = (a + b - 1) / b * b + b := by ring
  omega

theorem utilisation_pos_le_one (n kBlockM : Int) (hn : 1 ≤ n) (hb : 1 ≤ kBlockM) :
    0 < utilisation n kBlockM ∧ utilisation n kBlockM ≤ 1 := by
  have h := round_up_pos n kBlockM hn hb
  have hn' : (0 : ℚ) < (n : ℚ) := by exact_mod_cast (by omega : (0 : Int) < n)
  have hr' : (n : ℚ) ≤ (round_up n kBlockM : ℚ) := by exact_mod_cast h
  unfold utilisation
  constructor
  · exact div_pos hn' (by linarith)
  · rw [div_le_one (by linarith)]; exact hr'

/-! ## Floating-point rounding -/

theorem round_half_even_error (t : ℚ) : |(round_half_even t : ℚ) - t| ≤ 1 / 2 := by
  have h1 : (⌊t⌋ : ℚ) ≤ t := Int.floor_le t
  have h2 : t < (⌊t⌋ : ℚ) + 1 := Int.lt_floor_add_one t
  unfold round_half_even
  rw [abs_le]
  split_ifs with c1 c2 c3
  · constructor <;> linarith
  · push_cast
    constructor <;> linarith
  · constructor <;> linarith
  · push_cast
    constructor <;> linarith

theorem round_half_even_eq (t : ℚ) (m : Int) (h : |t - m| < 1 / 2) :
    round_half_even t = m := by
  rw [abs_lt] at h
  obtain ⟨h1, h2⟩ := h
  unfold round_half_even
  rcases le_or_lt (m : ℚ) t with hm | hm
  · have hf : ⌊t⌋ = m := by
      rw [Int.floor_eq_iff]
      constructor <;> linarith
    rw [hf, if_pos (by linarith)]
  · have hf : ⌊t⌋ = m - 1 := by
      rw [Int.floor_eq_iff]
      push_cast
      constructor <;> linarith
    rw [hf]
    have c1 : ¬ (t - ((m - 1 : Int) : ℚ) < 1 / 2) := by
      push_cast
      linarith
    have c2 : 1 / 2 < t - ((m - 1 : Int) : ℚ) := by
      push_cast
      linarith
    rw [if_neg c1, if_pos c2]
    ring

theorem ulp_pos (p : Nat) (e : Int) : (0 : ℚ) < (2 : ℚ) ^ e / 2 ^ (p - 1) :=
  div_pos (zpow_pos (by norm_num) e) (pow_pos (by norm_num) _)

theorem log_two_bounds (x : ℚ) (hx : 0 < x) :
    (2 : ℚ) ^ Int.log 2 x ≤ x ∧ x < (2 : ℚ) ^ (Int.log 2 x + 1) := by
  have h1 := Int.zpow_log_le_self (b := 2) (r := x) (by norm_num) hx
  have h2 := Int.lt_zpow_succ_log_self (b := 2) (by norm_num) x
  simp only [Nat.cast_ofNat] at h1 h2
  exact ⟨h1, h2⟩

theorem log_two_eq (x : ℚ) (e : Int) (hx : 0 < x) (h1 : (2 : ℚ) ^ e ≤ x)
    (h2 : x < (2 : ℚ) ^ (e + 1)) : Int.log 2 x = e := by
  have a1 := (Int.zpow_le_iff_le_log (b := 2) (by norm_num) hx (x := e)).mp
    (by simpa using h1)
  have a2 := (Int.lt_zpow_iff_log_lt (b := 2) (by norm_num) hx (x := e + 1)).mp
    (by simpa using h2)
  omega

/-- The rounding error of `round_to_precision`: at most half a unit in the last
place, hence at most `x / 2 ^ p` for a positive `x` (written `x / 2 ^ (p - 1) / 2`). -/
theorem round_to_precision_error (p : Nat) (x : ℚ) (hx : 0 < x) :
    |round_to_precision p x - x| ≤ x / 2 ^ (p - 1) / 2 := by
  have hlog := (log_two_bounds x hx).1
  have hu := ulp_pos p (Int.log 2 x)
  have hux : (2 : ℚ) ^ Int.log 2 x / 2 ^ (p - 1) ≤ x / 2 ^ (p - 1) :=
    div_le_div_of_nonneg_right hlog (pow_pos (by norm_num) _).le
  unfold round_to_precision
  rw [if_neg (ne_of_gt hx), abs_of_pos hx]
  generalize (2 : ℚ) ^ Int.log 2 x / 2 ^ (p - 1) = u at hu hux ⊢
  have he := round_half_even_error (x / u)
  have hrw : (round_half_even (x / u) : ℚ) * u - x = ((round_half_even (x / u) : ℚ) - x / u) * u := by
    field_simp
  rw [hrw, abs_mul, abs_of_pos hu]
  calc |(round_half_even (x / u) : ℚ) - x / u| * u ≤ 1 / 2 * u :=
        mul_le_mul_of_nonneg_right he hu.le
    _ ≤ x / 2 ^ (p - 1) / 2 := by linarith

theorem round_to_precision_eq (p : Nat) (x : ℚ) (e m : Int) (hx : 0 < x)
    (h1 : (2 : ℚ) ^ e ≤ x) (h2 : x < (2 : ℚ) ^ (e + 1))
    (h3 : |x / ((2 : ℚ) ^ e / 2 ^ (p - 1)) - m| < 1 / 2) :
    round_to_precision p x = m * ((2 : ℚ) ^ e / 2 ^ (p - 1)) := by
  unfold round_to_precision
  rw [if_neg (ne_of_gt hx), abs_of_pos hx, log_two_eq x e hx h1 h2, round_half_even_eq _ m h3]

/-- The two-sided error bound of binary32 rounding. -/
theorem float_bounds (x : ℚ) (hx : 0 < x) :
    (1 - 1 / 16777216) * x ≤ round_to_precision 24 x ∧
    round_to_precision 24 x ≤ (1 + 1 / 16777216) * x := by
  have h := round_to_precision_error 24 x hx
  rw [abs_le] at h
  norm_num at h
  constructor <;> linarith

/-- The two-sided error bound of binary64 rounding. -/
theorem double_bounds (x : ℚ) (hx : 0 < x) :
    (1 - 1 / 9007199254740992) * x ≤ round_to_precision 53 x ∧
    round_to_precision 53 x ≤ (1 + 1 / 9007199254740992) * x := by
  have h := round_to_precision_error 53 x hx
  rw [abs_le] at h
  norm_num at h
  constructor <;> linarith

theorem round_to_precision_zero (p : Nat) : round_to_precision p 0 = 0 := by
  unfold round_to_precision
  rw [if_pos rfl]

theorem float_pos (x : ℚ) (hx : 0 < x) : 0 < round_to_precision 24 x := by
  have h := (float_bounds x hx).1
  have : 0 < (1 - 1 / 16777216 : ℚ) * x := mul_pos (by norm_num) hx
  linarith

theorem double_pos (x : ℚ) (hx : 0 < x) : 0 < round_to_precision 53 x := by
  have h := (double_bounds x hx).1
  have : 0 < (1 - 1 / 9007199254740992 : ℚ) * x := mul_pos (by norm_num) hx
  linarith

/-- The `float` quotient of two converted positive `int`s is finite and within
three roundings of the exact quotient. -/
theorem float_quotient_bounds (n d : Int) (hn : 1 ≤ n) (hd : 1 ≤ d) :
    ∃ q, float_div (float_of_int n) (float_of_int d) = FloatValue.finite q ∧ 0 < q ∧
      (1 - 1 / 16777216) * ((1 - 1 / 16777216) / (1 + 1 / 16777216)) * ((n : ℚ) / d) ≤ q ∧
      q ≤ (1 + 1 / 16777216) * ((1 + 1 / 16777216) / (1 - 1 / 16777216)) * ((n : ℚ) / d) := by
  have hn' : (0 : ℚ) < n := by exact_mod_cast (by omega : (0 : Int) < n)
  have hd' : (0 : ℚ) < d := by exact_mod_cast (by omega : (0 : Int) < d)
  obtain ⟨a1, a2⟩ := float_bounds n hn'
  obtain ⟨b1, b2⟩ := float_bounds d hd'
  have ha := float_pos n hn'
  have hb := float_pos d hd'
  unfold float_div float_of_int
  rw [if_neg (ne_of_gt hb)]
  generalize round_to_precision 24 (n : ℚ) = a at *
  generalize round_to_precision 24 (d : ℚ) = b at *
  have hab : 0 < a / b := div_pos ha hb
  obtain ⟨c1, c2⟩ := float_bounds (a / b) hab
  refine ⟨_, rfl, float_pos _ hab, ?_, ?_⟩
  · have hq : (1 - 1 / 16777216) / (1 + 1 / 16777216) * ((n : ℚ) / d) ≤ a / b := by
      rw [div_mul_div_comm]
      exact div_le_div₀ (by linarith) a1 (by positivity) b2
    calc (1 - 1 / 16777216) * ((1 - 1 / 16777216) / (1 + 1 / 16777216)) * ((n : ℚ) / d)
        = (1 - 1 / 16777216) * ((1 - 1 / 16777216) / (1 + 1 / 16777216) * ((n : ℚ) / d)) := by
          ring
      _ ≤ (1 - 1 / 16777216) * (a / b) := mul_le_mul_of_nonneg_left hq (by norm_num)
      _ ≤ round_to_precision 24 (a / b) := c1
  · have hq : a / b ≤ (1 + 1 / 16777216) / (1 - 1 / 16777216) * ((n : ℚ) / d) := by
      rw [div_mul_div_comm]
      exact div_le_div₀ (by positivity) a2 (by positivity) b1
    calc round_to_precision 24 (a / b) ≤ (1 + 1 / 16777216) * (a / b) := c2
      _ ≤ (1 + 1 / 16777216) * ((1 + 1 / 16777216) / (1 - 1 / 16777216) * ((n : ℚ) / d)) :=
          mul_le_mul_of_nonneg_left hq (by norm_num)
      _ = (1 + 1 / 16777216) * ((1 + 1 / 16777216) / (1 - 1 / 16777216)) * ((n : ℚ) / d) := by
          ring

theorem double_literal_bounds :
    (1 - 1 / 9007199254740992) * (95 / 100) ≤ round_to_precision 53 (95 / 100) ∧
    round_to_precision 53 (95 / 100) ≤ (1 + 1 / 9007199254740992) * (95 / 100) ∧
    0 < round_to_precision 53 (95 / 100) :=
  ⟨(double_bounds _ (by norm_num)).1, (double_bounds _ (by norm_num)).2,
    double_pos _ (by norm_num)⟩

/-- The `double` product `0.95 * q` for a positive `q`, within two roundings of
the exact product. -/
theorem double_product_bounds (q : ℚ) (hq : 0 < q) :
    (1 - 1 / 9007199254740992) * ((1 - 1 / 9007199254740992) * (95 / 100) * q)
      ≤ round_to_precision 53 (round_to_precision 53 (95 / 100) * q) ∧
    round_to_precision 53 (round_to_precision 53 (95 / 100) * q)
      ≤ (1 + 1 / 9007199254740992) * ((1 + 1 / 9007199254740992) * (95 / 100) * q) := by
  obtain ⟨c1, c2, c3⟩ := double_literal_bounds
  generalize round_to_precision 53 (95 / 100) = c at *
  have hcq : 0 < c * q := mul_pos c3 hq
  obtain ⟨d1, d2⟩ := double_bounds (c * q) hcq
  have e1 : (1 - 1 / 9007199254740992) * (95 / 100) * q ≤ c * q :=
    mul_le_mul_of_nonneg_right c1 hq.le
  have e2 : c * q ≤ (1 + 1 / 9007199254740992) * (95 / 100) * q :=
    mul_le_mul_of_nonneg_right c2 hq.le
  constructor
  · exact le_trans (mul_le_mul_of_nonneg_left e1 (by norm_num)) d1
  · exact le_trans d2 (mul_le_mul_of_nonneg_left e2 (by norm_num))

theorem round_up_zero (b : Int) (hb : 1 ≤ b) : round_up 0 b = 0 := by
  unfold round_up
  rw [Int.tdiv_eq_ediv (by omega) (by omega), Int.ediv_eq_zero_of_lt (by omega) (by omega),
    zero_mul]

theorem should_pack_gqa_one (seqlen_q blockM : Int) (hs : 0 ≤ seqlen_q) (hb : 1 ≤ blockM) :
    should_pack_gqa seqlen_q 1 blockM = false := by
  rcases eq_or_lt_of_le hs with h0 | hpos
  · subst h0
    simp only [should_pack_gqa, zero_mul, round_up_zero blockM hb, float_of_int, Int.cast_zero,
      round_to_precision_zero, float_div, if_true, double_mul, FloatValue.lt]
  · have hs1 : 1 ≤ seqlen_q := hpos
    have hr : 1 ≤ round_up seqlen_q blockM := le_trans hs1 (round_up_pos _ _ hs1 hb)
    obtain ⟨q, hq, hq0, -, -⟩ := float_quotient_bounds seqlen_q (round_up seqlen_q blockM) hs1 hr
    obtain ⟨-, d2⟩ := double_product_bounds q hq0
    simp only [should_pack_gqa, mul_one, hq, double_mul, FloatValue.lt, decide_eq_false_iff_not,
      not_lt]
    have : (1 + 1 / 9007199254740992) * ((1 + 1 / 9007199254740992) * (95 / 100) * q) ≤ q := by
      have hc : (1 + 1 / 9007199254740992 : ℚ) * ((1 + 1 / 9007199254740992) * (95 / 100)) ≤ 1 := by
        norm_num
      calc (1 + 1 / 9007199254740992) * ((1 + 1 / 9007199254740992) * (95 / 100) * q)
          = ((1 + 1 / 9007199254740992 : ℚ) * ((1 + 1 / 9007199254740992) * (95 / 100))) * q := by
            ring
        _ ≤ 1 * q := mul_le_mul_of_nonneg_right hc hq0.le
        _ = q := one_mul q
    linarith


/-- C9: with one query head per key/value head and no override
(`params.pack_gqa < 0`, `h = h_k`), the PackGQA bit chosen by
`run_mha_fwd_dispatch` is false for every seqlen_q, tile height, pointer
setting and mask; and `should_pack_gqa(seqlen_q, 1, blockM)` is false for every
seqlen_q ≥ 0 and blockM ≥ 1. -/
theorem pack_gqa_one_head_per_group :
    (∀ (kBlockM : Int) (Is_causal Is_local Split V_colmajor : Bool)
        (params : Flash_fwd_params),
      params.pack_gqa < 0 → params.h = params.h_k →
        (run_mha_fwd_dispatch kBlockM Is_causal Is_local Split V_colmajor params).PackGQA
          = false) ∧
    (∀ (kBlockM : Int) (Is_causal Varlen : Bool) (params : Flash_fwd_params),
      params.pack_gqa < 0 → params.h = params.h_k →
        pack_gqa_decision kBlockM Is_causal Varlen params = false) ∧
    (∀ seqlen_q blockM : Int, 0 ≤ seqlen_q → 1 ≤ blockM →
      should_pack_gqa seqlen_q 1 blockM = false) := by
  have hdec : ∀ (kBlockM : Int) (Is_causal Varlen : Bool) (params : Flash_fwd_params),
      params.pack_gqa < 0 → params.h = params.h_k →
        pack_gqa_decision kBlockM Is_causal Varlen params = false := by
    intro kBlockM Is_causal Varlen params hp hh
    unfold pack_gqa_decision
    rw [if_neg (by omega)]
    simp [hh]
  refine ⟨?_, hdec, should_pack_gqa_one⟩
  intro kBlockM Is_causal Is_local Split V_colmajor params hp hh
  exact hdec kBlockM Is_causal _ params hp hh

/-- C9 at a causal, ragged problem with 8 query and 8 key/value heads,
seqlen_q = 1 and tile height 128: no packing; and the heuristic alone at
seqlen_q = 1, tile height 128. -/
theorem pack_gqa_one_head_per_group_witness :
    (run_mha_fwd_dispatch 128 true false false false
        { h := 8, h_k := 8, seqlen_q := 1, pack_gqa := -1, cu_seqlens_q := true,
          cu_seqlens_k := true, seqused_q := false, seqused_k := false,
          leftpad_k := false, page_table := false, knew_ptr := false }).PackGQA = false ∧
    should_pack_gqa 1 1 128 = false :=
  ⟨pack_gqa_one_head_per_group.1 128 true false false false
      { h := 8, h_k := 8, seqlen_q := 1, pack_gqa := -1, cu_seqlens_q := true,
        cu_seqlens_k := true, seqused_q := false, seqused_k := false,
        leftpad_k := false, page_table := false, knew_ptr := false }
      (by decide) (by decide),
    pack_gqa_one_head_per_group.2.2 1 128 (by decide) (by decide)⟩

/-- C10: the pack-GQA decision rule of `run_mha_fwd_dispatch`. An override
(`pack_gqa ≥ 0`) decides alone: the bit is `bool(pack_gqa)`, and it is the flag
itself when `pack_gqa` was set by an entry point from a supplied flag. Without
an override and with h ≠ h_k the bit is true whenever the problem is
variable-length or causal, and equals
`should_pack_gqa(seqlen_q, h / h_k, kBlockM)` otherwise. -/
theorem pack_gqa_rule (kBlockM : Int) (Is_causal Is_local Split V_colmajor : Bool)
    (params : Flash_fwd_params) :
    (0 ≤ params.pack_gqa →
      (run_mha_fwd_dispatch kBlockM Is_causal Is_local Split V_colmajor params).PackGQA
        = decide (params.pack_gqa ≠ 0)) ∧
    (∀ b : Bool, params.pack_gqa = pack_gqa_of (some b) →
      (run_mha_fwd_dispatch kBlockM Is_causal Is_local Split V_colmajor params).PackGQA
        = b) ∧
    (params.pack_gqa < 0 → params.h ≠ params.h_k →
      ((run_mha_fwd_dispatch kBlockM Is_causal Is_local Split V_colmajor params).Varlen
          = true ∨ Is_causal = true) →
      (run_mha_fwd_dispatch kBlockM Is_causal Is_local Split V_colmajor params).PackGQA
        = true) ∧
    (params.pack_gqa < 0 → params.h ≠ params.h_k →
      (run_mha_fwd_dispatch kBlockM Is_causal Is_local Split V_colmajor params).Varlen
          = false → Is_causal = false →
      (run_mha_fwd_dispatch kBlockM Is_causal Is_local Split V_colmajor params).PackGQA
        = should_pack_gqa params.seqlen_q (params.h.tdiv params.h_k) kBlockM) ∧
    ((run_mha_fwd_dispatch kBlockM Is_causal Is_local Split V_colmajor params).Varlen
      = (params.cu_seqlens_q || params.cu_seqlens_k || params.seqused_q
          || params.seqused_k || params.leftpad_k)) ∧
    pack_gqa_of none < 0 := by
  refine ⟨?_, ?_, ?_, ?_, rfl, by decide⟩
  · intro h
    simp only [run_mha_fwd_dispatch, pack_gqa_decision]
    rw [if_pos h]
  · intro b hb
    simp only [run_mha_fwd_dispatch, pack_gqa_decision]
    cases b <;> simp [hb, pack_gqa_of]
  · intro hp hh hv
    simp only [run_mha_fwd_dispatch, pack_gqa_decision] at hv ⊢
    rw [if_neg (by omega)]
    rcases hv with hv | hv <;> simp [hh, hv]
  · intro hp hh hv hc
    simp only [run_mha_fwd_dispatch, pack_gqa_decision] at hv ⊢
    rw [if_neg (by omega)]
    simp [hh, hv, hc]

/-- C10 at 8 query heads over 2 key/value heads, seqlen_q = 1, tile height 128:
an override `false` wins over a causal ragged problem; without an override a
causal problem packs; and a full-attention fixed-length problem follows the
heuristic. -/
theorem pack_gqa_rule_witness :
    (run_mha_fwd_dispatch 128 true false false false
        { h := 8, h_k := 2, seqlen_q := 1, pack_gqa := pack_gqa_of (some false),
          cu_seqlens_q := true, cu_seqlens_k := true, seqused_q := false,
          seqused_k := false, leftpad_k := false, page_table := false,
          knew_ptr := false }).PackGQA = false ∧
    (run_mha_fwd_dispatch 128 true false false false
        { h := 8, h_k := 2, seqlen_q := 128, pack_gqa := pack_gqa_of none,
          cu_seqlens_q := false, cu_seqlens_k := false, seqused_q := false,
          seqused_k := false, leftpad_k := false, page_table := false,
          knew_ptr := false }).PackGQA = true ∧
    (run_mha_fwd_dispatch 128 false false false false
        { h := 8, h_k := 2, seqlen_q := 1, pack_gqa := pack_gqa_of none,
          cu_seqlens_q := false, cu_seqlens_k := false, seqused_q := false,
          seqused_k := false, leftpad_k := false, page_table := false,
          knew_ptr := false }).PackGQA = should_pack_gqa 1 (Int.tdiv 8 2) 128 :=
  ⟨(pack_gqa_rule 128 true false false false
      { h := 8, h_k := 2, seqlen_q := 1, pack_gqa := pack_gqa_of (some false),
        cu_seqlens_q := true, cu_seqlens_k := true, seqused_q := false,
        seqused_k := false, leftpad_k := false, page_table := false,
        knew_ptr := false }).2.1 false rfl,
    (pack_gqa_rule 128 true false false false
      { h := 8, h_k := 2, seqlen_q := 128, pack_gqa := pack_gqa_of none,
        cu_seqlens_q := false, cu_seqlens_k := false, seqused_q := false,
        seqused_k := false, leftpad_k := false, page_table := false,
        knew_ptr := false }).2.2.1 (by decide) (by decide) (Or.inr rfl),
    (pack_gqa_rule 128 false false false false
      { h := 8, h_k := 2, seqlen_q := 1, pack_gqa := pack_gqa_of none,
        cu_seqlens_q := false, cu_seqlens_k := false, seqused_q := false,
        seqused_k := false, leftpad_k := false, page_table := false,
        knew_ptr := false }).2.2.2.1 (by decide) (by decide) rfl rfl⟩

theorem should_pack_gqa_bounds (seqlen_q heads_per_group kBlockM : Int)
    (hs : 1 ≤ seqlen_q) (hg : 1 ≤ heads_per_group) (hb : 1 ≤ kBlockM) :
    (utilisation seqlen_q kBlockM
        < (95 / 100) * (1 - 1 / 2097152) * utilisation (seqlen_q * heads_per_group) kBlockM →
      should_pack_gqa seqlen_q heads_per_group kBlockM = true) ∧
    ((95 / 100) * (1 + 1 / 2097152) * utilisation (seqlen_q * heads_per_group) kBlockM
        < utilisation seqlen_q kBlockM →
      should_pack_gqa seqlen_q heads_per_group kBlockM = false) := by
  have hsg : 1 ≤ seqlen_q * heads_per_group := by nlinarith
  have hr1 : 1 ≤ round_up seqlen_q kBlockM := le_trans hs (round_up_pos _ _ hs hb)
  have hr2 : 1 ≤ round_up (seqlen_q * heads_per_group) kBlockM :=
    le_trans hsg (round_up_pos _ _ hsg hb)
  obtain ⟨qn, hqn, hn0, n1, n2⟩ :=
    float_quotient_bounds seqlen_q (round_up seqlen_q kBlockM) hs hr1
  obtain ⟨qp, hqp, hp0, p1, p2⟩ :=
    float_quotient_bounds (seqlen_q * heads_per_group)
      (round_up (seqlen_q * heads_per_group) kBlockM) hsg hr2
  obtain ⟨d1, d2⟩ := double_product_bounds qp hp0
  have hN := (utilisation_pos_le_one seqlen_q kBlockM hs hb).1
  have hP := (utilisation_pos_le_one (seqlen_q * heads_per_group) kBlockM hsg hb).1
  simp only [should_pack_gqa, hqn, hqp, double_mul, FloatValue.lt, decide_eq_true_eq,
    decide_eq_false_iff_not, not_lt]
  unfold utilisation at hN hP ⊢
  generalize (seqlen_q : ℚ) / (round_up seqlen_q kBlockM : ℚ) = N at *
  generalize ((seqlen_q * heads_per_group : Int) : ℚ)
    / (round_up (seqlen_q * heads_per_group) kBlockM : ℚ) = P at *
  generalize round_to_precision 53 (round_to_precision 53 (95 / 100) * qp) = prod at *
  norm_num at n1 n2 p1 p2 d1 d2 ⊢
  constructor
  · intro h
    linarith
  · intro h
    linarith

theorem round_up_le (a b : Int) (ha : 1 ≤ a) (hb : 1 ≤ b) : round_up a b ≤ a + b - 1 := by
  unfold round_up
  rw [Int.tdiv_eq_ediv (by omega) (by omega)]
  exact Int.ediv_mul_le _ (by omega)

/-- An `int` from 1 to 2^24 converts to `float` exactly. -/
theorem float_of_int_exact (n : Int) (h1 : 1 ≤ n) (h2 : n ≤ 16777216) :
    float_of_int n = (n : ℚ) := by
  obtain ⟨k, rfl⟩ := Int.eq_ofNat_of_zero_le (by omega : 0 ≤ n)
  have hk1 : 1 ≤ k := by exact_mod_cast h1
  have hk2 : k ≤ 16777216 := by exact_mod_cast h2
  have hx : (0 : ℚ) < ((k : Int) : ℚ) := by
    have : (0 : ℚ) < (k : ℚ) := by exact_mod_cast hk1
    simpa using this
  have l1 : 2 ^ Nat.log 2 k ≤ k := Nat.pow_log_le_self 2 (by omega)
  have l2 : k < 2 ^ (Nat.log 2 k + 1) := Nat.lt_pow_succ_log_self (by norm_num) k
  generalize Nat.log 2 k = e at l1 l2
  have he : e ≤ 24 := by
    by_contra hc
    have : 2 ^ 25 ≤ 2 ^ e := Nat.pow_le_pow_right (by norm_num) (by omega)
    omega
  have q1 : (2 : ℚ) ^ (e : Int) ≤ ((k : Int) : ℚ) := by
    rw [zpow_natCast]; exact_mod_cast l1
  have q2 : ((k : Int) : ℚ) < (2 : ℚ) ^ ((e : Int) + 1) := by
    rw [show ((e : Int) + 1) = ((e + 1 : Nat) : Int) by push_cast; rfl, zpow_natCast]
    exact_mod_cast l2
  unfold float_of_int
  rcases Nat.lt_or_ge e 24 with h | h
  · have hp : (2 : ℚ) ^ 23 = 2 ^ e * 2 ^ (23 - e) := by
      rw [← pow_add]; congr 1; omega
    have hpe : (0 : ℚ) < 2 ^ e := pow_pos (by norm_num) e
    have hm : ((k : Int) : ℚ) / ((2 : ℚ) ^ (e : Int) / 2 ^ (24 - 1))
        = (((k : Int) * 2 ^ (23 - e) : Int) : ℚ) := by
      rw [zpow_natCast, show (24 - 1 : Nat) = 23 from rfl, hp]
      push_cast
      field_simp
      ring
    rw [round_to_precision_eq 24 _ (e : Int) ((k : Int) * 2 ^ (23 - e)) hx q1 q2
      (by rw [hm]; simp)]
    rw [← hm]
    have hu := ulp_pos 24 (e : Int)
    field_simp
  · have he24 : e = 24 := by omega
    subst he24
    have hk : k = 16777216 := by
      have : 2 ^ 24 = 16777216 := by norm_num
      omega
    subst hk
    rw [round_to_precision_eq 24 _ 24 8388608 (by norm_num) (by norm_num) (by norm_num)
      (by norm_num)]
    norm_num

/-- With every `int` of the heuristic at most 2^24 the conversions to `float`
are exact, and `should_pack_gqa` compares the unpacked utilisation rounded to
`float` with the `double` product of the literal 0.95 and the packed utilisation
rounded to `float`. -/
theorem should_pack_gqa_eq_rounded (seqlen_q heads_per_group kBlockM : Int)
    (hs : 1 ≤ seqlen_q) (hg : 1 ≤ heads_per_group) (hb : 1 ≤ kBlockM)
    (hr : seqlen_q * heads_per_group + kBlockM ≤ 16777216) :
    should_pack_gqa seqlen_q heads_per_group kBlockM
      = decide (round_to_precision 24 (utilisation seqlen_q kBlockM)
          < round_to_precision 53 (round_to_precision 53 (95 / 100)
              * round_to_precision 24 (utilisation (seqlen_q * heads_per_group) kBlockM))) := by
  have hsg : 1 ≤ seqlen_q * heads_per_group := by nlinarith
  have hle : seqlen_q ≤ seqlen_q * heads_per_group := by nlinarith
  have a1 := round_up_pos seqlen_q kBlockM hs hb
  have a2 := round_up_le seqlen_q kBlockM hs hb
  have b1 := round_up_pos (seqlen_q * heads_per_group) kBlockM hsg hb
  have b2 := round_up_le (seqlen_q * heads_per_group) kBlockM hsg hb
  have n1 : ((round_up seqlen_q kBlockM : Int) : ℚ) ≠ 0 := by
    have : (0 : ℚ) < ((round_up seqlen_q kBlockM : Int) : ℚ) := by
      exact_mod_cast (by omega : 0 < round_up seqlen_q kBlockM)
    exact ne_of_gt this
  have n2 : ((round_up (seqlen_q * heads_per_group) kBlockM : Int) : ℚ) ≠ 0 := by
    have : (0 : ℚ) < ((round_up (seqlen_q * heads_per_group) kBlockM : Int) : ℚ) := by
      exact_mod_cast (by omega : 0 < round_up (seqlen_q * heads_per_group) kBlockM)
    exact ne_of_gt this
  unfold should_pack_gqa utilisation
  simp only [float_of_int_exact seqlen_q hs (by omega),
    float_of_int_exact (round_up seqlen_q kBlockM) (by omega) (by omega),
    float_of_int_exact (seqlen_q * heads_per_group) hsg (by omega),
    float_of_int_exact (round_up (seqlen_q * heads_per_group) kBlockM) (by omega) (by omega),
    float_div, if_neg n1, if_neg n2, double_mul, FloatValue.lt]

theorem float_608 : round_to_precision 24 608 = 608 := by
  rw [round_to_precision_eq 24 608 9 9961472 (by norm_num) (by norm_num) (by norm_num)
    (by norm_num)]
  norm_num

theorem float_640 : round_to_precision 24 640 = 640 := by
  rw [round_to_precision_eq 24 640 9 10485760 (by norm_num) (by norm_num) (by norm_num)
    (by norm_num)]
  norm_num

theorem float_2432 : round_to_precision 24 2432 = 2432 := by
  rw [round_to_precision_eq 24 2432 11 9961472 (by norm_num) (by norm_num) (by norm_num)
    (by norm_num)]
  norm_num

theorem float_one : round_to_precision 24 1 = 1 := by
  rw [round_to_precision_eq 24 1 0 8388608 (by norm_num) (by norm_num) (by norm_num)
    (by norm_num)]
  norm_num

/-- The `float` nearest to 19/20 is 15938355 / 2^24, just below 19/20. -/
theorem float_19_20 : round_to_precision 24 (19 / 20) = 15938355 / 16777216 := by
  rw [round_to_precision_eq 24 (19 / 20) (-1) 15938355 (by norm_num) (by norm_num)
    (by norm_num) (by norm_num [abs_lt])]
  norm_num

/-- The `double` literal 0.95 is 8556839292003942 / 2^53, just below 19/20 and
above the `float` nearest to 19/20. -/
theorem double_literal :
    round_to_precision 53 (95 / 100) = 8556839292003942 / 9007199254740992 := by
  rw [round_to_precision_eq 53 (95 / 100) (-1) 8556839292003942 (by norm_num) (by norm_num)
    (by norm_num) (by norm_num [abs_lt])]
  norm_num

theorem double_literal_exact :
    round_to_precision 53 (8556839292003942 / 9007199254740992)
      = 8556839292003942 / 9007199254740992 := by
  rw [round_to_precision_eq 53 (8556839292003942 / 9007199254740992) (-1) 8556839292003942
    (by norm_num) (by norm_num) (by norm_num) (by norm_num)]
  norm_num

theorem FloatValue.lt_finite (a b : ℚ) (h : a < b) :
    FloatValue.lt (FloatValue.finite a) (FloatValue.finite b) = true := by
  simp only [FloatValue.lt, decide_eq_true_eq]; exact h

theorem should_pack_gqa_unfold (s g b : Int) : should_pack_gqa s g b =
    FloatValue.lt (float_div (float_of_int s) (float_of_int (round_up s b)))
      (double_mul (round_to_precision 53 (95 / 100))
        (float_div (float_of_int (s * g)) (float_of_int (round_up (s * g) b)))) := rfl

/-- At seqlen_q = 608 with 4 heads per group and tile height 128 the unpacked
efficiency is the `float` 15938355 / 2^24, the packed one is 1, the `double`
product is 8556839292003942 / 2^53, and the comparison holds. -/
theorem should_pack_gqa_at_tie : should_pack_gqa 608 4 128 = true := by
  have r1 : round_up 608 128 = 640 := by decide
  have r2 : round_up 2432 128 = 2432 := by decide
  have f1 : float_of_int 608 = 608 := by
    rw [float_of_int]; exact_mod_cast float_608
  have f2 : float_of_int 640 = 640 := by
    rw [float_of_int]; exact_mod_cast float_640
  have f4 : float_of_int 2432 = 2432 := by
    rw [float_of_int]; exact_mod_cast float_2432
  have g1 : float_div 608 640 = FloatValue.finite (15938355 / 16777216) := by
    rw [float_div, if_neg (by norm_num), (by norm_num : (608 : ℚ) / 640 = 19 / 20), float_19_20]
  have g2 : float_div 2432 2432 = FloatValue.finite 1 := by
    rw [float_div, if_neg (by norm_num), (by norm_num : (2432 : ℚ) / 2432 = 1), float_one]
  have g3 : double_mul (round_to_precision 53 (95 / 100)) (FloatValue.finite 1)
      = FloatValue.finite (8556839292003942 / 9007199254740992) := by
    rw [double_mul, mul_one, double_literal, double_literal_exact]
  rw [should_pack_gqa_unfold, (by decide : (608 : Int) * 4 = 2432), r1, r2, f1, f2, f4, g1, g2, g3]
  exact FloatValue.lt_finite _ _ (by norm_num)

/-- C11, counterexample. At seqlen_q = 608 with 4 heads per group and tile
height 128 the unpacked utilisation is 19/20 and the packed one is 1: the gain
is exactly 5% of the packed utilisation, not more, yet `should_pack_gqa` returns
true, because `float(608) / float(640)` rounds below the `double` 0.95. At
seqlen_q = 1584 with 8 heads per group the unpacked utilisation is 99/104 and
the packed one is 1, more than 1.05 times the unpacked one, yet
`should_pack_gqa` returns false. So the result is not "true exactly when the
packed utilisation exceeds the unpacked one by more than 5%" of exact
rationals, whether the 5% is taken of the packed or of the unpacked
utilisation. -/
theorem should_pack_gqa_counterexample :
    (utilisation 608 128 = 19 / 20 ∧ utilisation (608 * 4) 128 = 1 ∧
      ¬ (utilisation (608 * 4) 128 - utilisation 608 128
          > (5 / 100) * utilisation (608 * 4) 128) ∧
      should_pack_gqa 608 4 128 = true) ∧
    (utilisation 1584 128 = 99 / 104 ∧ utilisation (1584 * 8) 128 = 1 ∧
      utilisation (1584 * 8) 128 > (1 + 5 / 100) * utilisation 1584 128 ∧
      should_pack_gqa 1584 8 128 = false) := by
  have h1 : utilisation 608 128 = 19 / 20 := by
    norm_num [utilisation, round_up, (by decide : Int.tdiv 735 128 = 5)]
  have h2 : utilisation (608 * 4) 128 = 1 := by
    norm_num [utilisation, round_up, (by decide : Int.tdiv 2559 128 = 19)]
  have h3 : utilisation 1584 128 = 99 / 104 := by
    norm_num [utilisation, round_up, (by decide : Int.tdiv 1711 128 = 13)]
  have h4 : utilisation (1584 * 8) 128 = 1 := by
    norm_num [utilisation, round_up, (by decide : Int.tdiv 12799 128 = 99)]
  refine ⟨⟨h1, h2, ?_, should_pack_gqa_at_tie⟩, h3, h4, ?_,
    (should_pack_gqa_bounds 1584 8 128 (by decide) (by decide) (by decide)).2 ?_⟩
  · rw [h1, h2]; norm_num
  · rw [h3, h4]; norm_num
  · rw [h3, h4]; norm_num

/-- C11 (amended): utilisation threshold of the GQA heuristic, which the code
evaluates in floating point. With the utilisation of n rows taken as
n / round_up(n, kBlockM) in exact rationals, for seqlen_q ≥ 1,
heads_per_group ≥ 1, kBlockM ≥ 1 and seqlen_q * heads_per_group + kBlockM - 1
within an `int`: `should_pack_gqa` returns true whenever the unpacked
utilisation is below 0.95 (1 - 2^-21) times the packed one, and false whenever
it is above 0.95 (1 + 2^-21) times the packed one; between the two bounds the
rounding of the `float` quotients decides. Whenever it returns true the packed
utilisation is more than 1.05 times the unpacked one. When
seqlen_q * heads_per_group + kBlockM ≤ 2^24 the conversions to `float` are
exact and the result is true exactly when the unpacked utilisation rounded to
`float` is below the `double` product of the literal 0.95 and the packed
utilisation rounded to `float`. Both utilisations lie in (0, 1], and both
rounded row counts fit an `int`. -/
theorem should_pack_gqa_threshold (seqlen_q heads_per_group kBlockM : Int)
    (hs : 1 ≤ seqlen_q) (hg : 1 ≤ heads_per_group) (hb : 1 ≤ kBlockM)
    (hr : seqlen_q * heads_per_group + kBlockM - 1 ≤ 2147483647) :
    (utilisation seqlen_q kBlockM
        < (95 / 100) * (1 - 1 / 2097152) * utilisation (seqlen_q * heads_per_group) kBlockM →
      should_pack_gqa seqlen_q heads_per_group kBlockM = true) ∧
    ((95 / 100) * (1 + 1 / 2097152) * utilisation (seqlen_q * heads_per_group) kBlockM
        < utilisation seqlen_q kBlockM →
      should_pack_gqa seqlen_q heads_per_group kBlockM = false) ∧
    (should_pack_gqa seqlen_q heads_per_group kBlockM = true →
      utilisation (seqlen_q * heads_per_group) kBlockM
        > (1 + 5 / 100) * utilisation seqlen_q kBlockM) ∧
    (seqlen_q * heads_per_group + kBlockM ≤ 16777216 →
      (should_pack_gqa seqlen_q heads_per_group kBlockM = true ↔
        round_to_precision 24 (utilisation seqlen_q kBlockM)
          < round_to_precision 53 (round_to_precision 53 (95 / 100)
              * round_to_precision 24 (utilisation (seqlen_q * heads_per_group) kBlockM)))) ∧
    (0 < utilisation seqlen_q kBlockM ∧ utilisation seqlen_q kBlockM ≤ 1) ∧
    (0 < utilisation (seqlen_q * heads_per_group) kBlockM ∧
      utilisation (seqlen_q * heads_per_group) kBlockM ≤ 1) ∧
    (round_up seqlen_q kBlockM ≤ 2147483647 ∧
      round_up (seqlen_q * heads_per_group) kBlockM ≤ 2147483647) := by
  have hsg : 1 ≤ seqlen_q * heads_per_group := by nlinarith
  have hle : seqlen_q ≤ seqlen_q * heads_per_group := by nlinarith
  have hu := utilisation_pos_le_one seqlen_q kBlockM hs hb
  have hp := utilisation_pos_le_one (seqlen_q * heads_per_group) kBlockM hsg hb
  have r1 := round_up_le seqlen_q kBlockM hs hb
  have r2 := round_up_le (seqlen_q * heads_per_group) kBlockM hsg hb
  obtain ⟨b1, b2⟩ := should_pack_gqa_bounds seqlen_q heads_per_group kBlockM hs hg hb
  refine ⟨b1, b2, ?_, ?_, hu, hp, by omega, by omega⟩
  · intro ht
    by_contra hc
    have hle : utilisation seqlen_q kBlockM
        ≤ (95 / 100) * (1 + 1 / 2097152)
          * utilisation (seqlen_q * heads_per_group) kBlockM := by
      by_contra hlt
      rw [b2 (lt_of_not_le hlt)] at ht
      exact absurd ht (by decide)
    generalize utilisation seqlen_q kBlockM = u at *
    generalize utilisation (seqlen_q * heads_per_group) kBlockM = p at *
    norm_num at hle hc
    linarith [hp.1]
  · intro h24
    rw [should_pack_gqa_eq_rounded seqlen_q heads_per_group kBlockM hs hg hb h24,
      decide_eq_true_eq]

/-- C11 at one query row with 8 heads per group and tile height 128 (utilisation
1/128 unpacked, 1/16 packed): packing; and at 128 rows (utilisation 1 both
ways): no packing. -/
theorem should_pack_gqa_threshold_witness :
    should_pack_gqa 1 8 128 = true ∧ should_pack_gqa 128 8 128 = false :=
  ⟨(should_pack_gqa_threshold 1 8 128 (by decide) (by decide) (by decide) (by decide)).1
      (by norm_num [utilisation, round_up, (by decide : Int.tdiv 128 128 = 1),
        (by decide : Int.tdiv 135 128 = 1)]),
    (should_pack_gqa_threshold 128 8 128 (by decide) (by decide) (by decide) (by decide)).2.1
      (by norm_num [utilisation, round_up, (by decide : Int.tdiv 255 128 = 1),
        (by decide : Int.tdiv 1151 128 = 8)])⟩


/-- C12: scheduler selection in `run_flash_fwd`. For every variant the
single-tile scheduler is selected iff Split or PagedKV or AppendKV is set;
otherwise the scheduler is persistent: the variable-length dynamic one when
Varlen, the static one when neither causal nor local (and not Varlen), and the
dynamic one when causal or local (and not Varlen). -/
theorem scheduler_selection (v : FwdVariant) :
    (run_flash_fwd_Scheduler v = Scheduler.SingleTileScheduler ↔
      (v.Split = true ∨ v.PagedKV = true ∨ v.AppendKV = true)) ∧
    (¬ (v.Split = true ∨ v.PagedKV = true ∨ v.AppendKV = true) →
      (v.Varlen = true →
        run_flash_fwd_Scheduler v = Scheduler.VarlenDynamicPersistentTileScheduler) ∧
      (v.Varlen = false → v.Is_causal = false → v.Is_local = false →
        run_flash_fwd_Scheduler v = Scheduler.StaticPersistentTileScheduler) ∧
      (v.Varlen = false → (v.Is_causal = true ∨ v.Is_local = true) →
        run_flash_fwd_Scheduler v = Scheduler.DynamicPersistentTileScheduler)) ∧
    (∀ l, run_flash_fwd v = Except.ok l → l.scheduler = run_flash_fwd_Scheduler v) := by
  obtain ⟨kBlockM, ClusterM, Is_causal, Is_local, Has_softcap, Varlen, PagedKV, AppendKV,
    PackGQA, Split, V_colmajor⟩ := v
  refine ⟨?_, ?_, ?_⟩
  · cases Split <;> cases PagedKV <;> cases AppendKV <;> cases Varlen <;>
      cases Is_causal <;> cases Is_local <;>
      simp [run_flash_fwd_Scheduler, SchedulerPersistent]
  · cases Split <;> cases PagedKV <;> cases AppendKV <;> cases Varlen <;>
      cases Is_causal <;> cases Is_local <;>
      simp [run_flash_fwd_Scheduler, SchedulerPersistent]
  · intro l hl
    cases Is_causal <;> cases Is_local <;> cases AppendKV <;> cases V_colmajor <;>
      cases Varlen <;>
      simp [run_flash_fwd, static_assert, bind, Except.bind, pure, Except.pure] at hl <;>
      simp [← hl]

/-- C12 at four variants: a split variant gets the single-tile scheduler, a
ragged one the variable-length dynamic, a full-attention one the static and a
causal one the dynamic persistent scheduler. -/
theorem scheduler_selection_witness :
    run_flash_fwd_Scheduler
        { kBlockM := 128, ClusterM := 1, Is_causal := true, Is_local := false,
          Has_softcap := false, Varlen := false, PagedKV := false, AppendKV := false,
          PackGQA := false, Split := true, V_colmajor := false }
      = Scheduler.SingleTileScheduler ∧
    run_flash_fwd_Scheduler
        { kBlockM := 128, ClusterM := 1, Is_causal := true, Is_local := false,
          Has_softcap := false, Varlen := true, PagedKV := false, AppendKV := false,
          PackGQA := false, Split := false, V_colmajor := false }
      = Scheduler.VarlenDynamicPersistentTileScheduler ∧
    run_flash_fwd_Scheduler
        { kBlockM := 128, ClusterM := 1, Is_causal := false, Is_local := false,
          Has_softcap := false, Varlen := false, PagedKV := false, AppendKV := false,
          PackGQA := false, Split := false, V_colmajor := false }
      = Scheduler.StaticPersistentTileScheduler ∧
    run_flash_fwd_Scheduler
        { kBlockM := 128, ClusterM := 1, Is_causal := true, Is_local := false,
          Has_softcap := false, Varlen := false, PagedKV := false, AppendKV := false,
          PackGQA := false, Split := false, V_colmajor := false }
      = Scheduler.DynamicPersistentTileScheduler :=
  ⟨(scheduler_selection _).1.mpr (Or.inl rfl),
   ((scheduler_selection _).2.1 (by decide)).1 rfl,
   ((scheduler_selection _).2.1 (by decide)).2.1 rfl rfl rfl,
   ((scheduler_selection _).2.1 (by decide)).2.2 rfl (Or.inl rfl)⟩

/-- C13, as stated, fails: for a bundle with new keys to append (`knew_ptr` set)
and no variable-length descriptor, `run_mha_fwd_dispatch` reports no error; it
launches the variant with the AppendKV bit cleared. -/
theorem append_without_varlen_counterexample :
    run_mha_fwd_dispatch_launch 128 false false false false
        { h := 8, h_k := 8, seqlen_q := 1, pack_gqa := -1, cu_seqlens_q := false,
          cu_seqlens_k := false, seqused_q := false, seqused_k := false,
          leftpad_k := false, page_table := false, knew_ptr := true }
      = Except.ok
          { variant :=
              { kBlockM := 128, ClusterM := 1, Is_causal := false, Is_local := false,
                Has_softcap := false, Varlen := false, PagedKV := false,
                AppendKV := false, PackGQA := false, Split := false,
                V_colmajor := false },
            scheduler := Scheduler.StaticPersistentTileScheduler } := by
  rfl

/-! ## Forward entry points: what a successful call has done -/

theorem bind_eq_ok {α β : Type} (x : Except String α) (f : α → Except String β) (r : β) :
    (x >>= f) = Except.ok r ↔ ∃ a, x = Except.ok a ∧ f a = Except.ok r := by
  cases x with
  | error e => simp [bind, Except.bind]
  | ok a => simp [bind, Except.bind]

theorem pure_eq_ok {α : Type} (a r : α) :
    (pure a : Except String α) = Except.ok r ↔ a = r := by
  constructor
  · intro h; cases h; rfl
  · intro h; rw [h]; rfl

theorem TORCH_CHECK_bind_eq_ok {β : Type} (c : Bool) (m : String)
    (f : Unit → Except String β) (r : β) :
    (TORCH_CHECK c m >>= f) = Except.ok r ↔ c = true ∧ f () = Except.ok r := by
  cases c
  · simp [TORCH_CHECK, bind, Except.bind]
  · simp [TORCH_CHECK, bind, Except.bind]

theorem mha_fwd_shape_checks_ok (is_sm90 : Bool) (q k v : Tensor) (s : ShapeInfo)
    (h : mha_fwd_shape_checks is_sm90 q k v = Except.ok s) :
    s.batch_size = q.size 0 ∧ s.seqlen_q = q.size 1 ∧ s.seqlen_k = k.size 1 ∧
    s.num_heads = q.size 2 ∧ s.num_heads_k = k.size 2 ∧ s.head_size_og = q.size 3 := by
  simp only [mha_fwd_shape_checks, CHECK_DEVICE, TORCH_CHECK_bind_eq_ok, ite_bind_except,
    pure_bind_except] at h
  obtain ⟨-, -, -, -, -, -, -, -, -, -, h⟩ := h
  split_ifs at h <;>
    simp only [TORCH_CHECK_bind_eq_ok, pure_eq_ok] at h <;>
    (first
      | (obtain ⟨-, -, -, h⟩ := h; subst h; exact ⟨rfl, rfl, rfl, rfl, rfl, rfl⟩)
      | (obtain ⟨-, -, h⟩ := h; subst h; exact ⟨rfl, rfl, rfl, rfl, rfl, rfl⟩))

theorem fill_ite (l z : Bool) (A B C : Fill) :
    (if l then A else if (!l && z) then B else C) = if l then A else if z then B else C := by
  cases l <;> cases z <;> rfl

theorem mha_fwd_ok (a : FwdArgs) (r : FwdOutcome) (h : mha_fwd a = Except.ok r) :
    r.kernel_launched = (decide (a.k.size 1 > 0) && decide (a.q.size 0 > 0)) ∧
    r.combine_launched = (r.kernel_launched && decide (a.num_splits > 1)) ∧
    r.out_fill = (if r.kernel_launched then Fill.Kernel
      else if decide (a.q.size 0 > 0) then Fill.Zero else Fill.Uninitialized) ∧
    r.lse_fill = (if r.kernel_launched then Fill.Kernel
      else if decide (a.q.size 0 > 0) then Fill.PosInf else Fill.Uninitialized) ∧
    r.softmax_lse.sizes = [a.q.size 0, a.q.size 2, a.q.size 1] := by
  simp only [mha_fwd, bind_eq_ok, pure_eq_ok] at h
  obtain ⟨s, hs, -, -, -, -, -, -, -, -, out, hout, -, -, -, -, -, -, rfl⟩ := h
  obtain ⟨h1, h2, h3, h4, h5, h6⟩ := mha_fwd_shape_checks_ok _ _ _ _ _ hs
  simp only [h1, h2, h3, h4, torch_empty]
  refine ⟨?_, ?_, ?_, ?_, ?_⟩ <;>
    first
      | trivial
      | rfl
      | exact fill_ite _ _ _ _ _

theorem mha_varlen_fwd_shape_checks_ok (is_sm90 : Bool)
    (q k v cu_seqlens_q cu_seqlens_k : Tensor) (s : ShapeInfo)
    (h : mha_varlen_fwd_shape_checks is_sm90 q k v cu_seqlens_q cu_seqlens_k = Except.ok s) :
    s.batch_size = cu_seqlens_q.numel - 1 ∧ s.total_q = q.size 0 ∧ s.total_k = k.size 0 ∧
    s.num_heads = q.size 1 ∧ s.num_heads_k = k.size 1 ∧ s.head_size_og = q.size 2 := by
  simp only [mha_varlen_fwd_shape_checks, CHECK_DEVICE, TORCH_CHECK_bind_eq_ok,
    pure_eq_ok] at h
  obtain ⟨-, -, -, -, -, -, -, -, -, -, -, -, -, -, -, -, h⟩ := h
  subst h
  exact ⟨rfl, rfl, rfl, rfl, rfl, rfl⟩

theorem unit_bind_ok_imp {β : Type} (x : Except String Unit) (f : Unit → Except String β)
    (r : β) (h : (x >>= f) = Except.ok r) : f () = Except.ok r := by
  cases x with
  | error e => simp [bind, Except.bind] at h
  | ok a => exact h

theorem unit_ite_bind_ok_imp {β : Type} (c : Prop) [Decidable c] (x y : Except String Unit)
    (f : Unit → Except String β) (r : β)
    (h : (if c then x >>= f else y >>= f) = Except.ok r) : f () = Except.ok r := by
  split_ifs at h <;> exact unit_bind_ok_imp _ _ _ h

theorem mha_fwd_kvcache_shape_checks_ok (a : KvcacheArgs) (s : ShapeInfo)
    (h : mha_fwd_kvcache_shape_checks a.is_sm90 a.q a.kcache a.vcache a.page_table_
      a.cu_seqlens_q_ a.max_seqlen_q_ a.cache_batch_idx_.isSome = Except.ok s) :
    s.batch_size = a.batch_size ∧ s.seqlen_q = a.seqlen_q ∧ s.seqlen_k = a.seqlen_k ∧
    s.total_q = a.total_q ∧ s.num_heads = a.num_heads ∧ s.head_size_og = a.head_size_og := by
  obtain ⟨is_sm90, disable_local, q, kcache, vcache, k_, v_, out_, seqused_k_,
    cache_batch_idx_, leftpad_k_, page_table_, cu_seqlens_q_, max_seqlen_q_, is_causal,
    q_descale_, k_descale_, v_descale_, wl, wr, sink, num_splits, pack_gqa_⟩ := a
  simp only [KvcacheArgs.batch_size, KvcacheArgs.seqlen_q, KvcacheArgs.seqlen_k,
    KvcacheArgs.total_q, KvcacheArgs.num_heads, KvcacheArgs.head_size_og]
  cases page_table_ <;> cases cu_seqlens_q_ <;>
  · simp only [mha_fwd_kvcache_shape_checks, bind_assoc] at h
    repeat (first
      | replace h := unit_bind_ok_imp _ _ _ h
      | replace h := unit_ite_bind_ok_imp _ _ _ _ _ h)
    cases h
    simp

theorem mha_varlen_fwd_ok (a : VarlenFwdArgs) (r : FwdOutcome)
    (h : mha_varlen_fwd a = Except.ok r) :
    r.kernel_launched = (decide (a.max_seqlen_k > 0) && decide (a.batch_size > 0)) ∧
    r.combine_launched = (r.kernel_launched && decide (a.num_splits > 1)) ∧
    r.out_fill = (if r.kernel_launched then Fill.Kernel
      else if decide (a.batch_size > 0) then Fill.Zero else Fill.Uninitialized) ∧
    r.lse_fill = (if r.kernel_launched then Fill.Kernel
      else if decide (a.batch_size > 0) then Fill.PosInf else Fill.Uninitialized) ∧
    r.softmax_lse.sizes = [a.num_heads, a.total_q] := by
  simp only [mha_varlen_fwd, bind_eq_ok, pure_eq_ok] at h
  obtain ⟨s, hs, -, -, -, -, -, -, -, -, -, -, -, -, -, -, out, hout, -, -, -, -, -, -, rfl⟩ := h
  obtain ⟨h1, h2, h3, h4, h5, h6⟩ := mha_varlen_fwd_shape_checks_ok _ _ _ _ _ _ _ hs
  simp only [h1, h2, h3, h4, torch_empty, VarlenFwdArgs.batch_size, VarlenFwdArgs.num_heads,
    VarlenFwdArgs.total_q]
  refine ⟨?_, ?_, ?_, ?_, ?_⟩ <;>
    first
      | trivial
      | exact fill_ite _ _ _ _ _

theorem kvcache_check_knew_ok (k_ v_ seqused_k_ : Option Tensor) (q_type : ScalarType)
    (batch_size seqlen_q seqlen_k num_heads_k head_size_og : Int)
    (h : kvcache_check_knew k_ v_ seqused_k_ q_type batch_size seqlen_q seqlen_k num_heads_k
      head_size_og = Except.ok ()) :
    k_.isSome = true → seqused_k_.isSome = true ∧ v_.isSome = true ∧ seqlen_q ≤ seqlen_k := by
  cases k_ with
  | none => simp
  | some k =>
    simp only [kvcache_check_knew, TORCH_CHECK_bind_eq_ok, decide_eq_true_eq] at h
    intro _
    exact ⟨h.2.1, h.1, h.2.2.1⟩

theorem TORCH_CHECK_eq_ok (c : Bool) (m : String) (u : Unit) :
    TORCH_CHECK c m = Except.ok u ↔ c = true := by
  cases c <;> simp [TORCH_CHECK]

theorem mha_fwd_kvcache_ok (a : KvcacheArgs) (r : FwdOutcome)
    (h : mha_fwd_kvcache a = Except.ok r) :
    r.kernel_launched = (decide (a.seqlen_q > 0) && decide (a.total_q > 0)
      && decide (a.seqlen_k > 0) && decide (a.batch_size > 0)) ∧
    r.combine_launched = (r.kernel_launched && decide (a.num_splits > 1)) ∧
    (a.batch_size = 0 → r.out_fill = Fill.Uninitialized ∧ r.lse_fill = Fill.Uninitialized) ∧
    r.softmax_lse.sizes = [a.batch_size, a.num_heads, a.seqlen_q] ∧
    r.params.knew_ptr = a.k_.isSome ∧ r.params.seqused_k = a.seqused_k_.isSome ∧
    (a.k_.isSome = true → a.seqused_k_.isSome = true) ∧
    1 ≤ a.num_splits := by
  simp only [mha_fwd_kvcache, bind_eq_ok, pure_eq_ok] at h
  obtain ⟨s, hs, -, -, -, -, -, -, out, hout, -, -, _, hn, -, -, _, hk, -, -, -, -, -, -, rfl⟩ := h
  rw [TORCH_CHECK_eq_ok, decide_eq_true_eq] at hn
  obtain ⟨h1, h2, h3, h4, h5, h6⟩ := mha_fwd_kvcache_shape_checks_ok _ _ hs
  have hk' := kvcache_check_knew_ok _ _ _ _ _ _ _ _ _ hk
  simp only [h1, h2, h3, h4, h5, torch_empty]
  refine ⟨?_, ?_, ?_, ?_, ?_, ?_, ?_, ?_⟩ <;>
    first
      | trivial
      | rfl
      | exact fun h => (hk' h).1
      | (intro hb
         have hb' : ¬ a.batch_size > 0 := by omega
         simp [hb'])

/-! ## Degenerate shapes and the split-combine step: claims -/

theorem except_ok_or_error {α : Type} (x : Except String α) :
    (∃ r, x = Except.ok r) ∨ (∃ msg, x = Except.error msg) := by
  cases x with
  | error e => exact Or.inr ⟨e, rfl⟩
  | ok a => exact Or.inl ⟨a, rfl⟩

/-- C13, amended: for a bundle with `knew_ptr` set and no variable-length
descriptor `run_mha_fwd_dispatch` reports no error; it launches the variant
whose AppendKV and Varlen bits are both clear. The combination is excluded
before the dispatcher: a call of `mha_fwd_kvcache` with new keys and no
`seqused_k` fails, so every plan it hands on with `knew_ptr` set has
`seqused_k` set. -/
theorem append_without_varlen :
    (∀ (kBlockM : Int) (Is_causal Is_local Split V_colmajor : Bool)
        (params : Flash_fwd_params),
      params.knew_ptr = true → params.cu_seqlens_q = false →
      params.cu_seqlens_k = false → params.seqused_q = false →
      params.seqused_k = false → params.leftpad_k = false →
        ∃ l, run_mha_fwd_dispatch_launch kBlockM Is_causal Is_local Split V_colmajor params
            = Except.ok l ∧
          l.variant.AppendKV = false ∧ l.variant.Varlen = false) ∧
    (∀ (a : KvcacheArgs) (r : FwdOutcome), mha_fwd_kvcache a = Except.ok r →
      r.params.knew_ptr = true → r.params.seqused_k = true) ∧
    (∀ (a : KvcacheArgs), a.k_.isSome = true → a.seqused_k_.isSome = false →
      ∃ msg, mha_fwd_kvcache a = Except.error msg) := by
  refine ⟨?_, ?_, ?_⟩
  · intro kBlockM Is_causal Is_local Split V_colmajor params hk h1 h2 h3 h4 h5
    refine ⟨{ variant := run_mha_fwd_dispatch kBlockM Is_causal Is_local Split V_colmajor
                params,
              scheduler := run_flash_fwd_Scheduler
                (run_mha_fwd_dispatch kBlockM Is_causal Is_local Split V_colmajor params) },
      ?_, ?_, ?_⟩
    · simp [run_mha_fwd_dispatch_launch, run_flash_fwd, run_mha_fwd_dispatch, static_assert,
        h1, h2, h3, h4, h5, bind, Except.bind, pure, Except.pure]
    · simp [run_mha_fwd_dispatch, h1, h2, h3, h4, h5]
    · simp [run_mha_fwd_dispatch, h1, h2, h3, h4, h5]
  · intro a r h hk
    obtain ⟨-, -, -, -, h4, h5, h6, -⟩ := mha_fwd_kvcache_ok a r h
    rw [h5]
    exact h6 (by rw [← h4]; exact hk)
  · intro a hk hs
    rcases except_ok_or_error (mha_fwd_kvcache a) with ⟨r, hr⟩ | hmsg
    · obtain ⟨-, -, -, -, -, -, h6, -⟩ := mha_fwd_kvcache_ok a r hr
      rw [h6 hk] at hs
      cases hs
    · exact hmsg

/-- C14: degenerate key length or batch in `mha_fwd`. For every call that passes
validation the kernel is launched iff seqlen_k > 0 and batch_size > 0; with
seqlen_k = 0 and batch_size > 0 no kernel is launched, the output is zeroed and
the log-sum-exp is filled with +infinity; with batch_size = 0 no kernel is
launched and nothing is written. -/
theorem mha_fwd_degenerate (a : FwdArgs) (r : FwdOutcome) (h : mha_fwd a = Except.ok r) :
    (r.kernel_launched = true ↔ a.seqlen_k > 0 ∧ a.batch_size > 0) ∧
    (a.seqlen_k = 0 → a.batch_size > 0 →
      r.kernel_launched = false ∧ r.out_fill = Fill.Zero ∧ r.lse_fill = Fill.PosInf) ∧
    (a.batch_size = 0 →
      r.kernel_launched = false ∧ r.combine_launched = false ∧
      r.out_fill = Fill.Uninitialized ∧ r.lse_fill = Fill.Uninitialized) := by
  obtain ⟨h1, h2, h3, h4, -⟩ := mha_fwd_ok a r h
  simp only [FwdArgs.seqlen_k, FwdArgs.batch_size]
  rw [h2, h3, h4, h1]
  refine ⟨by simp, ?_, ?_⟩
  · intro hk hb
    have hk' : ¬ a.k.size 1 > 0 := by omega
    simp [hk', hb]
  · intro hb
    have hb' : ¬ a.q.size 0 > 0 := by omega
    simp [hb']

/-- C14 at the sample call with keys of length zero (batch 2): the call passes,
no kernel is launched, the output is zeroed and the log-sum-exp is +infinity;
the sample call with 128 keys launches the kernel. -/
theorem mha_fwd_degenerate_witness :
    (∃ r, mha_fwd sample_fwd_args_no_keys = Except.ok r ∧
      r.kernel_launched = false ∧ r.out_fill = Fill.Zero ∧ r.lse_fill = Fill.PosInf) ∧
    (∃ r, mha_fwd sample_fwd_args = Except.ok r ∧ r.kernel_launched = true) :=
  ⟨⟨_, rfl, (mha_fwd_degenerate sample_fwd_args_no_keys _ rfl).2.1 (by decide) (by decide)⟩,
   ⟨_, rfl, (mha_fwd_degenerate sample_fwd_args _ rfl).1.mpr (by decide)⟩⟩

/-- C16, as stated, fails: the sample call of `mha_fwd` has num_splits = 1 and
launches the attention kernel, and `run_mha_fwd_combine` is not invoked. -/
theorem combine_single_split_counterexample :
    sample_fwd_args.num_splits = 1 ∧
    ∃ r, mha_fwd sample_fwd_args = Except.ok r ∧
      r.kernel_launched = true ∧ r.combine_launched = false :=
  ⟨rfl, _, rfl, rfl, rfl⟩

/-- C16, amended: in `mha_fwd`, `mha_varlen_fwd` and `mha_fwd_kvcache` the
split-combine reducer is invoked exactly when the attention kernel is launched
and num_splits > 1; a call with num_splits = 1 never invokes it. -/
theorem combine_iff_split :
    (∀ (a : FwdArgs) (r : FwdOutcome), mha_fwd a = Except.ok r →
      (r.combine_launched = true ↔ r.kernel_launched = true ∧ a.num_splits > 1) ∧
      (a.num_splits = 1 → r.combine_launched = false)) ∧
    (∀ (a : VarlenFwdArgs) (r : FwdOutcome), mha_varlen_fwd a = Except.ok r →
      (r.combine_launched = true ↔ r.kernel_launched = true ∧ a.num_splits > 1) ∧
      (a.num_splits = 1 → r.combine_launched = false)) ∧
    (∀ (a : KvcacheArgs) (r : FwdOutcome), mha_fwd_kvcache a = Except.ok r →
      (r.combine_launched = true ↔ r.kernel_launched = true ∧ a.num_splits > 1) ∧
      (a.num_splits = 1 → r.combine_launched = false)) := by
  refine ⟨?_, ?_, ?_⟩
  · intro a r h
    obtain ⟨-, h2, -⟩ := mha_fwd_ok a r h
    rw [h2]
    refine ⟨by simp, fun hn => ?_⟩
    have hn' : ¬ a.num_splits > 1 := by omega
    simp [hn']
  · intro a r h
    obtain ⟨-, h2, -⟩ := mha_varlen_fwd_ok a r h
    rw [h2]
    refine ⟨by simp, fun hn => ?_⟩
    have hn' : ¬ a.num_splits > 1 := by omega
    simp [hn']
  · intro a r h
    obtain ⟨-, h2, -⟩ := mha_fwd_kvcache_ok a r h
    rw [h2]
    refine ⟨by simp, fun hn => ?_⟩
    have hn' : ¬ a.num_splits > 1 := by omega
    simp [hn']

/-- C16, amended, at the sample call of `mha_fwd` with four splits: the kernel
and the combine step are both launched. -/
theorem combine_iff_split_witness :
    ∃ r, mha_fwd sample_fwd_args_split = Except.ok r ∧
      r.kernel_launched = true ∧ r.combine_launched = true :=
  ⟨_, rfl, rfl, ((combine_iff_split.1 sample_fwd_args_split _ rfl).1).mpr ⟨rfl, by decide⟩⟩

theorem append_ne_of_not_suffix (name suffix m : String)
    (h : ¬ suffix.data <:+ m.data) : name ++ suffix ≠ m := by
  intro e
  apply h
  rw [← e, String.data_append]
  exact List.suffix_append _ _

theorem CHECK_DEVICE_ne_num_splits (x : Tensor) (name : String) :
    CHECK_DEVICE x name ≠ Except.error msg_num_splits_fwd :=
  TORCH_CHECK_ne_error _ _ _ (Or.inr (append_ne_of_not_suffix _ _ _ (by decide)))

theorem CHECK_CONTIGUOUS_ne_num_splits (x : Tensor) (name : String) :
    CHECK_CONTIGUOUS x name ≠ Except.error msg_num_splits_fwd :=
  TORCH_CHECK_ne_error _ _ _ (Or.inr (append_ne_of_not_suffix _ _ _ (by decide)))

theorem CHECK_SHAPE_ne_num_splits (x : Tensor) (name : String) (shape : List Int)
    (text : String) :
    CHECK_SHAPE x name shape text ≠ Except.error msg_num_splits_fwd :=
  TORCH_CHECK_ne_error _ _ _ (Or.inr (append_ne_of_not_suffix _ _ _ (by decide)))

theorem if_then_ne_error (c : Bool) (x : Except String Unit) (m : String)
    (hx : x ≠ Except.error m) : if_then c x ≠ Except.error m := by
  unfold if_then
  split_ifs
  · exact hx
  · exact pure_ne_error _ _

theorem resolve_out_ne_num_splits (out_ : Option Tensor) (q_padded : Tensor)
    (out_type : ScalarType) (shape : List Int) (text : String) (head_size_og alignment : Int) :
    resolve_out out_ q_padded out_type shape text head_size_og alignment
      ≠ Except.error msg_num_splits_fwd := by
  cases out_ with
  | none => exact pure_ne_error _ _
  | some out =>
    simp only [resolve_out]
    repeat' first
      | exact pure_ne_error _ _
      | exact CHECK_DEVICE_ne_num_splits _ _
      | exact CHECK_SHAPE_ne_num_splits _ _ _ _
      | exact TORCH_CHECK_ne_error _ _ _ (Or.inr (by decide))
      | refine bind_ne_error _ _ _ ?_ (fun _ => ?_)

theorem set_params_fprop_checks_ne_num_splits (disable_local : Bool) (mask : MaskParams) :
    set_params_fprop_checks disable_local mask ≠ Except.error msg_num_splits_fwd :=
  if_then_ne_error _ _ _ (TORCH_CHECK_ne_error _ _ _ (Or.inr (by decide)))

theorem check_descale_ne_num_splits (x_ : Option Tensor) (name : String) :
    check_descale x_ name ≠ Except.error msg_num_splits_fwd := by
  cases x_ with
  | none => exact pure_ne_error _ _
  | some x =>
    simp only [check_descale]
    exact bind_ne_error _ _ _ (CHECK_DEVICE_ne_num_splits _ _)
      (fun _ => CHECK_SHAPE_ne_num_splits _ _ _ _)

theorem check_descales_ne_num_splits (q_type : ScalarType)
    (q_descale_ k_descale_ v_descale_ : Option Tensor) :
    check_descales q_type q_descale_ k_descale_ v_descale_
      ≠ Except.error msg_num_splits_fwd := by
  unfold check_descales
  refine if_then_ne_error _ _ _ ?_
  exact bind_ne_error _ _ _ (check_descale_ne_num_splits _ _)
    (fun _ => bind_ne_error _ _ _ (check_descale_ne_num_splits _ _)
      (fun _ => check_descale_ne_num_splits _ _))

theorem check_num_splits_ne_error (num_splits : Int) (h : num_splits ≤ 256) :
    check_num_splits num_splits ≠ Except.error msg_num_splits_fwd :=
  if_then_ne_error _ _ _ (TORCH_CHECK_ne_error _ _ _ (Or.inl (by simpa using h)))

theorem check_num_splits_fails (num_splits : Int) (h : 256 < num_splits) :
    check_num_splits num_splits = Except.error msg_num_splits_fwd := by
  unfold check_num_splits if_then TORCH_CHECK
  rw [if_pos (by simp; omega), if_neg (by simp; omega)]

theorem bind_fails {α β : Type} (x : Except String α) (f : α → Except String β)
    (hf : ∀ a, ∃ msg, f a = Except.error msg) : ∃ msg, (x >>= f) = Except.error msg := by
  cases x with
  | error e => exact ⟨e, rfl⟩
  | ok a => exact hf a

theorem check_num_splits_bind_fails {β : Type} (num_splits : Int) (h : 256 < num_splits)
    (f : Unit → Except String β) :
    ∃ msg, (check_num_splits num_splits >>= f) = Except.error msg := by
  rw [check_num_splits_fails _ h]
  exact ⟨_, rfl⟩

theorem mha_fwd_shape_checks_ne_num_splits (is_sm90 : Bool) (q k v : Tensor) :
    mha_fwd_shape_checks is_sm90 q k v ≠ Except.error msg_num_splits_fwd := by
  simp only [mha_fwd_shape_checks, CHECK_DEVICE, bind_assoc]
  repeat' first
    | exact pure_ne_error _ _
    | exact TORCH_CHECK_ne_error _ _ _ (Or.inr (by decide))
    | refine ite_ne_error _ _ _ _ ?_ ?_
    | refine bind_ne_error _ _ _ ?_ (fun _ => ?_)

theorem mha_fwd_split_limit (a : FwdArgs) :
    (256 < a.num_splits → ∃ msg, mha_fwd a = Except.error msg) ∧
    (a.num_splits ≤ 256 → mha_fwd a ≠ Except.error msg_num_splits_fwd) := by
  constructor
  · intro h
    unfold mha_fwd
    repeat first
      | exact check_num_splits_bind_fails _ h _
      | refine bind_fails _ _ (fun _ => ?_)
  · intro h
    unfold mha_fwd
    repeat' first
      | exact pure_ne_error _ _
      | exact mha_fwd_shape_checks_ne_num_splits _ _ _ _
      | exact CHECK_SHAPE_ne_num_splits _ _ _ _
      | exact resolve_out_ne_num_splits _ _ _ _ _ _ _
      | exact set_params_fprop_checks_ne_num_splits _ _
      | exact check_num_splits_ne_error _ h
      | exact check_descales_ne_num_splits _ _ _ _
      | exact if_then_ne_error _ _ _ (TORCH_CHECK_ne_error _ _ _ (Or.inr (by decide)))
      | refine bind_ne_error _ _ _ ?_ (fun _ => ?_)

theorem mha_varlen_fwd_shape_checks_ne_num_splits (is_sm90 : Bool)
    (q k v cu_seqlens_q cu_seqlens_k : Tensor) :
    mha_varlen_fwd_shape_checks is_sm90 q k v cu_seqlens_q cu_seqlens_k
      ≠ Except.error msg_num_splits_fwd := by
  simp only [mha_varlen_fwd_shape_checks, CHECK_DEVICE, bind_assoc]
  repeat' first
    | exact pure_ne_error _ _
    | exact TORCH_CHECK_ne_error _ _ _ (Or.inr (by decide))
    | refine bind_ne_error _ _ _ ?_ (fun _ => ?_)

theorem mha_fwd_kvcache_shape_checks_ne_num_splits (is_sm90 : Bool)
    (q kcache vcache : Tensor) (page_table_ cu_seqlens_q_ : Option Tensor)
    (max_seqlen_q_ : Option Int) (cache_batch_idx_given : Bool) :
    mha_fwd_kvcache_shape_checks is_sm90 q kcache vcache page_table_ cu_seqlens_q_
      max_seqlen_q_ cache_batch_idx_given ≠ Except.error msg_num_splits_fwd := by
  cases page_table_ <;> cases cu_seqlens_q_ <;>
  · simp only [mha_fwd_kvcache_shape_checks, CHECK_DEVICE, bind_assoc]
    repeat' first
      | exact pure_ne_error _ _
      | exact TORCH_CHECK_ne_error _ _ _ (Or.inr (by decide))
      | refine ite_ne_error _ _ _ _ ?_ ?_
      | refine bind_ne_error _ _ _ ?_ (fun _ => ?_)

theorem varlen_check_seqused_ne_num_splits (x_ : Option Tensor) (name : String)
    (batch_size : Int) :
    varlen_check_seqused x_ name batch_size ≠ Except.error msg_num_splits_fwd := by
  cases x_ with
  | none => exact pure_ne_error _ _
  | some x =>
    simp only [varlen_check_seqused]
    repeat' first
      | exact CHECK_SHAPE_ne_num_splits _ _ _ _
      | exact TORCH_CHECK_ne_error _ _ _
          (Or.inr (append_ne_of_not_suffix _ _ _ (by decide)))
      | refine bind_ne_error _ _ _ ?_ (fun _ => ?_)

theorem kvcache_check_q_shape_ne_num_splits (q : Tensor) (cu_seqlens_q_ : Option Tensor)
    (batch_size seqlen_q total_q num_heads head_size_og : Int) :
    kvcache_check_q_shape q cu_seqlens_q_ batch_size seqlen_q total_q num_heads head_size_og
      ≠ Except.error msg_num_splits_fwd := by
  cases cu_seqlens_q_ with
  | none => exact CHECK_SHAPE_ne_num_splits _ _ _ _
  | some c =>
    exact bind_ne_error _ _ _ (CHECK_SHAPE_ne_num_splits _ _ _ _)
      (fun _ => CHECK_SHAPE_ne_num_splits _ _ _ _)

theorem kvcache_check_cache_shape_ne_num_splits (kcache vcache : Tensor)
    (page_table_ : Option Tensor)
    (batch_size_k seqlen_k num_pages page_size max_num_pages_per_seq num_heads_k
      head_size_og : Int) :
    kvcache_check_cache_shape kcache vcache page_table_ batch_size_k seqlen_k num_pages
      page_size max_num_pages_per_seq num_heads_k head_size_og
      ≠ Except.error msg_num_splits_fwd := by
  cases page_table_ with
  | none =>
    exact bind_ne_error _ _ _ (CHECK_SHAPE_ne_num_splits _ _ _ _)
      (fun _ => CHECK_SHAPE_ne_num_splits _ _ _ _)
  | some p =>
    exact bind_ne_error _ _ _ (CHECK_SHAPE_ne_num_splits _ _ _ _)
      (fun _ => bind_ne_error _ _ _ (CHECK_SHAPE_ne_num_splits _ _ _ _)
        (fun _ => CHECK_SHAPE_ne_num_splits _ _ _ _))

theorem kvcache_check_int_vector_ne_num_splits (x_ : Option Tensor) (name : String)
    (batch_size : Int) :
    kvcache_check_int_vector x_ name batch_size ≠ Except.error msg_num_splits_fwd := by
  cases x_ with
  | none => exact pure_ne_error _ _
  | some x =>
    simp only [kvcache_check_int_vector]
    repeat' first
      | exact CHECK_SHAPE_ne_num_splits _ _ _ _
      | exact CHECK_DEVICE_ne_num_splits _ _
      | exact CHECK_CONTIGUOUS_ne_num_splits _ _
      | exact TORCH_CHECK_ne_error _ _ _
          (Or.inr (append_ne_of_not_suffix _ _ _ (by decide)))
      | refine bind_ne_error _ _ _ ?_ (fun _ => ?_)

theorem kvcache_check_knew_ne_num_splits (k_ v_ seqused_k_ : Option Tensor)
    (q_type : ScalarType) (batch_size seqlen_q seqlen_k num_heads_k head_size_og : Int) :
    kvcache_check_knew k_ v_ seqused_k_ q_type batch_size seqlen_q seqlen_k num_heads_k
      head_size_og ≠ Except.error msg_num_splits_fwd := by
  cases k_ with
  | none => exact pure_ne_error _ _
  | some k =>
    simp only [kvcache_check_knew]
    repeat' first
      | exact CHECK_SHAPE_ne_num_splits _ _ _ _
      | exact CHECK_DEVICE_ne_num_splits _ _
      | exact TORCH_CHECK_ne_error _ _ _ (Or.inr (by decide))
      | refine bind_ne_error _ _ _ ?_ (fun _ => ?_)

theorem kvcache_check_cache_batch_idx_ne_num_splits (x_ : Option Tensor) :
    kvcache_check_cache_batch_idx x_ ≠ Except.error msg_num_splits_fwd := by
  cases x_ with
  | none => exact pure_ne_error _ _
  | some x =>
    simp only [kvcache_check_cache_batch_idx]
    repeat' first
      | exact CHECK_DEVICE_ne_num_splits _ _
      | exact CHECK_CONTIGUOUS_ne_num_splits _ _
      | exact TORCH_CHECK_ne_error _ _ _ (Or.inr (by decide))
      | refine bind_ne_error _ _ _ ?_ (fun _ => ?_)

theorem mha_varlen_fwd_split_limit (a : VarlenFwdArgs) :
    (256 < a.num_splits → ∃ msg, mha_varlen_fwd a = Except.error msg) ∧
    (a.num_splits ≤ 256 → mha_varlen_fwd a ≠ Except.error msg_num_splits_fwd) := by
  constructor
  · intro h
    unfold mha_varlen_fwd
    repeat first
      | exact check_num_splits_bind_fails _ h _
      | refine bind_fails _ _ (fun _ => ?_)
  · intro h
    unfold mha_varlen_fwd
    repeat' first
      | exact pure_ne_error _ _
      | exact mha_varlen_fwd_shape_checks_ne_num_splits _ _ _ _ _ _
      | exact CHECK_SHAPE_ne_num_splits _ _ _ _
      | exact varlen_check_seqused_ne_num_splits _ _ _
      | exact resolve_out_ne_num_splits _ _ _ _ _ _ _
      | exact set_params_fprop_checks_ne_num_splits _ _
      | exact check_num_splits_ne_error _ h
      | exact check_descales_ne_num_splits _ _ _ _
      | refine bind_ne_error _ _ _ ?_ (fun _ => ?_)

theorem mha_fwd_kvcache_split_limit (a : KvcacheArgs) :
    (256 < a.num_splits → ∃ msg, mha_fwd_kvcache a = Except.error msg) ∧
    (a.num_splits ≤ 256 → mha_fwd_kvcache a ≠ Except.error msg_num_splits_fwd) := by
  constructor
  · intro h
    unfold mha_fwd_kvcache
    repeat first
      | exact check_num_splits_bind_fails _ h _
      | refine bind_fails _ _ (fun _ => ?_)
  · intro h
    unfold mha_fwd_kvcache
    repeat' first
      | exact pure_ne_error _ _
      | exact mha_fwd_kvcache_shape_checks_ne_num_splits _ _ _ _ _ _ _ _
      | exact kvcache_check_q_shape_ne_num_splits _ _ _ _ _ _ _
      | exact kvcache_check_cache_shape_ne_num_splits _ _ _ _ _ _ _ _ _ _
      | exact kvcache_check_int_vector_ne_num_splits _ _ _
      | exact kvcache_check_knew_ne_num_splits _ _ _ _ _ _ _ _ _
      | exact kvcache_check_cache_batch_idx_ne_num_splits _
      | exact resolve_out_ne_num_splits _ _ _ _ _ _ _
      | exact set_params_fprop_checks_ne_num_splits _ _
      | exact check_num_splits_ne_error _ h
      | exact check_descales_ne_num_splits _ _ _ _
      | exact TORCH_CHECK_ne_error _ _ _ (Or.inr (by decide))
      | refine bind_ne_error _ _ _ ?_ (fun _ => ?_)

theorem mha_combine_split_limit (is_sm80 : Bool) ( out_partial lse_partial : Tensor) :
    (256 < out_partial.size 0 →
      ∃ msg, mha_combine_shape_checks is_sm80 out_partial lse_partial = Except.error msg) ∧
    ( out_partial.size 0 ≤ 256 →
      mha_combine_shape_checks is_sm80 out_partial lse_partial
        ≠ Except.error msg_num_splits_combine) := by
  constructor
  · intro h
    simp only [mha_combine_shape_checks, CHECK_DEVICE, CHECK_SHAPE, TORCH_CHECK_bind_fails,
      decide_eq_true_eq]
    intros
    omega
  · intro h
    simp only [mha_combine_shape_checks, CHECK_DEVICE, CHECK_SHAPE, bind_assoc]
    repeat' first
      | exact pure_ne_error _ _
      | exact TORCH_CHECK_ne_error _ _ _ (Or.inr (by decide))
      | exact TORCH_CHECK_ne_error _ _ _ (Or.inl (by simpa using h))
      | refine bind_ne_error _ _ _ ?_ (fun _ => ?_)

/-- C17: split-count limit. `mha_fwd`, `mha_varlen_fwd`, `mha_fwd_kvcache` and
`mha_combine` end in an error whenever the split count exceeds 256, whatever the
other arguments are, and for a split count between 1 and 256 the error of the
split-count check is never raised. The split count of `mha_combine` is the first
size of `out_partial`. -/
theorem split_count_limit :
    (∀ a : FwdArgs,
      (256 < a.num_splits → ∃ msg, mha_fwd a = Except.error msg) ∧
      (1 ≤ a.num_splits → a.num_splits ≤ 256 →
        mha_fwd a ≠ Except.error msg_num_splits_fwd)) ∧
    (∀ a : VarlenFwdArgs,
      (256 < a.num_splits → ∃ msg, mha_varlen_fwd a = Except.error msg) ∧
      (1 ≤ a.num_splits → a.num_splits ≤ 256 →
        mha_varlen_fwd a ≠ Except.error msg_num_splits_fwd)) ∧
    (∀ a : KvcacheArgs,
      (256 < a.num_splits → ∃ msg, mha_fwd_kvcache a = Except.error msg) ∧
      (1 ≤ a.num_splits → a.num_splits ≤ 256 →
        mha_fwd_kvcache a ≠ Except.error msg_num_splits_fwd)) ∧
    (∀ (is_sm80 : Bool) ( out_partial lse_partial : Tensor),
      (256 < out_partial.size 0 →
        ∃ msg, mha_combine_shape_checks is_sm80 out_partial lse_partial
          = Except.error msg) ∧
      (1 ≤ out_partial.size 0 → out_partial.size 0 ≤ 256 →
        mha_combine_shape_checks is_sm80 out_partial lse_partial
          ≠ Except.error msg_num_splits_combine)) :=
  ⟨fun a => ⟨(mha_fwd_split_limit a).1, fun _ h => (mha_fwd_split_limit a).2 h⟩,
   fun a => ⟨(mha_varlen_fwd_split_limit a).1, fun _ h => (mha_varlen_fwd_split_limit a).2 h⟩,
   fun a => ⟨(mha_fwd_kvcache_split_limit a).1,
     fun _ h => (mha_fwd_kvcache_split_limit a).2 h⟩,
   fun i o l => ⟨(mha_combine_split_limit i o l).1,
     fun _ h => (mha_combine_split_limit i o l).2 h⟩⟩

/-- C17 at the sample call of `mha_fwd`: with 257 splits it ends in the error of
the split-count check, with 256 splits it passes; `mha_combine` on 257 partial
outputs ends in its split-count error. -/
theorem split_count_limit_witness :
    mha_fwd { sample_fwd_args with num_splits := 257 }
      = Except.error msg_num_splits_fwd ∧
    (∃ r, mha_fwd { sample_fwd_args with num_splits := 256 } = Except.ok r) ∧
    mha_combine_shape_checks true
        (sample_tensor ScalarType.Float [257, 2, 128, 8, 64])
        sample_lse_partial
      = Except.error msg_num_splits_combine ∧
    (∃ msg, mha_fwd { sample_fwd_args with num_splits := 257 } = Except.error msg) :=
  ⟨rfl, ⟨_, rfl⟩, rfl,
    (split_count_limit.1 { sample_fwd_args with num_splits := 257 }).1 (by decide)⟩

/-- C18 at the ragged sample call of `mha_fwd_kvcache` (`cu_seqlens_q` supplied,
2 rows, 6 queries in total, at most 4 per row, 4 heads): the kernel is launched
and the returned log-sum-exp tensor has shape (2, 4, 4), that is
(batch, heads, max_seqlen_q), not (heads, total_q) = (4, 6), while
`run_flash_fwd` hands the epilogue the strides (1, 6, 0) of a (4, 6) layout. -/
theorem kvcache_ragged_lse_shape :
    sample_kvcache_args_ragged.cu_seqlens_q_.isSome = true ∧
    sample_kvcache_args_ragged.batch_size = 2 ∧
    sample_kvcache_args_ragged.num_heads = 4 ∧
    sample_kvcache_args_ragged.total_q = 6 ∧
    sample_kvcache_args_ragged.seqlen_q = 4 ∧
    (∃ r, mha_fwd_kvcache sample_kvcache_args_ragged = Except.ok r ∧
      r.kernel_launched = true ∧ r.params.cu_seqlens_q = true ∧
      r.softmax_lse.sizes = [2, 4, 4] ∧ r.softmax_lse.strides = [16, 4, 1] ∧
      r.softmax_lse.sizes ≠ [4, 6]) ∧
    run_flash_fwd_stride_LSE true false 4 6 4 2 = (1, 6, 0, 0) :=
  ⟨rfl, by decide, by decide, by decide, by decide,
    ⟨_, rfl, rfl, rfl, rfl, rfl, by decide⟩, by decide⟩

/-- C19 at the fp8 sample call of `mha_varlen_fwd` with head dimension 8: the
inputs are padded to head dimension 16 and the first returned tensor keeps the
trailing dimension 16, not 8; `mha_fwd` on fp8 tensors of head dimension 8 pads
to 16 and returns the trailing dimension 8. -/
theorem varlen_fp8_output_not_sliced :
    sample_varlen_args_fp8.head_size_og = 8 ∧
    (∃ r, mha_varlen_fwd sample_varlen_args_fp8 = Except.ok r ∧
      r.q_padded.sizes = [6, 4, 16] ∧ r.out.sizes = [6, 4, 16] ∧ r.out.size (-1) = 16) ∧
    sample_fwd_args_fp8.head_size_og = 8 ∧
    (∃ r, mha_fwd sample_fwd_args_fp8 = Except.ok r ∧
      r.q_padded.sizes = [2, 128, 8, 16] ∧ r.out.sizes = [2, 128, 8, 8] ∧
      r.out.size (-1) = 8) :=
  ⟨by decide, ⟨_, rfl, by decide, by decide, by decide⟩, by decide,
    ⟨_, rfl, by decide, by decide, by decide⟩⟩


/-! ## Variant dispatch and kernel instantiation: claims -/

/-- C21: the exclusion static_asserts of `run_flash_fwd` cannot fire from the
dispatcher. For every parameter bundle and all template arguments of
`run_mha_fwd_dispatch`, the variant it passes to `run_flash_fwd` satisfies
not (Is_causal and Is_local), not (AppendKV and V_colmajor), and AppendKV implies
Varlen; the instantiation passes the three assertions. -/
theorem dispatcher_static_asserts_hold (kBlockM : Int)
    (Is_causal Is_local Split V_colmajor : Bool) (params : Flash_fwd_params) :
    ((run_mha_fwd_dispatch kBlockM Is_causal Is_local Split V_colmajor params).Is_causal &&
      (run_mha_fwd_dispatch kBlockM Is_causal Is_local Split V_colmajor params).Is_local)
      = false ∧
    ((run_mha_fwd_dispatch kBlockM Is_causal Is_local Split V_colmajor params).AppendKV &&
      (run_mha_fwd_dispatch kBlockM Is_causal Is_local Split V_colmajor params).V_colmajor)
      = false ∧
    ((run_mha_fwd_dispatch kBlockM Is_causal Is_local Split V_colmajor params).AppendKV = true →
      (run_mha_fwd_dispatch kBlockM Is_causal Is_local Split V_colmajor params).Varlen = true) ∧
    run_mha_fwd_dispatch_launch kBlockM Is_causal Is_local Split V_colmajor params =
      Except.ok
        { variant := run_mha_fwd_dispatch kBlockM Is_causal Is_local Split V_colmajor params,
          scheduler := run_flash_fwd_Scheduler
            (run_mha_fwd_dispatch kBlockM Is_causal Is_local Split V_colmajor params) } := by
  have h1 : (run_mha_fwd_dispatch kBlockM Is_causal Is_local Split V_colmajor params).Is_local
      = false := rfl
  have h2 : (run_mha_fwd_dispatch kBlockM Is_causal Is_local Split V_colmajor params).V_colmajor
      = false := rfl
  have h3 : (run_mha_fwd_dispatch kBlockM Is_causal Is_local Split V_colmajor params).AppendKV
      = (params.knew_ptr &&
        (run_mha_fwd_dispatch kBlockM Is_causal Is_local Split V_colmajor params).Varlen) := rfl
  have h4 : (run_mha_fwd_dispatch kBlockM Is_causal Is_local Split V_colmajor params).AppendKV
      = true →
      (run_mha_fwd_dispatch kBlockM Is_causal Is_local Split V_colmajor params).Varlen = true := by
    rw [h3]
    intro h
    exact (Bool.and_eq_true _ _ ▸ h).2
  refine ⟨by rw [h1, Bool.and_false], by rw [h2, Bool.and_false], h4, ?_⟩
  unfold run_mha_fwd_dispatch_launch run_flash_fwd
  generalize run_mha_fwd_dispatch kBlockM Is_causal Is_local Split V_colmajor params = v at *
  obtain ⟨kB, cM, c, l, s, vl, pk, ak, pg, sp, vc⟩ := v
  simp only at h1 h2 h4
  subst h1 h2
  cases ak
  · cases c <;> rfl
  · have hv := h4 rfl
    subst hv
    cases c <;> rfl

/-- C28: the head dimension of the kernel agrees with the resolver. For every
head_size with 0 ≤ head_size ≤ 256 and all element-type flags, the head dimension
with which `run_mha_fwd` and `run_mha_bwd` instantiate their kernel equals
`head_size_rounded head_size`; it is one of 64, 96, 128, 192, 256, it is not
smaller than head_size, and no smaller one of these five is at least
head_size. -/
theorem kernel_head_dim_agrees (params : DtypeFlags) (is_bf16 : Bool) (head_size : Int)
    (h0 : 0 ≤ head_size) (h256 : head_size ≤ 256) :
    (run_mha_fwd params head_size).kHeadDim = head_size_rounded head_size ∧
    (run_mha_bwd is_bf16 head_size).kHeadDim = head_size_rounded head_size ∧
    (run_mha_fwd params head_size).kHeadDim ∈ [64, 96, 128, 192, 256] ∧
    head_size ≤ (run_mha_fwd params head_size).kHeadDim ∧
    (∀ k ∈ [64, 96, 128, 192, 256], head_size ≤ k →
      (run_mha_fwd params head_size).kHeadDim ≤ k) := by
  have hf : (run_mha_fwd params head_size).kHeadDim =
      if head_size ≤ 64 then 64 else if head_size ≤ 96 then 96
      else if head_size ≤ 128 then 128 else if head_size ≤ 192 then 192 else 256 := by
    obtain ⟨f32, bf, e4⟩ := params
    cases bf <;> cases e4 <;> simp only [run_mha_fwd] <;> split_ifs <;> simp_all
  have hb : (run_mha_bwd is_bf16 head_size).kHeadDim =
      if head_size ≤ 64 then 64 else if head_size ≤ 96 then 96
      else if head_size ≤ 128 then 128 else if head_size ≤ 192 then 192 else 256 := by
    cases is_bf16 <;> simp only [run_mha_bwd] <;> split_ifs <;> simp_all
  have hr : head_size_rounded head_size =
      if head_size ≤ 64 then 64 else if head_size ≤ 96 then 96
      else if head_size ≤ 128 then 128 else if head_size ≤ 192 then 192 else 256 := by
    unfold head_size_rounded
    by_cases c1 : head_size ≤ 64
    · simp [c1]
    · rw [if_neg c1, if_neg c1]
      by_cases c2 : head_size ≤ 128
      · rw [if_pos c2, round_multiple_eq_ediv _ _ h0 (by norm_num)]
        by_cases c3 : head_size ≤ 96
        · rw [if_pos c3]; omega
        · rw [if_neg c3, if_pos c2]; omega
      · rw [if_neg c2, round_multiple_eq_ediv _ _ h0 (by norm_num)]
        have c3 : ¬ head_size ≤ 96 := by omega
        rw [if_neg c3, if_neg c2]
        by_cases c4 : head_size ≤ 192
        · rw [if_pos c4]; omega
        · rw [if_neg c4]; omega
  rw [hf, hb, hr]
  refine ⟨rfl, rfl, ?_, ?_, ?_⟩
  · split_ifs <;> simp
  · split_ifs <;> omega
  · intro k hk hle
    simp only [List.mem_cons, List.mem_singleton, List.not_mem_nil, or_false] at hk
    rcases hk with rfl | rfl | rfl | rfl | rfl <;> split_ifs <;> omega

/-- C28 at head_size = 72 with the flags of an fp16 input: forward and backward
kernels are instantiated with head dimension 96, which is `head_size_rounded 72`. -/
theorem kernel_head_dim_agrees_witness :
    (0 : Int) ≤ 72 ∧ (72 : Int) ≤ 256 ∧
    (run_mha_fwd (set_params_fprop_dtype ScalarType.Half) 72).kHeadDim = 96 ∧
    (run_mha_bwd false 72).kHeadDim = 96 ∧ head_size_rounded 72 = 96 ∧
    (run_mha_fwd (set_params_fprop_dtype ScalarType.Half) 72).kHeadDim = head_size_rounded 72 :=
  ⟨by decide, by decide, by decide, by decide, by decide,
    (kernel_head_dim_agrees (set_params_fprop_dtype ScalarType.Half) false 72
      (by decide) (by decide)).1⟩

/-! ## Backward pass, padded ragged buffers: claims -/

theorem padded_rows_le (seqlens : List Int) (kBlock : Int) (hB : 1 ≤ kBlock)
    (h : ∀ l ∈ seqlens, 0 ≤ l) :
    0 ≤ seqlens.sum ∧ padded_rows seqlens kBlock ≤ seqlens.sum + seqlens.length * kBlock := by
  induction seqlens with
  | nil => simp [padded_rows]
  | cons l ls ih =>
    have hl : 0 ≤ l := h l (List.mem_cons_self _ _)
    obtain ⟨ih0, ih1⟩ := ih (fun x hx => h x (List.mem_cons_of_mem _ hx))
    have hr := (round_multiple_least l kBlock hl hB).2.2.1
    simp only [padded_rows, List.map_cons, List.sum_cons, List.length_cons] at ih1 ⊢
    push_cast
    constructor
    · omega
    · nlinarith

theorem padded_total_ge (seqlens : List Int) (kBlock : Int) (hB : 1 ≤ kBlock)
    (h : ∀ l ∈ seqlens, 0 ≤ l) :
    kBlock ∣ round_multiple (seqlens.sum + seqlens.length * kBlock) kBlock ∧
    padded_rows seqlens kBlock
      ≤ round_multiple (seqlens.sum + seqlens.length * kBlock) kBlock := by
  obtain ⟨h0, h1⟩ := padded_rows_le seqlens kBlock hB h
  have hx : 0 ≤ seqlens.sum + (seqlens.length : Int) * kBlock := by
    have : 0 ≤ (seqlens.length : Int) * kBlock :=
      mul_nonneg (Int.ofNat_nonneg _) (by omega)
    omega
  obtain ⟨hd, hle, -⟩ := round_multiple_least _ kBlock hx hB
  exact ⟨hd, le_trans h1 hle⟩

theorem mha_varlen_bwd_kBlockM_pos (head_size_rounded : Int) (softcap_is_zero : Bool) :
    1 ≤ mha_varlen_bwd_kBlockM head_size_rounded softcap_is_zero := by
  unfold mha_varlen_bwd_kBlockM
  split_ifs <;> norm_num

theorem mha_varlen_bwd_kBlockN_pos (head_size_rounded : Int) :
    1 ≤ mha_varlen_bwd_kBlockN head_size_rounded := by
  unfold mha_varlen_bwd_kBlockN
  split_ifs <;> norm_num

/-! ## Page table: claims -/

theorem mha_fwd_kvcache_shape_checks_batch (a : KvcacheArgs) (s : ShapeInfo)
    (h : mha_fwd_kvcache_shape_checks a.is_sm90 a.q a.kcache a.vcache a.page_table_
      a.cu_seqlens_q_ a.max_seqlen_q_ false = Except.ok s) :
    a.batch_size = a.batch_size_k := by
  obtain ⟨is_sm90, disable_local, q, kcache, vcache, k_, v_, out_, seqused_k_,
    cache_batch_idx_, leftpad_k_, page_table_, cu_seqlens_q_, max_seqlen_q_, is_causal,
    q_descale_, k_descale_, v_descale_, wl, wr, sink, num_splits, pack_gqa_⟩ := a
  simp only [KvcacheArgs.batch_size, KvcacheArgs.batch_size_k]
  cases page_table_ <;> cases cu_seqlens_q_ <;>
  · simp only [mha_fwd_kvcache_shape_checks, bind_assoc, CHECK_DEVICE, TORCH_CHECK_bind_eq_ok,
      pure_bind_except, Bool.not_false, if_true] at h
    simp only [beq_iff_eq] at h
    tauto

theorem kvcache_check_cache_shape_ok (kcache vcache page_table : Tensor)
    (batch_size_k seqlen_k num_pages page_size max_num_pages_per_seq num_heads_k
      head_size_og : Int)
    (h : kvcache_check_cache_shape kcache vcache (some page_table) batch_size_k seqlen_k
      num_pages page_size max_num_pages_per_seq num_heads_k head_size_og = Except.ok ()) :
    page_table.sizes = [batch_size_k, max_num_pages_per_seq] := by
  simp only [kvcache_check_cache_shape, CHECK_SHAPE, TORCH_CHECK_bind_eq_ok, TORCH_CHECK_eq_ok,
    beq_iff_eq] at h
  exact h.2.2

theorem mha_fwd_kvcache_page_ok (a : KvcacheArgs) (r : FwdOutcome)
    (h : mha_fwd_kvcache a = Except.ok r) :
    (a.cache_batch_idx_.isSome = false → a.batch_size = a.batch_size_k) ∧
    (∀ page_table, a.page_table_ = some page_table →
      page_table.sizes = [a.batch_size_k, a.max_num_pages_per_seq]) := by
  simp only [mha_fwd_kvcache, bind_eq_ok, pure_eq_ok] at h
  obtain ⟨s, hs, -, -, _, hc, -⟩ := h
  constructor
  · intro hcb
    rw [hcb] at hs
    exact mha_fwd_kvcache_shape_checks_batch a s hs
  · intro page_table hp
    rw [hp] at hc
    simp only [KvcacheArgs.batch_size_k, KvcacheArgs.max_num_pages_per_seq, hp]
    exact kvcache_check_cache_shape_ok _ _ _ _ _ _ _ _ _ _ hc

/-! ## Launch conditions and kernel variants: evaluations -/

theorem run_mha_fwd_hdim_16b_bits (kBlock_M : Bool → Int) (Split : Bool) (mask : MaskParams)
    (params : Flash_fwd_params) :
    (run_mha_fwd_hdim_16b kBlock_M Split mask params).Is_causal = mask.is_causal ∧
    (run_mha_fwd_hdim_16b kBlock_M Split mask params).Is_local = false ∧
    (run_mha_fwd_hdim_16b kBlock_M Split mask params).Split = Split := by
  refine ⟨?_, rfl, rfl⟩
  obtain ⟨c, l, wl, wr⟩ := mask
  cases c <;> cases l <;> rfl

/-- C22 at the sample call of `mha_fwd` with a sliding window of 16 keys on
either side: the plan is local and not causal and the kernel is launched, and for
every tile height and every Split the variant that `run_mha_fwd_hdim_16b` hands
to `run_flash_fwd` has both its Is_local and its Is_causal bit clear. -/
theorem local_variant_not_selected :
    sample_fwd_args_local.is_causal = false ∧
    sample_fwd_args_local.window_size_left = 16 ∧
    sample_fwd_args_local.window_size_right = 16 ∧
    ∃ r, mha_fwd sample_fwd_args_local = Except.ok r ∧
      r.kernel_launched = true ∧ r.mask.is_local = true ∧ r.mask.is_causal = false ∧
      r.mask.window_size_left = 16 ∧ r.mask.window_size_right = 16 ∧
      ∀ (kBlock_M : Bool → Int) (Split : Bool),
        (run_mha_fwd_hdim_16b kBlock_M Split r.mask r.params).Is_local = false ∧
        (run_mha_fwd_hdim_16b kBlock_M Split r.mask r.params).Is_causal = false :=
  ⟨rfl, rfl, rfl, _, rfl, rfl, rfl, rfl, rfl, rfl, fun _ _ => ⟨rfl, rfl⟩⟩

theorem ceil_div_zero (b : Int) (hb : 1 ≤ b) : ceil_div 0 b = 0 := by
  unfold ceil_div
  rw [Int.tdiv_eq_ediv (by omega) (by omega)]
  exact Int.ediv_eq_zero_of_lt (by omega) (by omega)

theorem num_blocks_m_zero (v : FwdVariant) (params : Flash_fwd_params)
    (hq : params.seqlen_q = 0) (hb : 1 ≤ v.kBlockM) (hc : v.ClusterM = 1) :
    run_flash_fwd_num_blocks_m v params = 0 := by
  unfold run_flash_fwd_num_blocks_m
  simp only [hq, zero_mul, ceil_div_zero _ hb, hc]
  rfl

/-- C23 at the sample calls with queries of length zero: `mha_fwd` (batch 2, 128
keys) and `mha_varlen_fwd` (two rows, `max_seqlen_q = 0`, `max_seqlen_k = 4`)
pass their checks and launch the kernel with `params.seqlen_q = 0`, and for every
positive tile height `num_blocks_m` of `run_flash_fwd` is 0; `mha_fwd_kvcache` on
queries of length zero launches no kernel. -/
theorem zero_query_length_launches :
    sample_fwd_args_no_queries.seqlen_q = 0 ∧
    (∃ r, mha_fwd sample_fwd_args_no_queries = Except.ok r ∧
      r.kernel_launched = true ∧ r.params.seqlen_q = 0 ∧
      ∀ (kBlock_M : Bool → Int) (Split : Bool), (∀ b, 1 ≤ kBlock_M b) →
        run_flash_fwd_num_blocks_m (run_mha_fwd_hdim_16b kBlock_M Split r.mask r.params)
          r.params = 0) ∧
    sample_varlen_args_no_queries.max_seqlen_q = 0 ∧
    (∃ r, mha_varlen_fwd sample_varlen_args_no_queries = Except.ok r ∧
      r.kernel_launched = true ∧ r.params.seqlen_q = 0 ∧
      ∀ (kBlock_M : Bool → Int) (Split : Bool), (∀ b, 1 ≤ kBlock_M b) →
        run_flash_fwd_num_blocks_m (run_mha_fwd_hdim_16b kBlock_M Split r.mask r.params)
          r.params = 0) ∧
    (∃ r, mha_fwd_kvcache
        { sample_kvcache_args_paged with q := sample_tensor ScalarType.Half [2, 0, 4, 64] }
        = Except.ok r ∧ r.kernel_launched = false) :=
  ⟨by decide,
   ⟨_, rfl, rfl, rfl, fun _ _ hb => num_blocks_m_zero _ _ rfl (hb _) rfl⟩,
   rfl,
   ⟨_, rfl, rfl, rfl, fun _ _ hb => num_blocks_m_zero _ _ rfl (hb _) rfl⟩,
   ⟨_, rfl, rfl⟩⟩

theorem kvcache_tile_counter_available (mask : MaskParams)
    (seqused_k_given leftpad_k_given paged_KV : Bool) (num_splits : Int)
    (hs : num_splits = 1) (hp : paged_KV = false)
    (h : mask.is_causal = true ∨ mask.is_local = true ∨ seqused_k_given = true
      ∨ leftpad_k_given = true) :
    mha_fwd_kvcache_tile_count_semaphore mask seqused_k_given leftpad_k_given num_splits
      paged_KV = some Fill.Zero := by
  subst hs hp
  unfold mha_fwd_kvcache_tile_count_semaphore
  rcases h with h | h | h | h <;> simp [h]

/-- C24 at the ragged sample call of `mha_fwd_kvcache` (`cu_seqlens_q` supplied,
not causal, no window, no `seqused_k`, no `leftpad_k`, one split, no page table,
no new keys): the kernel is launched, for every tile height `run_flash_fwd`
builds it with the variable-length dynamic persistent scheduler, and
`params.tile_count_semaphore` is a null pointer; `mha_varlen_fwd` always passes a
zeroed counter. -/
theorem kvcache_ragged_tile_counter_null :
    sample_kvcache_args_ragged.cu_seqlens_q_.isSome = true ∧
    sample_kvcache_args_ragged.seqused_k_.isSome = false ∧
    sample_kvcache_args_ragged.leftpad_k_.isSome = false ∧
    sample_kvcache_args_ragged.page_table_.isSome = false ∧
    sample_kvcache_args_ragged.k_.isSome = false ∧
    sample_kvcache_args_ragged.num_splits = 1 ∧
    (∃ r, mha_fwd_kvcache sample_kvcache_args_ragged = Except.ok r ∧
      r.kernel_launched = true ∧ r.mask.is_causal = false ∧ r.mask.is_local = false ∧
      (∀ (kBlock_M : Bool → Int),
        ∃ l, run_flash_fwd
            (run_mha_fwd_hdim_16b kBlock_M (decide (r.num_splits > 1)) r.mask r.params)
            = Except.ok l ∧
          l.variant.Varlen = true ∧ l.variant.Split = false ∧ l.variant.PagedKV = false ∧
          l.variant.AppendKV = false ∧
          l.scheduler = Scheduler.VarlenDynamicPersistentTileScheduler) ∧
      mha_fwd_kvcache_tile_count_semaphore r.mask
        sample_kvcache_args_ragged.seqused_k_.isSome
        sample_kvcache_args_ragged.leftpad_k_.isSome
        sample_kvcache_args_ragged.num_splits
        sample_kvcache_args_ragged.page_table_.isSome = none) ∧
    mha_varlen_fwd_tile_count_semaphore = some Fill.Zero :=
  ⟨rfl, rfl, rfl, rfl, rfl, rfl,
   ⟨_, rfl, rfl, rfl, rfl, fun _ => ⟨_, rfl, rfl, rfl, rfl, rfl, rfl⟩, rfl⟩, rfl⟩

theorem fwd_launch_block_combine (params : DtypeFlags) (d num_splits : Int)
    (h : 1 < num_splits) :
    ∃ c, (fwd_launch_block true params d num_splits).combine = some c ∧
      (params.is_fp32 = false → c.element = Element.bfloat16_t) := by
  have h' : num_splits > 1 := h
  simp only [fwd_launch_block, if_true, if_pos h']
  refine ⟨_, rfl, ?_⟩
  intro hf
  simp only [run_mha_fwd_combine, hf, Bool.false_eq_true, if_false, if_true]
  split_ifs <;> rfl

/-- C25 at the sample call of `mha_fwd` on fp16 tensors with four splits: the
output tensor has element type fp16, the kernel and the combine step are
launched, and `run_mha_fwd_combine` is dispatched with element type bf16. On
bf16 tensors the same call dispatches bf16 for a bf16 output. -/
theorem combine_element_fp16_split :
    sample_fwd_args_split.q.dtype = ScalarType.Half ∧
    sample_fwd_args_split.num_splits = 4 ∧
    out_type_of sample_fwd_args_split.q.dtype = ScalarType.Half ∧
    (∃ r k c, mha_fwd sample_fwd_args_split = Except.ok r ∧
      mha_fwd_kernels sample_fwd_args_split = Except.ok k ∧
      r.kernel_launched = true ∧ r.combine_launched = true ∧
      r.out.dtype = ScalarType.Half ∧ r.out_padded.dtype = ScalarType.Half ∧
      k.fwd = some { element := Element.half_t, kHeadDim := 64 } ∧
      k.combine = some c ∧ c.element = Element.bfloat16_t ∧
      c.element.scalar_type ≠ r.out_padded.dtype) ∧
    (∃ r k c, mha_fwd
        { sample_fwd_args_split with
          q := sample_tensor ScalarType.BFloat16 [2, 128, 8, 64],
          k := sample_tensor ScalarType.BFloat16 [2, 128, 2, 64],
          v := sample_tensor ScalarType.BFloat16 [2, 128, 2, 64] } = Except.ok r ∧
      mha_fwd_kernels
        { sample_fwd_args_split with
          q := sample_tensor ScalarType.BFloat16 [2, 128, 8, 64],
          k := sample_tensor ScalarType.BFloat16 [2, 128, 2, 64],
          v := sample_tensor ScalarType.BFloat16 [2, 128, 2, 64] } = Except.ok k ∧
      k.combine = some c ∧ c.element.scalar_type = r.out_padded.dtype) :=
  ⟨rfl, rfl, rfl,
   ⟨_, _, _, rfl, rfl, rfl, rfl, rfl, rfl, rfl, rfl, rfl, by decide⟩,
   ⟨_, _, _, rfl, rfl, rfl, rfl⟩⟩

/-- C26 at the sample call of `mha_fwd_kvcache` that appends new keys (one query
per row, a cache of 16 keys per row, 32 new keys per row, `seqused_k` supplied):
every check passes and the kernel is launched with `knew_ptr` set, although
seqlen_knew = 32 exceeds seqlen_k = 16; the check compares seqlen_q = 1. -/
theorem appended_keys_exceed_cache :
    sample_kvcache_args_append.k_.isSome = true ∧
    sample_kvcache_args_append.seqlen_knew = 32 ∧
    sample_kvcache_args_append.seqlen_k = 16 ∧
    sample_kvcache_args_append.seqlen_q = 1 ∧
    ¬ (sample_kvcache_args_append.seqlen_knew ≤ sample_kvcache_args_append.seqlen_k) ∧
    ∃ r, mha_fwd_kvcache sample_kvcache_args_append = Except.ok r ∧
      r.kernel_launched = true ∧ r.params.knew_ptr = true :=
  ⟨rfl, by decide, by decide, by decide, by decide, _, rfl, rfl, rfl⟩

/-- C27 at sample calls with a split count below one: `mha_fwd` with
num_splits = 0 and `mha_varlen_fwd` with num_splits = -3 pass every check and
launch the kernel with that `params.num_splits`; `mha_fwd_kvcache` with
num_splits = 0 is rejected by its check of num_splits ≥ 1. -/
theorem zero_splits_reach_launch :
    (∃ r, mha_fwd { sample_fwd_args with num_splits := 0 } = Except.ok r ∧
      r.kernel_launched = true ∧ r.num_splits = 0) ∧
    (∃ r, mha_varlen_fwd { sample_varlen_args_fp8 with num_splits := -3 } = Except.ok r ∧
      r.kernel_launched = true ∧ r.num_splits = -3) ∧
    mha_fwd_kvcache { sample_kvcache_args_ragged with num_splits := 0 } = Except.error
      "num_splits must be at least 1, there's no heuristic to automatically pick num_splits yet" :=
  ⟨⟨_, rfl, rfl, rfl⟩, ⟨_, rfl, rfl, rfl⟩, rfl⟩


/-! ## Backward pass, padded ragged buffers: the 32-bit totals -/

theorem int32_eq_self (x : Int) (h1 : -2147483648 ≤ x) (h2 : x < 2147483648) :
    int32 x = x := by
  unfold int32
  omega

theorem round_multiple_int_eq (x m : Int) (hx : 0 ≤ x) (hm : 1 ≤ m)
    (h : x + m < 2147483648) : round_multiple_int x m = round_multiple x m := by
  obtain ⟨-, h1, h2, -⟩ := round_multiple_least x m hx hm
  unfold round_multiple_int
  rw [int32_eq_self (x + m) (by omega) (by omega),
    int32_eq_self (x + m - 1) (by omega) (by omega)]
  unfold round_multiple at h1 h2 ⊢
  exact int32_eq_self _ (by omega) (by omega)

theorem padded_total_int_eq (total batch_size kBlock : Int) (ht : 0 ≤ total)
    (hb : 0 ≤ batch_size) (hB : 1 ≤ kBlock)
    (h : total + batch_size * kBlock + kBlock < 2147483648) :
    round_multiple_int (int32 (total + int32 (batch_size * kBlock))) kBlock
      = round_multiple (total + batch_size * kBlock) kBlock := by
  have hp : 0 ≤ batch_size * kBlock := mul_nonneg hb (by omega)
  rw [int32_eq_self (batch_size * kBlock) (by omega) (by omega),
    int32_eq_self (total + batch_size * kBlock) (by omega) (by omega)]
  exact round_multiple_int_eq _ _ (by omega) hB h

/-- C30, as stated, fails: for 16777215 rows of one query each (total_q =
16777215) and head dimension 64 without softcap, kBlockM is 128 and the rows
padded to multiples of 128 take 2147483520 rows, but the sum
`total_q + batch_size * kBlockM` = 2164260735 does not fit the 32-bit `int` of
`mha_varlen_bwd` and total_q_padded_rounded is -2130706432. -/
theorem padded_ragged_buffers_counterexample :
    (∀ l ∈ List.replicate 16777215 (1 : Int), 0 ≤ l) ∧
    ((List.replicate 16777215 (1 : Int)).length : Int) = 16777215 ∧
    (List.replicate 16777215 (1 : Int)).sum = 16777215 ∧
    mha_varlen_bwd_kBlockM (head_size_rounded 64) true = 128 ∧
    total_q_padded_rounded 16777215 16777215
      (mha_varlen_bwd_kBlockM (head_size_rounded 64) true) = -2130706432 ∧
    padded_rows (List.replicate 16777215 (1 : Int))
      (mha_varlen_bwd_kBlockM (head_size_rounded 64) true) = 2147483520 ∧
    ¬ (padded_rows (List.replicate 16777215 (1 : Int))
        (mha_varlen_bwd_kBlockM (head_size_rounded 64) true)
      ≤ total_q_padded_rounded 16777215 16777215
        (mha_varlen_bwd_kBlockM (head_size_rounded 64) true)) := by
  have hB : mha_varlen_bwd_kBlockM (head_size_rounded 64) true = 128 := by decide
  have hT : total_q_padded_rounded 16777215 16777215 128 = -2130706432 := by decide
  have hR : round_multiple 1 128 = 128 := by decide
  have hP : padded_rows (List.replicate 16777215 (1 : Int)) 128 = 2147483520 := by
    unfold padded_rows
    rw [List.map_replicate, List.sum_replicate, hR, nsmul_eq_mul]
    norm_num
  rw [hB, hT, hP]
  refine ⟨?_, ?_, ?_, rfl, rfl, rfl, by decide⟩
  · intro l hl
    rw [List.eq_of_mem_replicate hl]
    decide
  · rw [List.length_replicate]
    rfl
  · rw [List.sum_replicate, nsmul_eq_mul]
    norm_num

/-- C30, amended: the padded ragged buffers of `mha_varlen_bwd` are large enough
as long as the totals fit the 32-bit `int`. For every batch_size, every list of
batch_size non-negative per-row query lengths summing to total_q, and kBlockM
chosen from head_size_rounded and softcap, if
total_q + batch_size * kBlockM + kBlockM < 2^31 then total_q_padded_rounded
is a multiple of kBlockM and is at least the sum over the rows of the row length
rounded up to a multiple of kBlockM; likewise for the key lengths,
total_k_padded_rounded and kBlockN. -/
theorem padded_ragged_buffers (seqlens_q seqlens_k : List Int) (total_q total_k batch_size : Int)
    (head_size : Int) (softcap_is_zero : Bool)
    (hq : ∀ l ∈ seqlens_q, 0 ≤ l) (hk : ∀ l ∈ seqlens_k, 0 ≤ l)
    (hbq : (seqlens_q.length : Int) = batch_size) (hbk : (seqlens_k.length : Int) = batch_size)
    (hsq : seqlens_q.sum = total_q) (hsk : seqlens_k.sum = total_k)
    (hoq : total_q
        + batch_size * mha_varlen_bwd_kBlockM (head_size_rounded head_size) softcap_is_zero
        + mha_varlen_bwd_kBlockM (head_size_rounded head_size) softcap_is_zero
      < 2147483648)
    (hok : total_k + batch_size * mha_varlen_bwd_kBlockN (head_size_rounded head_size)
        + mha_varlen_bwd_kBlockN (head_size_rounded head_size) < 2147483648) :
    mha_varlen_bwd_kBlockM (head_size_rounded head_size) softcap_is_zero ∣
      total_q_padded_rounded total_q batch_size
        (mha_varlen_bwd_kBlockM (head_size_rounded head_size) softcap_is_zero) ∧
    padded_rows seqlens_q (mha_varlen_bwd_kBlockM (head_size_rounded head_size) softcap_is_zero)
      ≤ total_q_padded_rounded total_q batch_size
        (mha_varlen_bwd_kBlockM (head_size_rounded head_size) softcap_is_zero) ∧
    mha_varlen_bwd_kBlockN (head_size_rounded head_size) ∣
      total_k_padded_rounded total_k batch_size
        (mha_varlen_bwd_kBlockN (head_size_rounded head_size)) ∧
    padded_rows seqlens_k (mha_varlen_bwd_kBlockN (head_size_rounded head_size))
      ≤ total_k_padded_rounded total_k batch_size
        (mha_varlen_bwd_kBlockN (head_size_rounded head_size)) := by
  have hBM := mha_varlen_bwd_kBlockM_pos (head_size_rounded head_size) softcap_is_zero
  have hBN := mha_varlen_bwd_kBlockN_pos (head_size_rounded head_size)
  have hb0 : 0 ≤ batch_size := by rw [← hbq]; exact Int.ofNat_nonneg _
  have hq0 := (padded_rows_le seqlens_q _ hBM hq).1
  have hk0 := (padded_rows_le seqlens_k _ hBN hk).1
  have hM := padded_total_ge seqlens_q _ hBM hq
  have hN := padded_total_ge seqlens_k _ hBN hk
  rw [hsq, hbq] at hM
  rw [hsk, hbk] at hN
  rw [hsq] at hq0
  rw [hsk] at hk0
  unfold total_q_padded_rounded total_k_padded_rounded
  rw [padded_total_int_eq total_q batch_size _ hq0 hb0 hBM hoq,
    padded_total_int_eq total_k batch_size _ hk0 hb0 hBN hok]
  exact ⟨hM.1, hM.2, hN.1, hN.2⟩

/-- C30, amended, at two rows of 5 and 130 queries and of 70 and 1 keys, head
dimension 64 without softcap (kBlockM = kBlockN = 128): the padded rows are 384
and 256, the buffers have 512 and 384 rows. -/
theorem padded_ragged_buffers_witness :
    mha_varlen_bwd_kBlockM (head_size_rounded 64) true = 128 ∧
    padded_rows [5, 130] 128 = 384 ∧ total_q_padded_rounded 135 2 128 = 512 ∧
    padded_rows [70, 1] 128 = 256 ∧ total_k_padded_rounded 71 2 128 = 384 ∧
    padded_rows [5, 130] (mha_varlen_bwd_kBlockM (head_size_rounded 64) true)
      ≤ total_q_padded_rounded 135 2
        (mha_varlen_bwd_kBlockM (head_size_rounded 64) true) :=
  ⟨by decide, by decide, by decide, by decide, by decide,
    (padded_ragged_buffers [5, 130] [70, 1] 135 71 2 64 true (by decide) (by decide)
      (by decide) (by decide) (by decide) (by decide) (by decide) (by decide)).2.1⟩

/-! ## Page table: the quotient of `run_flash_fwd` -/

theorem checked_div_mul_cancel (m p : Int) (hp : p ≠ 0) :
    checked_div (m * p) p = some m := by
  unfold checked_div
  rw [if_neg hp, Int.mul_tdiv_cancel _ hp]

/-- C29, as stated, fails: the sample call of `mha_fwd_kvcache` on a paged cache
with pages of 65536 keys and a page table of shape (2, 65537) passes every check
and launches the kernel; the key length 65537 * 65536 wraps to 65536 in the
32-bit `int` of the plan, and the shape handed to the mainloop is (2, 1), not
(batch_size_k, max_num_pages_per_seq) = (2, 65537). -/
theorem page_size_division_counterexample :
    sample_kvcache_args_paged_wide.page_table_
      = some (sample_tensor ScalarType.Int32 [2, 65537]) ∧
    sample_kvcache_args_paged_wide.batch_size_k = 2 ∧
    sample_kvcache_args_paged_wide.max_num_pages_per_seq = 65537 ∧
    sample_kvcache_args_paged_wide.page_size = 65536 ∧
    (mha_fwd_kvcache_page_params sample_kvcache_args_paged_wide).seqlen_k = 65536 ∧
    (∃ r, mha_fwd_kvcache sample_kvcache_args_paged_wide = Except.ok r ∧
      r.kernel_launched = true) ∧
    run_flash_fwd_shape_page_table (mha_fwd_kvcache_page_params sample_kvcache_args_paged_wide)
      = some (2, 1) ∧
    run_flash_fwd_shape_page_table (mha_fwd_kvcache_page_params sample_kvcache_args_paged_wide)
      ≠ some (sample_kvcache_args_paged_wide.batch_size_k,
          sample_kvcache_args_paged_wide.max_num_pages_per_seq) :=
  ⟨rfl, by decide, by decide, by decide, by decide, ⟨_, rfl, rfl⟩, by decide, by decide⟩

/-- C29, amended: the page-size division of `run_flash_fwd` is safe, and exact
while the key length fits 32 bits. For every call of `mha_fwd_kvcache` that
passes its checks and launches the kernel (the cache having a non-negative
second size): `params.page_size` is positive; without a page table the quotient
is not evaluated and the shape handed on is (batch_size_k, 0); with a page table
the quotient has a value, and if max_num_pages_per_seq ≥ 0 and
max_num_pages_per_seq * page_size < 2^31 the shape handed on is
(batch_size_k, max_num_pages_per_seq), the sizes of the page table. The plans of
`mha_fwd` and `mha_varlen_fwd` carry no page table, and the quotient is not
evaluated although their `page_size` is 0. -/
theorem page_size_division_safe (a : KvcacheArgs) (r : FwdOutcome)
    (h : mha_fwd_kvcache a = Except.ok r) (hl : r.kernel_launched = true)
    (hs : 0 ≤ a.kcache.size 1) :
    0 < (mha_fwd_kvcache_page_params a).page_size ∧
    (a.page_table_ = none →
      run_flash_fwd_shape_page_table (mha_fwd_kvcache_page_params a)
        = some (a.batch_size_k, 0)) ∧
    (∀ page_table, a.page_table_ = some page_table →
      (∃ pages, run_flash_fwd_shape_page_table (mha_fwd_kvcache_page_params a)
        = some (a.batch_size_k, pages)) ∧
      page_table.sizes = [a.batch_size_k, a.max_num_pages_per_seq] ∧
      (0 ≤ a.max_num_pages_per_seq →
        a.max_num_pages_per_seq * a.page_size < 2147483648 →
        run_flash_fwd_shape_page_table (mha_fwd_kvcache_page_params a)
          = some (a.batch_size_k, a.max_num_pages_per_seq))) ∧
    (∀ b : FwdArgs, (mha_fwd_page_params b).page_size = 0 ∧
      run_flash_fwd_shape_page_table (mha_fwd_page_params b) = some (b.batch_size, 0)) ∧
    (∀ b : VarlenFwdArgs, (mha_varlen_fwd_page_params b).page_size = 0 ∧
      run_flash_fwd_shape_page_table (mha_varlen_fwd_page_params b)
        = some (b.batch_size, 0)) := by
  obtain ⟨hb, hpt⟩ := mha_fwd_kvcache_page_ok a r h
  obtain ⟨hk, -⟩ := mha_fwd_kvcache_ok a r h
  rw [hl] at hk
  have hsk : a.seqlen_k > 0 := by
    have := hk.symm
    simp only [Bool.and_eq_true, decide_eq_true_eq] at this
    exact this.1.2
  have hrows : (if a.cache_batch_idx_.isSome then a.batch_size_k else a.batch_size)
      = a.batch_size_k := by
    cases hc : a.cache_batch_idx_.isSome
    · simp [hb hc]
    · simp
  have hpos : ∀ page_table, a.page_table_ = some page_table → 0 < a.kcache.size 1 := by
    intro page_table hp
    simp only [KvcacheArgs.seqlen_k, hp] at hsk
    rcases lt_or_eq_of_le hs with h1 | h1
    · exact h1
    · rw [← h1, mul_zero] at hsk
      exact absurd hsk (by decide)
  refine ⟨?_, ?_, ?_, fun b => ⟨rfl, rfl⟩, fun b => ⟨rfl, rfl⟩⟩
  · cases hp : a.page_table_ with
    | none => simp [mha_fwd_kvcache_page_params, KvcacheArgs.page_size, hp]
    | some page_table =>
      simp only [mha_fwd_kvcache_page_params, KvcacheArgs.page_size, hp, Option.isSome_some,
        Bool.not_true, Bool.false_eq_true, if_false]
      exact hpos page_table hp
  · intro hp
    simp only [run_flash_fwd_shape_page_table, mha_fwd_kvcache_page_params, hp,
      Option.isSome_none, Bool.not_false, if_true, hrows]
  · intro page_table hp
    have hne : a.kcache.size 1 ≠ 0 := ne_of_gt (hpos page_table hp)
    refine ⟨?_, hpt page_table hp, ?_⟩
    · simp only [run_flash_fwd_shape_page_table, mha_fwd_kvcache_page_params, hp,
        Option.isSome_some, Bool.not_true, Bool.false_eq_true, if_false, hrows,
        KvcacheArgs.page_size, checked_div, if_neg hne, Option.map_some']
      exact ⟨_, rfl⟩
    · intro hm hlt
      simp only [KvcacheArgs.max_num_pages_per_seq, KvcacheArgs.page_size, hp,
        Option.isSome_some, Bool.not_true, Bool.false_eq_true, if_false] at hm hlt
      have hprod : 0 ≤ page_table.size 1 * a.kcache.size 1 := mul_nonneg hm hs
      simp only [run_flash_fwd_shape_page_table, mha_fwd_kvcache_page_params, hp,
        Option.isSome_some, Bool.not_true, Bool.false_eq_true, if_false, hrows,
        KvcacheArgs.seqlen_k, KvcacheArgs.page_size, KvcacheArgs.max_num_pages_per_seq,
        int32_eq_self _ (by omega : -2147483648 ≤ page_table.size 1 * a.kcache.size 1) hlt,
        checked_div_mul_cancel _ _ hne, Option.map_some']

/-- C29, amended, at the paged sample call of `mha_fwd_kvcache` (8 pages of 16
keys, page table of shape (2, 4)): the kernel is launched, the page size is 16
and the shape handed to the mainloop is (2, 4). -/
theorem page_size_division_safe_witness :
    (∃ r, mha_fwd_kvcache sample_kvcache_args_paged = Except.ok r ∧
      r.kernel_launched = true) ∧
    (mha_fwd_kvcache_page_params sample_kvcache_args_paged).page_size = 16 ∧
    (mha_fwd_kvcache_page_params sample_kvcache_args_paged).seqlen_k = 64 ∧
    run_flash_fwd_shape_page_table (mha_fwd_kvcache_page_params sample_kvcache_args_paged)
      = some (2, 4) ∧
    0 < (mha_fwd_kvcache_page_params sample_kvcache_args_paged).page_size ∧
    run_flash_fwd_shape_page_table (mha_fwd_kvcache_page_params sample_kvcache_args_paged)
      = some (sample_kvcache_args_paged.batch_size_k,
          sample_kvcache_args_paged.max_num_pages_per_seq) :=
  ⟨⟨_, rfl, rfl⟩, by decide, by decide, by decide,
    (page_size_division_safe sample_kvcache_args_paged _ rfl rfl (by decide)).1,
    ((page_size_division_safe sample_kvcache_args_paged _ rfl rfl (by decide)).2.2.1
      _ rfl).2.2 (by decide) (by decide)⟩


/-! ## Acceptance: a call that meets the constraints passes every check -/

end FlashAttn
